import Mathlib

/-!
Verification of the color-quantization and GIF codec core
(octree quantizer `doc/octree_map.cpp`, GIF encoder/decoder in
`src/app/script/script_input_chain.cpp`) against its natural-language
specification.  The C++ sources are shallowly embedded as executable Lean
functions; machine integers are modelled as `Nat`/`Int` with explicit
conversions where C++ integer conversions matter.
-/

/-! ## Packed RGBA colors (`src/doc/color.h`) -/

/-- Packed 32-bit RGBA value (`doc::color_t`). -/
abbrev color_t := Nat

/-- `doc::rgba_getr`: red channel of a packed color. -/
def rgba_getr (c : color_t) : Nat := (c >>> 0) &&& 0xff

/-- `doc::rgba_getg`: green channel of a packed color. -/
def rgba_getg (c : color_t) : Nat := (c >>> 8) &&& 0xff

/-- `doc::rgba_getb`: blue channel of a packed color. -/
def rgba_getb (c : color_t) : Nat := (c >>> 16) &&& 0xff

/-- `doc::rgba_geta`: alpha channel of a packed color. -/
def rgba_geta (c : color_t) : Nat := (c >>> 24) &&& 0xff

/-- `doc::rgba`: pack four 8-bit channels into a `color_t`. -/
def rgba (r g b a : Nat) : color_t :=
  (r <<< 0) ||| (g <<< 8) ||| (b <<< 16) ||| (a <<< 24)

/-! ## Static hextet conversions (`OctreeNode`, `doc/octree_map.cpp` 93-116) -/

/-- `OctreeNode::getHextet(color_t c, int level)`: 4-bit index combining one
bit of each RGBA channel of `c` at the given tree depth. -/
def OctreeNode.getHextet (c : color_t) (level : Nat) : Nat :=
  (if c &&& (0x00000080 >>> level) ≠ 0 then 1 else 0) |||
  (if c &&& (0x00008000 >>> level) ≠ 0 then 2 else 0) |||
  (if c &&& (0x00800000 >>> level) ≠ 0 then 4 else 0) |||
  (if c &&& (0x80000000 >>> level) ≠ 0 then 8 else 0)

/-- `OctreeNode::getHextet(int r, int g, int b, int a, int level)`:
channel-wise variant of the hextet extractor. -/
def OctreeNode.getHextetRgba (r g b a : Nat) (level : Nat) : Nat :=
  (if r &&& (0x80 >>> level) ≠ 0 then 1 else 0) |||
  (if g &&& (0x80 >>> level) ≠ 0 then 2 else 0) |||
  (if b &&& (0x80 >>> level) ≠ 0 then 4 else 0) |||
  (if a &&& (0x80 >>> level) ≠ 0 then 8 else 0)

/-- `OctreeNode::hextetToBranchColor(int hextet, int level)`: rebuild the
packed color bit pattern selected by `hextet` at depth `level`. -/
def OctreeNode.hextetToBranchColor (hextet : Nat) (level : Nat) : color_t :=
  (if hextet &&& 1 ≠ 0 then 0x00000080 >>> level else 0) |||
  (if hextet &&& 2 ≠ 0 then 0x00008000 >>> level else 0) |||
  (if hextet &&& 4 ≠ 0 then 0x00800000 >>> level else 0) |||
  (if hextet &&& 8 ≠ 0 then 0x80000000 >>> level else 0)

/-- C10: for every hextet `h < 16` and level `l < 8`, extracting the hextet of
the branch color built from `h` at level `l` returns `h` again; the two static
conversions of `OctreeNode` form a round trip. -/
theorem spec_c10_hextet_roundtrip :
    ∀ h < 16, ∀ l < 8,
      OctreeNode.getHextet (OctreeNode.hextetToBranchColor h l) l = h := by
  decide

/-- Witness for C10 at the concrete input `h = 13`, `l = 5`. -/
theorem spec_c10_hextet_roundtrip_witness :
    OctreeNode.getHextet (OctreeNode.hextetToBranchColor 13 5) 5 = 13 :=
  spec_c10_hextet_roundtrip 13 (by decide) 5 (by decide)

/-! ## Octree data model (`doc/octree_map.cpp`)

The C++ octree is a pointer structure mutated in place.  Following the
design notes of the spec it is embedded as a flat growable array of nodes
(`Heap`), children and parents referenced by index; index 0 is the root.
-/

/-- Accumulator held by an octree leaf: running RGBA channel sums plus a
pixel count, producing an averaged color.
Modelled from the spec: class `LeafColor` lives in `doc/octree_map.h`,
which is not among the sources; spec section 3 describes it as "a leaf holds
an accumulator (running RGBA sum + pixel count, producing an averaged
color)". -/
structure LeafColor where
  r : Nat
  g : Nat
  b : Nat
  a : Nat
  pixelCount : Nat
deriving DecidableEq, Repr

instance : Inhabited LeafColor := ⟨⟨0, 0, 0, 0, 0⟩⟩

/-- `LeafColor::add(color_t)`: fold one color into the accumulator.
Modelled from the spec (running RGBA sum + pixel count). -/
def LeafColor.addColor (lc : LeafColor) (c : color_t) : LeafColor :=
  ⟨lc.r + rgba_getr c, lc.g + rgba_getg c, lc.b + rgba_getb c,
   lc.a + rgba_geta c, lc.pixelCount + 1⟩

/-- `LeafColor::add(LeafColor)`: merge another accumulator into this one.
Modelled from the spec (component-wise sum of the running statistics). -/
def LeafColor.addLeaf (lc other : LeafColor) : LeafColor :=
  ⟨lc.r + other.r, lc.g + other.g, lc.b + other.b,
   lc.a + other.a, lc.pixelCount + other.pixelCount⟩

/-- `LeafColor::rgbaColor()`: averaged color of the accumulator.
Modelled from the spec ("producing an averaged color"). -/
def LeafColor.rgbaColor (lc : LeafColor) : color_t :=
  rgba (lc.r / lc.pixelCount) (lc.g / lc.pixelCount)
       (lc.b / lc.pixelCount) (lc.a / lc.pixelCount)

/-- One `OctreeNode`: up to 16 lazily allocated children (heap indices), a
parent back-reference (heap index), the leaf accumulator and the cached
palette index (−1 until resolved). -/
structure OctreeNode where
  children : Option (List Nat)
  parent : Nat
  leafColor : LeafColor
  paletteIndex : Int
deriving DecidableEq, Repr

instance : Inhabited OctreeNode := ⟨⟨none, 0, default, -1⟩⟩

/-- Flat node store standing for the C++ heap; index 0 is `m_root`. -/
abbrev Heap := List OctreeNode

/-- Dereference a node id (a default node if out of range). -/
def getNode (h : Heap) (i : Nat) : OctreeNode := h.getD i default

/-- Write back a node at a given id. -/
def setNode (h : Heap) (i : Nat) (n : OctreeNode) : Heap := h.set i n

/-- `new std::array<OctreeNode, 16>()`: allocate 16 fresh default children
and return their heap ids. -/
def allocChildren (h : Heap) : Heap × List Nat :=
  (h ++ List.replicate 16 default, (List.range 16).map (· + h.length))

/-- `OctreeNode::isLeaf()`: a node counts as a leaf once colors were folded
into its accumulator.
Modelled from the spec: the predicate is declared in the missing
`doc/octree_map.h`; per spec section 3 a leaf is a node holding accumulated
pixel statistics. -/
def OctreeNode.isLeaf (n : OctreeNode) : Bool := n.leafColor.pixelCount ≠ 0

/-- `OctreeNode::hasChildren()`: whether the child array was allocated.
Modelled from the spec (children are "lazily-allocated"). -/
def OctreeNode.hasChildren (n : OctreeNode) : Bool := n.children.isSome

/-- Recursion core of `OctreeNode::addColor` (`doc/octree_map.cpp` 23-37):
set the parent back-reference, fold the color into the leaf at `levelDeep`,
otherwise descend through the child selected by the hextet at the current
level, allocating the 16-child array on demand.  The C++ recursion descends
`levelDeep - level` times; `fuel` bounds it structurally and is never
exhausted when initialized to `levelDeep + 1`. -/
def OctreeNode.addColorGo : Nat → Heap → Nat → color_t → Nat → Nat → Int →
    Nat → Heap
  | 0, h, _, _, _, _, _, _ => h
  | fuel + 1, h, selfId, c, level, parentId, paletteIndex, levelDeep =>
    let h := setNode h selfId { getNode h selfId with parent := parentId }
    if levelDeep ≤ level then
      let self := getNode h selfId
      setNode h selfId
        { self with leafColor := self.leafColor.addColor c,
                    paletteIndex := paletteIndex }
    else
      let index := OctreeNode.getHextet c level
      let alloc :=
        match (getNode h selfId).children with
        | some kids => (h, kids)
        | none =>
          let fresh := allocChildren h
          (setNode fresh.1 selfId
            { getNode fresh.1 selfId with children := some fresh.2 },
           fresh.2)
      OctreeNode.addColorGo fuel alloc.1 (alloc.2.getD index 0) c (level + 1)
        selfId paletteIndex levelDeep

/-- `OctreeNode::addColor` with ample fuel for its depth-bounded descent. -/
def OctreeNode.addColor (h : Heap) (selfId : Nat) (c : color_t) (level : Nat)
    (parentId : Nat) (paletteIndex : Int) (levelDeep : Nat) : Heap :=
  OctreeNode.addColorGo (levelDeep + 1) h selfId c level parentId paletteIndex
    levelDeep

/-- `OctreeNode::collectLeafNodes` (`doc/octree_map.cpp` 54-68): walk the 16
children in order, assign the shared incremental palette index to each leaf
and push it onto the leaves vector, recursing into internal children.  The
C++ recursion is bounded by the tree depth (at most 8); `fuel` conservatively
bounds it in the embedding. -/
def OctreeNode.collectLeafNodes : Nat → Heap → Nat → List Nat → Int →
    Heap × List Nat × Int
  | 0, h, _, acc, pIdx => (h, acc, pIdx)
  | fuel + 1, h, selfId, acc, pIdx =>
    (List.range 16).foldl
      (fun st i =>
        let kids := (getNode st.1 selfId).children.getD []
        let cid := kids.getD i 0
        let child := getNode st.1 cid
        if child.isLeaf then
          (setNode st.1 cid { child with paletteIndex := st.2.2 },
           st.2.1 ++ [cid], st.2.2 + 1)
        else if child.hasChildren then
          OctreeNode.collectLeafNodes fuel st.1 cid st.2.1 st.2.2
        else st)
      (h, acc, pIdx)

/-- `OctreeNode::removeLeaves` (`doc/octree_map.cpp` 73-90): fold every leaf
child (scanned from index 15 down to 0) into this node's accumulator, popping
a child from the back of the root leaves vector whenever it is the current
last element, then push this node onto the auxiliary parent vector.  Returns
the updated heap, aux vector, leaves vector and the C++ return value
(`result - 1`, discarded by the caller). -/
def OctreeNode.removeLeaves (h : Heap) (selfId : Nat)
    (aux leaves : List Nat) : Heap × List Nat × List Nat × Int :=
  let scanned :=
    ((List.range 16).reverse).foldl
      (fun st i =>
        let kids := (getNode st.1 selfId).children.getD []
        let cid := kids.getD i 0
        let child := getNode st.1 cid
        if child.isLeaf then
          let self := getNode st.1 selfId
          let h2 := setNode st.1 selfId
            { self with leafColor := self.leafColor.addLeaf child.leafColor }
          let lv := if st.2.1.getLast? = some cid then st.2.1.dropLast else st.2.1
          (h2, lv, st.2.2 + 1)
        else st)
      (h, leaves, (0 : Int))
  (scanned.1, aux ++ [selfId], scanned.2.1, scanned.2.2 - 1)

/-- State threaded through the reduction loops of `OctreeMap::makePalette`:
the heap, `m_leavesVector` and the local `auxLeavesVector`. -/
structure MPSt where
  heap : Heap
  leaves : List Nat
  aux : List Nat
deriving DecidableEq, Repr

/-- C++ comparison of a `size_t` against an `int` (as in
`m_leavesVector.size() <= colorCount`): the `int` is converted to the
unsigned 64-bit type first. -/
def uleB (n : Nat) (c : Int) : Bool := n ≤ (c.emod (2 ^ 64)).toNat

/-- C++ `size_t < int` comparison, with the `int` converted to unsigned. -/
def ultB (n : Nat) (c : Int) : Bool := n < (c.emod (2 ^ 64)).toNat

/-- Pixel count of the leaf accumulator of a node id. -/
def leafPixelCount (h : Heap) (i : Nat) : Nat :=
  (getNode h i).leafColor.pixelCount

/-- Inner scan of the sort phase of the low-target fallback
(`doc/octree_map.cpp` 187-198): index of the first entry with maximal
pixel count (strict comparisons keep the earliest maximum). -/
def findMaxIdx (h : Heap) (aux : List Nat) : Nat :=
  ((List.range aux.length).drop 1).foldl
    (fun best j =>
      if leafPixelCount h (aux.getD best 0) < leafPixelCount h (aux.getD j 0)
      then j else best)
    0

/-- Sort phase of the low-target fallback: repeatedly move the entry with the
largest pixel count from `aux` to the back of `sorted` (selection sort,
descending pixel count). -/
def sortLoop (h : Heap) : Nat → List Nat → List Nat → List Nat × List Nat
  | 0, aux, sorted => (aux, sorted)
  | k + 1, aux, sorted =>
    let mi := findMaxIdx h aux
    sortLoop h k (aux.eraseIdx mi) (sorted ++ [aux.getD mi 0])

/-- Recursion core of the blend phase of the low-target fallback
(`doc/octree_map.cpp` 201-210): while the sorted vector is larger than
`colorCount`, fold the last entry's accumulator into the second-to-last and
drop the last.  Each step shortens the vector, so fuel equal to its length
is never exhausted. -/
def blendLoopGo (cc : Int) : Nat → Heap → List Nat → Heap × List Nat
  | 0, h, sorted => (h, sorted)
  | fuel + 1, h, sorted =>
    if uleB sorted.length cc then (h, sorted)
    else
      let id2 := sorted.getD (sorted.length - 2) 0
      let id1 := sorted.getD (sorted.length - 1) 0
      let n2 := getNode h id2
      let h2 := setNode h id2
        { n2 with leafColor := n2.leafColor.addLeaf (getNode h id1).leafColor }
      blendLoopGo cc fuel h2 sorted.dropLast

/-- Blend phase of the low-target fallback, with fuel covering the whole
vector. -/
def blendLoop (cc : Int) (h : Heap) (sorted : List Nat) : Heap × List Nat :=
  blendLoopGo cc sorted.length h sorted

/-- Low-target fallback of `makePalette` (`doc/octree_map.cpp` 183-214):
sort the collapsed leaves descending by pixel count, blend pairs from the
least-used end until the count fits, and push the result onto the leaves
vector. -/
def fallbackBlend (cc : Int) (st : MPSt) : MPSt :=
  let srt := sortLoop st.heap st.aux.length st.aux []
  let bl := blendLoop cc st.heap srt.2
  { heap := bl.1, leaves := st.leaves ++ bl.2, aux := srt.1 }

/-- Body of one iteration of the reduction loop
(`doc/octree_map.cpp` 219): collapse the parent of the current last leaf. -/
def innerBody (st : MPSt) : MPSt :=
  let backId := (st.leaves.getLast?).getD 0
  let parentId := (getNode st.heap backId).parent
  let res := OctreeNode.removeLeaves st.heap parentId st.aux st.leaves
  { heap := res.1, leaves := res.2.2.1, aux := res.2.1 }

/-- Inner reduction loop of `makePalette` (`doc/octree_map.cpp` 168-220),
running at most `i` iterations (the C++ counter runs from `size-1` down
to 0).  Returns the final state and the `keepReducingMap` flag. -/
def innerLoop (cc : Int) : Nat → MPSt → MPSt × Bool
  | 0, st => (st, true)
  | i + 1, st =>
    if uleB (st.leaves.length + st.aux.length) cc then
      ({ st with leaves := st.leaves ++ st.aux.reverse }, false)
    else if st.leaves.length = 0 then
      if st.aux.length ≤ 16 ∧ cc < 16 ∧ 0 < cc then (fallbackBlend cc st, false)
      else (st, true)
    else innerLoop cc i (innerBody st)

/-- Outer level loop of `makePalette` (`doc/octree_map.cpp` 167-230): run the
inner loop once per level from `levelDeep` down to 0; while
`keepReducingMap` holds, append the collapsed parents (in reverse push
order) to the leaves vector and clear the auxiliary vector. -/
def levelsLoop (cc : Int) : Nat → MPSt → MPSt
  | 0, st => st
  | n + 1, st =>
    let step := innerLoop cc st.leaves.length st
    if step.2 then
      levelsLoop cc n
        { step.1 with leaves := step.1.leaves ++ step.1.aux.reverse, aux := [] }
    else step.1

/-- Final palette construction of `makePalette`
(`doc/octree_map.cpp` 231-243): entry 0 is reserved as transparent when the
mask color is included, followed by the averaged colors of the remaining
leaves. -/
def buildPalette (h : Heap) (leaves : List Nat) (includeMask : Bool) :
    List color_t :=
  if includeMask then 0 :: leaves.map (fun i => (getNode h i).leafColor.rgbaColor)
  else leaves.map (fun i => (getNode h i).leafColor.rgbaColor)

/-- The `OctreeMap` owning the root node, the current leaves vector, the
transparent/mask index and the reference plus modification stamp of the
palette it was built from. -/
structure OctreeMap where
  heap : Heap
  leaves : List Nat
  maskIndex : Int
  includeMaskColorInPalette : Bool
  palId : Option Nat
  modifications : Int
deriving DecidableEq, Repr

/-- Freshly constructed `OctreeMap` (no sprite).
Modelled from the spec: the default member initializers live in the missing
`doc/octree_map.h`; per the sources the mask index starts at −1
(`doc/octree_map.cpp` 128) and the reserved transparency slot is appended
when required by the caller (spec section 4.1). -/
def OctreeMap.fresh : OctreeMap :=
  { heap := [default], leaves := [], maskIndex := -1,
    includeMaskColorInPalette := true, palId := none, modifications := 0 }

/-- `OctreeMap::addColor(color, levelDeep)` wrapper.
Modelled from the spec: the one-line wrapper lives in the missing header;
it descends from the root exactly like the call
`m_root.addColor(entry, 0, &m_root, i, 8)` visible in `regenerateMap`
(`doc/octree_map.cpp` 313), with palette index 0 for fed pixels. -/
def OctreeMap.addColor (m : OctreeMap) (c : color_t) (levelDeep : Nat) :
    OctreeMap :=
  { m with heap := OctreeNode.addColor m.heap 0 c 0 0 0 levelDeep }

/-- Fuel for the depth-bounded tree recursions: trees built by `addColor`
have depth at most 8, so 17 levels of fuel are never exhausted. -/
def collectFuel : Nat := 17

/-- Leaf collection phase of `makePalette` (`doc/octree_map.cpp` 146-152):
when the root has children, append all current leaves (in depth-first child
order) to `m_leavesVector`. -/
def OctreeMap.collectPhase (m : OctreeMap) : Heap × List Nat :=
  if (getNode m.heap 0).hasChildren then
    let res := OctreeNode.collectLeafNodes collectFuel m.heap 0 m.leaves 0
    (res.1, res.2.1)
  else (m.heap, m.leaves)

/-- `OctreeMap::makePalette` (`doc/octree_map.cpp` 142-246): collect the
leaves, reserve one slot when the mask color is included, fail early when a
depth-7 tree cannot reach the requested count, otherwise collapse level by
level (with the low-target fallback) and emit the palette. -/
def OctreeMap.makePalette (m : OctreeMap) (paletteIn : List color_t)
    (colorCount : Int) (levelDeep : Nat) : Bool × List color_t × OctreeMap :=
  let col := m.collectPhase
  let cc := if m.includeMaskColorInPalette then colorCount - 1 else colorCount
  if levelDeep = 7 ∧ ultB col.2.length cc then
    (false, paletteIn, { m with heap := col.1, leaves := col.2 })
  else
    let st := levelsLoop cc (levelDeep + 1) ⟨col.1, col.2, []⟩
    (true, buildPalette st.heap st.leaves m.includeMaskColorInPalette,
     { m with heap := st.heap, leaves := st.leaves })

/-! ## GIF encoder: delta image, frame bounds and disposal
(`GifEncoder::calculateDeltaImageFrameBoundsDisposal`,
`src/app/script/script_input_chain.cpp` 2566-2675)

Truecolor frames are embedded as lists of packed RGBA pixels in row-major
order over a `spriteW × spriteH` canvas.
-/

/-- `doc::DisposalMethod`. -/
inductive DisposalMethod
  | NONE
  | DO_NOT_DISPOSE
  | RESTORE_BGCOLOR
  | RESTORE_PREVIOUS
deriving DecidableEq, Repr

/-- `gfx::Rect` with signed position and size. -/
structure GRect where
  x : Int
  y : Int
  w : Int
  h : Int
deriving DecidableEq, Repr

/-- `gfx::Rect::isEmpty()`: width or height below 1. -/
def GRect.isEmpty (r : GRect) : Bool := r.w < 1 ∨ r.h < 1

/-- The final adjustment of `calculateDeltaImageFrameBoundsDisposal`
(line 2671-2672): an empty rectangle collapses to the 1×1 rectangle at the
origin. -/
def fixRect (r : GRect) : GRect := if r.isEmpty then ⟨0, 0, 1, 1⟩ else r

/-- Encoder state consulted and updated by the delta computation. -/
structure EncoderSt where
  spriteW : Nat
  spriteH : Nat
  hasBackground : Bool
  preservePaletteOrder : Bool
  lastFrameBounds : GRect
  lastDisposal : DisposalMethod
deriving DecidableEq, Repr

/-- Frame-0 pixel-clearing scan (lines 2578-2590): walk current and next
frame in lockstep and stop at the first pixel that is opaque (non-zero) now
and fully transparent (zero) in the next frame. -/
def pixelClearingScan : List Nat → List Nat → Bool
  | c :: cs, n :: ns =>
    if c ≠ 0 ∧ n = 0 then true else pixelClearingScan cs ns
  | _, _ => false

/-- Accumulator of the frame-difference loop (lines 2614-2648): the growing
difference bounds, the disposal method and the delta pixels written so
far. -/
structure DeltaAcc where
  x1 : Int
  y1 : Int
  x2 : Int
  y2 : Int
  disposal : DisposalMethod
  delta : List Nat
deriving DecidableEq, Repr

/-- One iteration of the frame-difference loop at pixel index `i`
(lines 2629-2648): mark the delta pixel and enlarge the bounds when the
pixel differs between previous and current frame or turns fully transparent
in the next frame; force disposal to `RESTORE_BGCOLOR` on a pixel
clearing. -/
def deltaStep (w : Nat) (prev cur next : List Nat) (acc : DeltaAcc)
    (i : Nat) : DeltaAcc :=
  let p1 := prev.getD i 0
  let p2 := cur.getD i 0
  let p3 := next.getD i 0
  let x : Int := (i % w : Nat)
  let y : Int := (i / w : Nat)
  let acc :=
    if p1 ≠ p2 ∨ p3 = 0 then
      { acc with
        delta := acc.delta ++ [p2],
        x1 := if x < acc.x1 then x else acc.x1,
        x2 := if acc.x2 < x then x else acc.x2,
        y1 := if y < acc.y1 then y else acc.y1,
        y2 := if acc.y2 < y then y else acc.y2 }
    else { acc with delta := acc.delta ++ [0] }
  if p2 ≠ 0 ∧ p3 = 0 then
    { acc with disposal := DisposalMethod.RESTORE_BGCOLOR }
  else acc

/-- Initial difference bounds (lines 2593-2612): the previous frame bounds
when the last disposal was `RESTORE_BGCOLOR`, otherwise the degenerate
corner initialization. -/
def initAcc (st : EncoderSt) : DeltaAcc :=
  if st.lastDisposal = DisposalMethod.RESTORE_BGCOLOR then
    ⟨st.lastFrameBounds.x, st.lastFrameBounds.y,
     st.lastFrameBounds.x + st.lastFrameBounds.w - 1,
     st.lastFrameBounds.y + st.lastFrameBounds.h - 1,
     DisposalMethod.DO_NOT_DISPOSE, []⟩
  else
    ⟨(st.spriteW : Int) - 1, (st.spriteH : Int) - 1, 0, 0,
     DisposalMethod.DO_NOT_DISPOSE, []⟩

/-- The whole frame-difference loop over every canvas pixel. -/
def deltaFold (st : EncoderSt) (prev cur next : List Nat) : DeltaAcc :=
  (List.range prev.length).foldl (deltaStep st.spriteW prev cur next)
    (initAcc st)

/-- Pixel read used by `crop_image`: 0 outside the source image. -/
def cropPixel (img : List Nat) (w h : Nat) (x y : Int) : Nat :=
  if 0 ≤ x ∧ x < (w : Int) ∧ 0 ≤ y ∧ y < (h : Int) then
    img.getD (y.toNat * w + x.toNat) 0
  else 0

/-- `doc::crop_image(img, bounds, 0)`: the `bounds`-sized window of `img`,
zero-filled outside. -/
def cropImage (img : List Nat) (w h : Nat) (r : GRect) : List Nat :=
  (List.range r.h.toNat).foldl
    (fun acc yy =>
      acc ++ (List.range r.w.toNat).map
        (fun xx => cropPixel img w h (r.x + xx) (r.y + yy)))
    []

/-- `GifEncoder::calculateDeltaImageFrameBoundsDisposal` (lines 2566-2675):
returns the frame bounds, the chosen disposal method, the delta image and
the updated encoder state. -/
def calculateDeltaImageFrameBoundsDisposal (st : EncoderSt) (gifFrame : Nat)
    (prev cur next : List Nat) :
    GRect × DisposalMethod × List Nat × EncoderSt :=
  if gifFrame = 0 then
    let disposal :=
      if st.hasBackground = false ∧ pixelClearingScan cur next then
        DisposalMethod.RESTORE_BGCOLOR
      else DisposalMethod.DO_NOT_DISPOSE
    let frameBounds : GRect := ⟨0, 0, (st.spriteW : Int), (st.spriteH : Int)⟩
    (fixRect frameBounds, disposal, cur, { st with lastDisposal := disposal })
  else
    let acc := deltaFold st prev cur next
    let disposal :=
      if st.preservePaletteOrder then DisposalMethod.RESTORE_BGCOLOR
      else acc.disposal
    let frameBounds : GRect :=
      ⟨acc.x1, acc.y1, acc.x2 - acc.x1 + 1, acc.y2 - acc.y1 + 1⟩
    let branch :=
      if disposal = DisposalMethod.RESTORE_BGCOLOR ∨
          st.lastDisposal = DisposalMethod.RESTORE_BGCOLOR then
        (disposal, cropImage cur st.spriteW st.spriteH frameBounds,
         { st with lastFrameBounds := frameBounds })
      else
        (DisposalMethod.DO_NOT_DISPOSE,
         cropImage acc.delta st.spriteW st.spriteH frameBounds, st)
    (fixRect frameBounds, branch.1, branch.2.1,
     { branch.2.2 with lastDisposal := branch.1 })

/-! ### Disposal correctness (C2) -/

/-- A pixel that is opaque now and transparent in the next frame makes the
frame-0 pixel-clearing scan succeed. -/
theorem pixelClearingScan_true (cur next : List Nat) (i : Nat)
    (hic : i < cur.length) (hin : i < next.length)
    (hc : cur.getD i 0 ≠ 0) (hn : next.getD i 0 = 0) :
    pixelClearingScan cur next = true := by
  induction cur generalizing next i with
  | nil => simp at hic
  | cons c cs ih =>
    cases next with
    | nil => simp at hin
    | cons n ns =>
      by_cases hcc : c ≠ 0 ∧ n = 0
      · simp [pixelClearingScan, hcc]
      · simp only [pixelClearingScan, if_neg hcc]
        cases i with
        | zero =>
          simp only [List.getD_cons_zero] at hc hn
          exact absurd ⟨hc, hn⟩ hcc
        | succ j =>
          exact ih ns j (by simpa using hic) (by simpa using hin)
            (by simpa using hc) (by simpa using hn)

/-- The difference loop never resets an already chosen `RESTORE_BGCOLOR`. -/
theorem deltaStep_disposal_mono (w : Nat) (prev cur next : List Nat)
    (acc : DeltaAcc) (i : Nat)
    (h : acc.disposal = DisposalMethod.RESTORE_BGCOLOR) :
    (deltaStep w prev cur next acc i).disposal =
      DisposalMethod.RESTORE_BGCOLOR := by
  simp only [deltaStep]
  split <;> split <;> simp [h]

/-- A pixel clearing at the current index sets `RESTORE_BGCOLOR`. -/
theorem deltaStep_disposal_hit (w : Nat) (prev cur next : List Nat)
    (acc : DeltaAcc) (i : Nat)
    (hc : cur.getD i 0 ≠ 0) (hn : next.getD i 0 = 0) :
    (deltaStep w prev cur next acc i).disposal =
      DisposalMethod.RESTORE_BGCOLOR := by
  simp only [deltaStep]
  rw [if_pos ⟨hc, hn⟩]

/-- Once set, `RESTORE_BGCOLOR` survives the rest of the difference loop. -/
theorem foldl_deltaStep_mono (w : Nat) (prev cur next : List Nat)
    (l : List Nat) (acc : DeltaAcc)
    (h : acc.disposal = DisposalMethod.RESTORE_BGCOLOR) :
    (l.foldl (deltaStep w prev cur next) acc).disposal =
      DisposalMethod.RESTORE_BGCOLOR := by
  induction l generalizing acc with
  | nil => simpa using h
  | cons j rest ih => exact ih _ (deltaStep_disposal_mono _ _ _ _ _ _ h)

/-- A pixel clearing anywhere in the scanned index list forces
`RESTORE_BGCOLOR` at the end of the difference loop. -/
theorem foldl_deltaStep_restore (w : Nat) (prev cur next : List Nat)
    (l : List Nat) (acc : DeltaAcc) (i : Nat) (hmem : i ∈ l)
    (hc : cur.getD i 0 ≠ 0) (hn : next.getD i 0 = 0) :
    (l.foldl (deltaStep w prev cur next) acc).disposal =
      DisposalMethod.RESTORE_BGCOLOR := by
  induction l generalizing acc with
  | nil => simp at hmem
  | cons j rest ih =>
    rw [List.foldl_cons]
    rcases List.mem_cons.mp hmem with rfl | hmem2
    · exact foldl_deltaStep_mono _ _ _ _ _ _
        (deltaStep_disposal_hit _ _ _ _ _ _ hc hn)
    · exact ih _ hmem2

/-- C2: for consecutive frames where some pixel is opaque (non-zero RGBA) in
the current frame and fully transparent (zero) in the next frame, and the
sprite has no opaque background, the disposal selected for the current frame
is `RESTORE_BGCOLOR`, never `DO_NOT_DISPOSE`. -/
theorem spec_c2_pixel_clearing_forces_restore (st : EncoderSt)
    (gifFrame i : Nat) (prev cur next : List Nat)
    (hbg : st.hasBackground = false)
    (hlp : prev.length = cur.length) (hln : next.length = cur.length)
    (hi : i < cur.length)
    (hc : cur.getD i 0 ≠ 0) (hn : next.getD i 0 = 0) :
    (calculateDeltaImageFrameBoundsDisposal st gifFrame prev cur next).2.1 =
      DisposalMethod.RESTORE_BGCOLOR := by
  by_cases h0 : gifFrame = 0
  · have hscan : pixelClearingScan cur next = true :=
      pixelClearingScan_true cur next i hi (by omega) hc hn
    simp [calculateDeltaImageFrameBoundsDisposal, h0, hbg, hscan]
  · have hacc : (deltaFold st prev cur next).disposal =
        DisposalMethod.RESTORE_BGCOLOR :=
      foldl_deltaStep_restore _ _ _ _ _ _ i
        (List.mem_range.mpr (by omega)) hc hn
    simp [calculateDeltaImageFrameBoundsDisposal, h0, hacc]

/-- Witness for C2: a 1×1 canvas whose only pixel is opaque in the current
frame and transparent in the next. -/
theorem spec_c2_pixel_clearing_forces_restore_witness :
    (calculateDeltaImageFrameBoundsDisposal
      ⟨1, 1, false, false, ⟨0, 0, 1, 1⟩, DisposalMethod.NONE⟩
      1 [0] [5] [0]).2.1 = DisposalMethod.RESTORE_BGCOLOR :=
  spec_c2_pixel_clearing_forces_restore _ 1 0 [0] [5] [0] rfl rfl rfl
    (by decide) (by decide) rfl

/-! ### Delta-rectangle invariants (C3) -/

/-- Well-formedness of a stored rectangle: both horizontal corners lie in
`[0, w-1]` and both vertical corners in `[0, h-1]` (the width and height may
be non-positive for a degenerate rectangle). -/
def rectCornersIn (w h : Nat) (r : GRect) : Prop :=
  0 ≤ r.x ∧ r.x ≤ (w : Int) - 1 ∧
  0 ≤ r.x + r.w - 1 ∧ r.x + r.w - 1 ≤ (w : Int) - 1 ∧
  0 ≤ r.y ∧ r.y ≤ (h : Int) - 1 ∧
  0 ≤ r.y + r.h - 1 ∧ r.y + r.h - 1 ≤ (h : Int) - 1

/-- Invariant of the difference loop: all four running corners stay inside
the canvas. -/
def accInBounds (w h : Nat) (acc : DeltaAcc) : Prop :=
  0 ≤ acc.x1 ∧ acc.x1 ≤ (w : Int) - 1 ∧ 0 ≤ acc.x2 ∧ acc.x2 ≤ (w : Int) - 1 ∧
  0 ≤ acc.y1 ∧ acc.y1 ≤ (h : Int) - 1 ∧ 0 ≤ acc.y2 ∧ acc.y2 ≤ (h : Int) - 1

/-- One difference step keeps the running corners inside the canvas. -/
theorem deltaStep_inBounds (w h : Nat) (prev cur next : List Nat)
    (acc : DeltaAcc) (i : Nat) (hi : i < w * h) (hw : 1 ≤ w)
    (hacc : accInBounds w h acc) :
    accInBounds w h (deltaStep w prev cur next acc i) := by
  have hx : i % w < w := Nat.mod_lt _ (by omega)
  have hy : i / w < h := Nat.div_lt_of_lt_mul (by omega)
  obtain ⟨a1, a2, a3, a4, a5, a6, a7, a8⟩ := hacc
  simp only [deltaStep, accInBounds]
  generalize hgx : (i % w : Nat) = px
  generalize hgy : (i / w : Nat) = py
  rw [hgx] at hx
  rw [hgy] at hy
  split <;> split <;> dsimp only <;>
    refine ⟨?_, ?_, ?_, ?_, ?_, ?_, ?_, ?_⟩ <;>
      first
        | (split_ifs <;> omega)
        | omega

/-- The whole difference loop keeps the running corners inside the
canvas. -/
theorem foldl_deltaStep_inBounds (w h : Nat) (prev cur next : List Nat)
    (l : List Nat) (acc : DeltaAcc) (hw : 1 ≤ w)
    (hl : ∀ j ∈ l, j < w * h) (hacc : accInBounds w h acc) :
    accInBounds w h (l.foldl (deltaStep w prev cur next) acc) := by
  induction l generalizing acc with
  | nil => simpa using hacc
  | cons j rest ih =>
    rw [List.foldl_cons]
    exact ih _ (fun k hk => hl k (List.mem_cons_of_mem _ hk))
      (deltaStep_inBounds w h prev cur next acc j
        (hl j (List.mem_cons_self _ _)) hw hacc)

/-- When a pixel neither differs between previous and current frame nor is
transparent in the next frame, the difference step leaves the running
corners untouched. -/
theorem deltaStep_corners_eq (w : Nat) (prev cur next : List Nat)
    (acc : DeltaAcc) (i : Nat)
    (hp : prev.getD i 0 = cur.getD i 0) (hn : next.getD i 0 ≠ 0) :
    (deltaStep w prev cur next acc i).x1 = acc.x1 ∧
    (deltaStep w prev cur next acc i).y1 = acc.y1 ∧
    (deltaStep w prev cur next acc i).x2 = acc.x2 ∧
    (deltaStep w prev cur next acc i).y2 = acc.y2 := by
  have hmark : ¬(prev.getD i 0 ≠ cur.getD i 0 ∨ next.getD i 0 = 0) := by
    rintro (hne | hz)
    · exact hne hp
    · exact hn hz
  have hclear : ¬(cur.getD i 0 ≠ 0 ∧ next.getD i 0 = 0) := fun hcl => hn hcl.2
  simp only [deltaStep]
  rw [if_neg hclear, if_neg hmark]
  simp

/-- On bit-identical frames with a fully opaque lookahead frame, the whole
difference loop leaves the running corners untouched. -/
theorem foldl_deltaStep_corners_eq (w : Nat) (prev cur next : List Nat)
    (l : List Nat) (acc : DeltaAcc)
    (hpc : prev = cur)
    (hlen : next.length = prev.length)
    (hl : ∀ j ∈ l, j < prev.length)
    (hn : ∀ j < next.length, next.getD j 0 ≠ 0) :
    (l.foldl (deltaStep w prev cur next) acc).x1 = acc.x1 ∧
    (l.foldl (deltaStep w prev cur next) acc).y1 = acc.y1 ∧
    (l.foldl (deltaStep w prev cur next) acc).x2 = acc.x2 ∧
    (l.foldl (deltaStep w prev cur next) acc).y2 = acc.y2 := by
  induction l generalizing acc with
  | nil => simp
  | cons j rest ih =>
    rw [List.foldl_cons]
    have hj : j < prev.length := hl j (List.mem_cons_self _ _)
    have hstep := deltaStep_corners_eq w prev cur next acc j
      (by rw [hpc]) (hn j (by omega))
    have hrest := ih (deltaStep w prev cur next acc j)
      (fun k hk => hl k (List.mem_cons_of_mem _ hk))
    exact ⟨hrest.1.trans hstep.1, hrest.2.1.trans hstep.2.1,
           hrest.2.2.1.trans hstep.2.2.1, hrest.2.2.2.trans hstep.2.2.2⟩

/-- The frame bounds returned for a non-first frame are the fixed-up
difference bounds. -/
theorem calcDelta_fst (st : EncoderSt) (gifFrame : Nat)
    (prev cur next : List Nat) (h0 : gifFrame ≠ 0) :
    (calculateDeltaImageFrameBoundsDisposal st gifFrame prev cur next).1 =
      fixRect ⟨(deltaFold st prev cur next).x1,
               (deltaFold st prev cur next).y1,
               (deltaFold st prev cur next).x2 -
                 (deltaFold st prev cur next).x1 + 1,
               (deltaFold st prev cur next).y2 -
                 (deltaFold st prev cur next).y1 + 1⟩ := by
  simp only [calculateDeltaImageFrameBoundsDisposal, if_neg h0]

/-- The stored `m_lastFrameBounds` after a non-first frame is either the
pre-fix difference bounds or the previous value. -/
theorem calcDelta_lfb_cases (st : EncoderSt) (gifFrame : Nat)
    (prev cur next : List Nat) (h0 : gifFrame ≠ 0) :
    (calculateDeltaImageFrameBoundsDisposal st gifFrame prev cur
        next).2.2.2.lastFrameBounds =
      (⟨(deltaFold st prev cur next).x1,
        (deltaFold st prev cur next).y1,
        (deltaFold st prev cur next).x2 - (deltaFold st prev cur next).x1 + 1,
        (deltaFold st prev cur next).y2 - (deltaFold st prev cur next).y1 + 1⟩
        : GRect) ∨
    (calculateDeltaImageFrameBoundsDisposal st gifFrame prev cur
        next).2.2.2.lastFrameBounds = st.lastFrameBounds := by
  simp only [calculateDeltaImageFrameBoundsDisposal, if_neg h0]
  split <;> split <;> first
    | (left; rfl)
    | (right; rfl)

/-- The first frame reports the whole canvas and keeps the stored
`m_lastFrameBounds`. -/
theorem calcDelta_frame0 (st : EncoderSt) (prev cur next : List Nat) :
    (calculateDeltaImageFrameBoundsDisposal st 0 prev cur next).1 =
      fixRect ⟨0, 0, (st.spriteW : Int), (st.spriteH : Int)⟩ ∧
    (calculateDeltaImageFrameBoundsDisposal st 0 prev cur
        next).2.2.2.lastFrameBounds = st.lastFrameBounds := by
  simp only [calculateDeltaImageFrameBoundsDisposal, if_pos rfl]
  exact ⟨rfl, rfl⟩

/-- The initial difference bounds satisfy the corner invariant. -/
theorem initAcc_inBounds (st : EncoderSt) (hw : 1 ≤ st.spriteW)
    (hh : 1 ≤ st.spriteH)
    (hlb : rectCornersIn st.spriteW st.spriteH st.lastFrameBounds) :
    accInBounds st.spriteW st.spriteH (initAcc st) := by
  obtain ⟨b1, b2, b3, b4, b5, b6, b7, b8⟩ := hlb
  simp only [initAcc, accInBounds]
  split <;> dsimp only <;> refine ⟨?_, ?_, ?_, ?_, ?_, ?_, ?_, ?_⟩ <;> omega

/-- C3 (amended): the delta rectangle of every frame is non-empty and fully
contained in the canvas, the stored previous-frame bounds keep their corner
invariant, and for a non-first frame that is bit-identical to its
predecessor the rectangle is exactly the 1×1 rectangle, provided the
previous disposal was not `RESTORE_BGCOLOR` and no pixel of the lookahead
frame is fully transparent. -/
theorem spec_c3_delta_rect_amended (st : EncoderSt) (gifFrame : Nat)
    (prev cur next : List Nat)
    (hw : 1 ≤ st.spriteW) (hh : 1 ≤ st.spriteH)
    (hlen : prev.length = st.spriteW * st.spriteH)
    (hlb : rectCornersIn st.spriteW st.spriteH st.lastFrameBounds) :
    (0 ≤ (calculateDeltaImageFrameBoundsDisposal st gifFrame prev cur next).1.x ∧
     0 ≤ (calculateDeltaImageFrameBoundsDisposal st gifFrame prev cur next).1.y ∧
     (calculateDeltaImageFrameBoundsDisposal st gifFrame prev cur next).1.x +
       (calculateDeltaImageFrameBoundsDisposal st gifFrame prev cur next).1.w ≤
       st.spriteW ∧
     (calculateDeltaImageFrameBoundsDisposal st gifFrame prev cur next).1.y +
       (calculateDeltaImageFrameBoundsDisposal st gifFrame prev cur next).1.h ≤
       st.spriteH ∧
     1 ≤ (calculateDeltaImageFrameBoundsDisposal st gifFrame prev cur next).1.w ∧
     1 ≤ (calculateDeltaImageFrameBoundsDisposal st gifFrame prev cur next).1.h ∧
     rectCornersIn st.spriteW st.spriteH
       (calculateDeltaImageFrameBoundsDisposal st gifFrame prev cur
         next).2.2.2.lastFrameBounds) ∧
    (gifFrame ≠ 0 → prev = cur → next.length = prev.length →
     (∀ j, j < next.length → next.getD j 0 ≠ 0) →
     st.lastDisposal ≠ DisposalMethod.RESTORE_BGCOLOR →
     (calculateDeltaImageFrameBoundsDisposal st gifFrame prev cur next).1 =
       ⟨0, 0, 1, 1⟩) := by
  by_cases h0 : gifFrame = 0
  · subst h0
    obtain ⟨hfst, hst⟩ := calcDelta_frame0 st prev cur next
    have hfe : (⟨0, 0, (st.spriteW : Int), (st.spriteH : Int)⟩ : GRect).isEmpty
        = false := by
      simp only [GRect.isEmpty]
      simp only [decide_eq_false_iff_not]
      push_neg
      omega
    rw [hfst, fixRect, hfe]
    rw [if_neg (by simp)]
    exact ⟨⟨by dsimp only; omega, by dsimp only; omega, by dsimp only; omega,
      by dsimp only; omega, by dsimp only; omega, by dsimp only; omega,
      hst ▸ hlb⟩, fun hne => absurd rfl hne⟩
  · have haccB : accInBounds st.spriteW st.spriteH
        (deltaFold st prev cur next) := by
      refine foldl_deltaStep_inBounds _ _ _ _ _ _ _ hw ?_
        (initAcc_inBounds st hw hh hlb)
      intro j hj
      rw [List.mem_range] at hj
      omega
    obtain ⟨a1, a2, a3, a4, a5, a6, a7, a8⟩ := haccB
    rw [calcDelta_fst st gifFrame prev cur next h0]
    constructor
    · have hcorner :
          rectCornersIn st.spriteW st.spriteH
            (calculateDeltaImageFrameBoundsDisposal st gifFrame prev cur
              next).2.2.2.lastFrameBounds := by
        rcases calcDelta_lfb_cases st gifFrame prev cur next h0 with hc | hc <;>
          rw [hc]
        · simp only [rectCornersIn]
          refine ⟨?_, ?_, ?_, ?_, ?_, ?_, ?_, ?_⟩ <;> dsimp only <;> omega
        · exact hlb
      by_cases hemp :
          (⟨(deltaFold st prev cur next).x1, (deltaFold st prev cur next).y1,
            (deltaFold st prev cur next).x2 -
              (deltaFold st prev cur next).x1 + 1,
            (deltaFold st prev cur next).y2 -
              (deltaFold st prev cur next).y1 + 1⟩ : GRect).isEmpty
      · rw [fixRect, if_pos hemp]
        refine ⟨?_, ?_, ?_, ?_, ?_, ?_, hcorner⟩ <;> dsimp only <;> omega
      · rw [fixRect, if_neg hemp]
        have hemp2 : ¬((deltaFold st prev cur next).x2 -
            (deltaFold st prev cur next).x1 + 1 < 1 ∨
            (deltaFold st prev cur next).y2 -
            (deltaFold st prev cur next).y1 + 1 < 1) := by
          simpa [GRect.isEmpty] using hemp
        push_neg at hemp2
        refine ⟨?_, ?_, ?_, ?_, ?_, ?_, hcorner⟩ <;> dsimp only <;> omega
    · intro _ hpc hnl hn hld
      have hcor := foldl_deltaStep_corners_eq st.spriteW prev cur next
        (List.range prev.length) (initAcc st) hpc hnl
        (fun j hj => List.mem_range.mp hj) hn
      have hinit : initAcc st =
          ⟨(st.spriteW : Int) - 1, (st.spriteH : Int) - 1, 0, 0,
           DisposalMethod.DO_NOT_DISPOSE, []⟩ := by
        rw [initAcc, if_neg hld]
      obtain ⟨hx1, hy1, hx2, hy2⟩ := hcor
      rw [show deltaFold st prev cur next =
          (List.range prev.length).foldl
            (deltaStep st.spriteW prev cur next) (initAcc st) from rfl]
      rw [hx1, hy1, hx2, hy2, hinit]
      dsimp only
      by_cases hone : st.spriteW = 1 ∧ st.spriteH = 1
      · obtain ⟨hw1, hh1⟩ := hone
        rw [fixRect]
        rw [if_neg ?_]
        · simp [hw1, hh1]
        · simp only [GRect.isEmpty, hw1, hh1]
          norm_num
      · rw [fixRect, if_pos ?_]
        simp only [GRect.isEmpty]
        simp only [decide_eq_true_eq]
        omega

/-- Witness for C3 (amended) at a concrete 2×1 canvas: a non-first frame
identical to its predecessor with a fully opaque lookahead frame yields the
1×1 rectangle at the origin, which is contained in the canvas. -/
theorem spec_c3_delta_rect_amended_witness :
    (calculateDeltaImageFrameBoundsDisposal
      ⟨2, 1, false, false, ⟨0, 0, 2, 1⟩, DisposalMethod.DO_NOT_DISPOSE⟩
      1 [7, 7] [7, 7] [9, 9]).1 = ⟨0, 0, 1, 1⟩ :=
  (spec_c3_delta_rect_amended
      ⟨2, 1, false, false, ⟨0, 0, 2, 1⟩, DisposalMethod.DO_NOT_DISPOSE⟩
      1 [7, 7] [7, 7] [9, 9] (by decide) (by decide) (by decide)
      (by refine ⟨?_, ?_, ?_, ?_, ?_, ?_, ?_, ?_⟩ <;> decide)).2
    (by decide) rfl rfl (by decide) (by decide)

/-- Counterexample for C3 as stated: on a 3×1 canvas two bit-identical
consecutive frames yield the full 3×1 delta rectangle, not a 1×1 one,
because two pixels of the lookahead frame are fully transparent (the
difference loop also marks every pixel whose next-frame value is zero). -/
theorem spec_c3_counterexample :
    (calculateDeltaImageFrameBoundsDisposal
      ⟨3, 1, false, false, ⟨0, 0, 3, 1⟩, DisposalMethod.DO_NOT_DISPOSE⟩
      1 [1, 1, 1] [1, 1, 1] [0, 1, 0]).1 = ⟨0, 0, 3, 1⟩ ∧
    ([1, 1, 1] : List Nat) = [1, 1, 1] ∧
    (⟨0, 0, 3, 1⟩ : GRect) ≠ ⟨0, 0, 1, 1⟩ := by
  refine ⟨?_, rfl, by decide⟩
  decide

/-! ## OctreeMap lifecycle (`OctreeMap::regenerateMap`,
`doc/octree_map.cpp` 296-317) -/

/-- A `doc::Palette` object as seen by the octree: an object identity
standing for the C++ pointer, the ordered color entries and the
monotonically increasing modification stamp
(`Palette::getModifications()`). -/
structure PaletteObj where
  pid : Nat
  entries : List color_t
  modifications : Int
deriving DecidableEq, Repr

/-- `OctreeMap::regenerateMap` (`doc/octree_map.cpp` 296-317): skip the
rebuild when the palette object, its modification stamp and the mask index
are unchanged; otherwise reset the root and the leaves vector, feed every
palette entry at full depth 8 with its index, and record the palette
reference, stamp and mask index. -/
def OctreeMap.regenerateMap (m : OctreeMap) (pal : PaletteObj)
    (maskIndex : Int) : OctreeMap :=
  if m.palId = some pal.pid ∧ m.modifications = pal.modifications ∧
      m.maskIndex = maskIndex then m
  else
    let heap := (List.range pal.entries.length).foldl
      (fun h i =>
        OctreeNode.addColor h 0 (pal.entries.getD i 0) 0 0 (i : Int) 8)
      ([default] : Heap)
    { m with heap := heap, leaves := [], maskIndex := maskIndex,
             palId := some pal.pid, modifications := pal.modifications }

/-- C8: regenerating an `OctreeMap` a second time with the same palette
object (hence the same modification stamp) and the same mask index is a
no-op: the second call is skipped and the whole map state (root octree,
leaf list, cached palette reference) is exactly what the first call
produced. -/
theorem spec_c8_regenerateMap_idempotent (m : OctreeMap) (pal : PaletteObj)
    (maskIndex : Int) :
    OctreeMap.regenerateMap (OctreeMap.regenerateMap m pal maskIndex) pal
      maskIndex = OctreeMap.regenerateMap m pal maskIndex := by
  by_cases hskip : m.palId = some pal.pid ∧
      m.modifications = pal.modifications ∧ m.maskIndex = maskIndex
  · have h1 : m.regenerateMap pal maskIndex = m := by
      rw [OctreeMap.regenerateMap, if_pos hskip]
    rw [h1, h1]
  · have h1 : (m.regenerateMap pal maskIndex).palId = some pal.pid := by
      simp only [OctreeMap.regenerateMap, if_neg hskip]
    have h2 : (m.regenerateMap pal maskIndex).modifications =
        pal.modifications := by
      simp only [OctreeMap.regenerateMap, if_neg hskip]
    have h3 : (m.regenerateMap pal maskIndex).maskIndex = maskIndex := by
      simp only [OctreeMap.regenerateMap, if_neg hskip]
    conv_lhs => rw [OctreeMap.regenerateMap]
    rw [if_pos ⟨h1, h2, h3⟩]

/-! ## GIF encoder: graphics-control extension delay
(`GifEncoder::writeExtension`, `src/app/script/script_input_chain.cpp`
2729-2753, and the call site in `GifEncoder::encode`, 2553-2558) -/

/-- The delay computation of `GifEncoder::writeExtension` (lines 2735-2743):
the frame duration in milliseconds becomes centiseconds, the last frame is
quartered when the duration fix is requested, and the global fix clamps
every delay to at least 2.  Durations are non-negative ints, embedded as
`Nat`. -/
def writeExtensionFrameDelay (fixLastFrameDuration : Bool)
    (fixDuration : Bool) (frameDurationMs : Nat) : Nat :=
  let frameDelay := frameDurationMs / 10
  let frameDelay := if fixDuration then max 2 (frameDelay / 4) else frameDelay
  if fixLastFrameDuration then max 2 frameDelay else frameDelay

/-- The two delay bytes of the graphics-control extension
(lines 2747-2748). -/
def extensionDelayBytes (fixLastFrameDuration : Bool) (fixDuration : Bool)
    (frameDurationMs : Nat) : Nat × Nat :=
  let fd := writeExtensionFrameDelay fixLastFrameDuration fixDuration
    frameDurationMs
  (fd &&& 0xff, (fd >>> 8) &&& 0xff)

/-- The 16-bit delay field encoded by the two extension bytes. -/
def extensionDelayField (fixLastFrameDuration : Bool) (fixDuration : Bool)
    (frameDurationMs : Nat) : Nat :=
  (extensionDelayBytes fixLastFrameDuration fixDuration frameDurationMs).1 +
  256 * (extensionDelayBytes fixLastFrameDuration fixDuration
    frameDurationMs).2

/-- The `fixDuration` argument passed by `GifEncoder::encode`
(lines 2555-2557): only the last frame of the animation gets the duration
fix. -/
def encodeFixDurationArg (fixLastFrameDuration : Bool)
    (gifFrame nframes : Nat) : Bool :=
  fixLastFrameDuration ∧ gifFrame = nframes - 1

/-- Masking with `0xff` is reduction modulo 256. -/
theorem and_mask_255_eq_mod (n : Nat) : n &&& 255 = n % 256 := by
  apply Nat.eq_of_testBit_eq
  intro i
  rw [Nat.testBit_and,
    show (255 : Nat) = 2 ^ 8 - 1 from rfl,
    show (256 : Nat) = 2 ^ 8 from rfl,
    Nat.testBit_two_pow_sub_one, Nat.testBit_mod_two_pow]
  exact Bool.and_comm _ _

/-- For a delay below 2^16 the two extension bytes encode it exactly. -/
theorem delayBytes_encode (fd : Nat) (hfd : fd < 65536) :
    (fd &&& 0xff) + 256 * ((fd >>> 8) &&& 0xff) = fd := by
  rw [and_mask_255_eq_mod, Nat.shiftRight_eq_div_pow, and_mask_255_eq_mod]
  norm_num
  omega

/-- C9 (amended): with the last-frame duration fix enabled, the delay field
written for the final frame is the quarter of the frame duration in
centiseconds clamped from below to 2 centiseconds, and every other frame is
written with its full duration in centiseconds clamped from below to 2
centiseconds (all delays truncated to the 16-bit field). -/
theorem spec_c9_delay_amended :
    (∀ (nframes : Nat) (d : Nat), d / 10 / 4 < 65536 →
      extensionDelayField true
        (encodeFixDurationArg true (nframes - 1) nframes) d =
        max 2 (d / 10 / 4)) ∧
    (∀ (gifFrame nframes : Nat) (d : Nat), gifFrame ≠ nframes - 1 →
      d / 10 < 65536 →
      extensionDelayField true
        (encodeFixDurationArg true gifFrame nframes) d = max 2 (d / 10)) := by
  constructor
  · intro nframes d hd
    have harg : encodeFixDurationArg true (nframes - 1) nframes = true := by
      simp [encodeFixDurationArg]
    rw [harg]
    have hfd : writeExtensionFrameDelay true true d = max 2 (d / 10 / 4) := by
      simp [writeExtensionFrameDelay]
    simp only [extensionDelayField, extensionDelayBytes, hfd]
    exact delayBytes_encode _ (by omega)
  · intro gifFrame nframes d hne hd
    have harg : encodeFixDurationArg true gifFrame nframes = false := by
      simp [encodeFixDurationArg, hne]
    rw [harg]
    have hfd : writeExtensionFrameDelay true false d = max 2 (d / 10) := by
      simp [writeExtensionFrameDelay]
    simp only [extensionDelayField, extensionDelayBytes, hfd]
    exact delayBytes_encode _ (by omega)

/-- Witness for C9 (amended): a 5-frame animation with 120 ms frames; the
last frame is written with delay 3 cs (quarter of 12 cs) and a middle frame
with its full 12 cs. -/
theorem spec_c9_delay_amended_witness :
    extensionDelayField true (encodeFixDurationArg true 4 5) 120 = 3 ∧
    extensionDelayField true (encodeFixDurationArg true 2 5) 120 = 12 := by
  constructor
  · rw [show (4 : Nat) = 5 - 1 from rfl,
      spec_c9_delay_amended.1 5 120 (by decide)]
    omega
  · rw [spec_c9_delay_amended.2 2 5 120 (by decide) (by decide)]
    omega

/-- Counterexample for C9 as stated: with the fix enabled, a 40 ms final
frame is written with delay 2, not the quarter 1, and a 10 ms non-final
frame is written with delay 2, not its full 1 centisecond (the code clamps
both with `MAX(2, _)`). -/
theorem spec_c9_counterexample :
    encodeFixDurationArg true 1 2 = true ∧
    extensionDelayField true true 40 = 2 ∧ 40 / 10 / 4 = 1 ∧
    extensionDelayField true false 10 = 2 ∧ 10 / 10 = 1 ∧ (2 : Nat) ≠ 1 := by
  decide

/-! ## GIF decoder: palette overflow and truecolor conversion
(`GifDecoder::readImageDescRecord` tail, `src/app/script/script_input_chain.cpp`
1797-1840, and `GifDecoder::convertIndexedSpriteToRgb`, 2193-2227)

The decoder state is embedded from the point where the frame colormap has
already been merged into the running palette (`updatePalette`, line 1795):
the claims under verification are about the conversion check that follows.
-/

/-- `doc::PixelFormat` restricted to the formats the decoder deals with. -/
inductive PixelFormat
  | IMAGE_INDEXED
  | IMAGE_RGB
deriving DecidableEq, Repr

/-- An in-memory image buffer: pixel format tag plus row-major pixels. -/
structure DecImage where
  fmt : PixelFormat
  pixels : List Nat
deriving DecidableEq, Repr

/-- Decoder state at the conversion check inside `readImageDescRecord`. -/
structure DecoderSt where
  spriteFmt : PixelFormat
  palettes : List (List color_t)
  durations : List Nat
  cels : List (Nat × DecImage)
  currentImage : DecImage
  previousImage : DecImage
  spriteW : Nat
  spriteH : Nat
  frameNum : Nat
  bgIndex : Nat
  opaq : Bool
  localTransparentIndex : Int
  disposalMethod : DisposalMethod
  frameDelay : Int
  remap : List Nat
deriving DecidableEq, Repr

/-- `Sprite::palette(frame)`: the sprite palette active at a frame. -/
def spritePalette (st : DecoderSt) (frame : Nat) : List color_t :=
  st.palettes.getD frame []

/-- `render::convert_pixel_format(img, ..., IMAGE_RGB, ...)`: convert one
image buffer to truecolor.
Modelled from the spec: the converter is an external collaborator
(section 6); each indexed pixel is replaced by its palette color, and an
already-truecolor buffer keeps its pixels. -/
def convertPixelFormatToRgb (img : DecImage) (pal : List color_t) :
    DecImage :=
  ⟨PixelFormat.IMAGE_RGB,
   if img.fmt = PixelFormat.IMAGE_RGB then img.pixels
   else img.pixels.map (fun p => pal.getD p 0)⟩

/-- `GifDecoder::convertIndexedSpriteToRgb` (lines 2193-2227): convert every
unique cel image, the current canvas and the previous canvas to truecolor
(each with the palette of its frame) and flip the sprite pixel format. -/
def convertIndexedSpriteToRgb (st : DecoderSt) : DecoderSt :=
  { st with
    cels := st.cels.map
      (fun c => (c.1, convertPixelFormatToRgb c.2 (spritePalette st c.1))),
    currentImage :=
      convertPixelFormatToRgb st.currentImage (spritePalette st st.frameNum),
    previousImage :=
      convertPixelFormatToRgb st.previousImage
        (spritePalette st (max 0 (st.frameNum - 1))),
    spriteFmt := PixelFormat.IMAGE_RGB }

/-- `gfx::Clip(fx, fy, 0, 0, fw, fh).clip(dstW, dstH, srcW, srcH)`: the
clipped copy region, as destination origin, source origin and size; `none`
when nothing remains. -/
def clipRegion (fx fy fw fh : Int) (dstW dstH srcW srcH : Nat) :
    Option (Int × Int × Int × Int × Int × Int) :=
  let dx := max fx 0
  let dy := max fy 0
  let sx := max (-fx) 0
  let sy := max (-fy) 0
  let cw := min (fw - sx) ((dstW : Int) - dx)
  let ch := min (fh - sy) ((dstH : Int) - dy)
  let cw := min cw ((srcW : Int) - sx)
  let ch := min ch ((srcH : Int) - sy)
  if cw ≤ 0 ∨ ch ≤ 0 then none else some (dx, dy, sx, sy, cw, ch)

/-- Write one pixel of a row-major buffer. -/
def putPixel (pixels : List Nat) (w : Nat) (x y : Int) (v : Nat) :
    List Nat :=
  if 0 ≤ x ∧ x < (w : Int) ∧ 0 ≤ y then
    pixels.set (y.toNat * w + x.toNat) v
  else pixels

/-- Read one pixel of a row-major buffer (0 outside). -/
def readPixel (pixels : List Nat) (w : Nat) (x y : Int) : Nat :=
  if 0 ≤ x ∧ x < (w : Int) ∧ 0 ≤ y then pixels.getD (y.toNat * w + x.toNat) 0
  else 0

/-- `GifDecoder::compositeIndexedImageToIndexed` (lines 2052-2080): copy the
clipped frame image over the current indexed canvas, skipping the local
transparent index and applying the decoder remap. -/
def compositeIndexedImageToIndexed (st : DecoderSt) (fb : GRect)
    (fimg : DecImage) (fw fh : Nat) : DecImage :=
  match clipRegion fb.x fb.y fb.w fb.h st.spriteW st.spriteH fw fh with
  | none => st.currentImage
  | some (dx, dy, sx, sy, cw, ch) =>
    ⟨st.currentImage.fmt,
     (List.range ch.toNat).foldl
       (fun pix yy =>
         (List.range cw.toNat).foldl
           (fun pix xx =>
             let i := readPixel fimg.pixels fw (sx + xx) (sy + yy)
             if (i : Int) = st.localTransparentIndex then pix
             else putPixel pix st.spriteW (dx + xx) (dy + yy)
               (st.remap.getD i 0))
           pix)
       st.currentImage.pixels⟩

/-- `GifDecoder::compositeIndexedImageToRgb` (lines 2082-2116): copy the
clipped frame image over the current truecolor canvas, skipping the local
transparent index and resolving each index through the frame colormap. -/
def compositeIndexedImageToRgb (st : DecoderSt) (fb : GRect)
    (fimg : DecImage) (fw fh : Nat) (colormap : List color_t) : DecImage :=
  match clipRegion fb.x fb.y fb.w fb.h st.spriteW st.spriteH fw fh with
  | none => st.currentImage
  | some (dx, dy, sx, sy, cw, ch) =>
    ⟨st.currentImage.fmt,
     (List.range ch.toNat).foldl
       (fun pix yy =>
         (List.range cw.toNat).foldl
           (fun pix xx =>
             let i := readPixel fimg.pixels fw (sx + xx) (sy + yy)
             if (i : Int) = st.localTransparentIndex then pix
             else putPixel pix st.spriteW (dx + xx) (dy + yy)
               (rgba (rgba_getr (colormap.getD i 0))
                     (rgba_getg (colormap.getD i 0))
                     (rgba_getb (colormap.getD i 0)) 255))
           pix)
       st.currentImage.pixels⟩

/-- `doc::fill_rect` over a pixel buffer (used by
`process_disposal_method`). -/
def fillRect (pixels : List Nat) (w : Nat) (x1 y1 x2 y2 : Int) (v : Nat) :
    List Nat :=
  (List.range (max (y2 - y1 + 1) 0).toNat).foldl
    (fun pix yy =>
      (List.range (max (x2 - x1 + 1) 0).toNat).foldl
        (fun pix xx => putPixel pix w (x1 + xx) (y1 + yy) v)
        pix)
    pixels

/-- `process_disposal_method` (`src/app/script/script_input_chain.cpp`
1588-1614): dispose the current canvas according to the previous frame's
disposal method. -/
def processDisposalMethod (previous current : DecImage) (w : Nat)
    (disposal : DisposalMethod) (fb : GRect) (clearColor : Nat) : DecImage :=
  match disposal with
  | DisposalMethod.NONE => current
  | DisposalMethod.DO_NOT_DISPOSE => current
  | DisposalMethod.RESTORE_BGCOLOR =>
    ⟨current.fmt,
     fillRect current.pixels w fb.x fb.y (fb.x + fb.w - 1) (fb.y + fb.h - 1)
       clearColor⟩
  | DisposalMethod.RESTORE_PREVIOUS =>
    ⟨current.fmt,
     (List.range (max fb.h 0).toNat).foldl
       (fun pix yy =>
         (List.range (max fb.w 0).toNat).foldl
           (fun pix xx =>
             putPixel pix w (fb.x + xx) (fb.y + yy)
               (readPixel previous.pixels w (fb.x + xx) (fb.y + yy)))
           pix)
       current.pixels⟩

/-- Conversion check of `readImageDescRecord` (lines 1797-1804): convert
the whole sprite to truecolor when the merged palette exceeds 256 entries
while the sprite is still indexed. -/
def ridConvertCheck (st : DecoderSt) : DecoderSt :=
  if st.spriteFmt = PixelFormat.IMAGE_INDEXED ∧
      256 < (spritePalette st st.frameNum).length then
    convertIndexedSpriteToRgb st
  else st

/-- Frame compositing step of `readImageDescRecord` (lines 1806-1814). -/
def ridComposite (st : DecoderSt) (fb : GRect) (fimg : Option DecImage)
    (fw fh : Nat) (colormap : List color_t) : DecoderSt :=
  match fimg with
  | none => st
  | some fi =>
    if st.spriteFmt = PixelFormat.IMAGE_INDEXED then
      { st with currentImage := compositeIndexedImageToIndexed st fb fi fw fh }
    else
      { st with currentImage :=
          compositeIndexedImageToRgb st fb fi fw fh colormap }

/-- `GifDecoder::createCel` (lines 2118-2134): add a cel holding a copy of
the current canvas. -/
def ridCreateCel (st : DecoderSt) : DecoderSt :=
  { st with cels := st.cels ++ [(st.frameNum, st.currentImage)] }

/-- Disposal step of `readImageDescRecord` (lines 1819-1827): dispose the
canvas per the previous graphics-control extension and roll the canvas into
the previous-image buffer. -/
def ridDispose (st : DecoderSt) (fb : GRect) : DecoderSt :=
  let st := { st with currentImage :=
      (processDisposalMethod st.previousImage st.currentImage st.spriteW
        st.disposalMethod fb st.bgIndex) }
  { st with previousImage := st.currentImage }

/-- Frame-delay storage and extension reset of `readImageDescRecord`
(lines 1829-1839). -/
def ridFinish (st : DecoderSt) : DecoderSt :=
  let st :=
    if 0 ≤ st.frameDelay then
      { st with durations :=
          st.durations.set st.frameNum (st.frameDelay.toNat * 10) }
    else st
  { st with disposalMethod := DisposalMethod.NONE,
            localTransparentIndex := -1, frameDelay := 1,
            frameNum := st.frameNum + 1 }

/-- Tail of `GifDecoder::readImageDescRecord` (lines 1797-1840), starting at
the conversion check that follows the palette merge (`updatePalette`,
line 1795). -/
def readImageDescTail (st : DecoderSt) (fb : GRect)
    (fimg : Option DecImage) (fw fh : Nat) (colormap : List color_t) :
    DecoderSt :=
  ridFinish (ridDispose (ridCreateCel
    (ridComposite (ridConvertCheck st) fb fimg fw fh colormap)) fb)

/-- The disposal step never changes the pixel format of the canvas. -/
theorem processDisposalMethod_fmt (p c : DecImage) (w : Nat)
    (d : DisposalMethod) (fb : GRect) (bg : Nat) :
    (processDisposalMethod p c w d fb bg).fmt = c.fmt := by
  cases d <;> rfl

/-- Fields preserved by the finishing stage. -/
theorem ridFinish_fields (st : DecoderSt) :
    (ridFinish st).spriteFmt = st.spriteFmt ∧
    (ridFinish st).palettes = st.palettes ∧
    (ridFinish st).frameNum = st.frameNum + 1 ∧
    (ridFinish st).cels = st.cels ∧
    (ridFinish st).currentImage = st.currentImage ∧
    (ridFinish st).previousImage = st.previousImage := by
  simp only [ridFinish]
  split <;> exact ⟨rfl, rfl, rfl, rfl, rfl, rfl⟩

/-- Fields preserved or transformed by the disposal stage. -/
theorem ridDispose_fields (st : DecoderSt) (fb : GRect) :
    (ridDispose st fb).spriteFmt = st.spriteFmt ∧
    (ridDispose st fb).palettes = st.palettes ∧
    (ridDispose st fb).frameNum = st.frameNum ∧
    (ridDispose st fb).cels = st.cels ∧
    (ridDispose st fb).currentImage.fmt = st.currentImage.fmt ∧
    (ridDispose st fb).previousImage.fmt = st.currentImage.fmt := by
  refine ⟨rfl, rfl, rfl, rfl, ?_, ?_⟩ <;>
    simp [ridDispose, processDisposalMethod_fmt]

/-- Fields preserved or transformed by the cel-creation stage. -/
theorem ridCreateCel_fields (st : DecoderSt) :
    (ridCreateCel st).spriteFmt = st.spriteFmt ∧
    (ridCreateCel st).palettes = st.palettes ∧
    (ridCreateCel st).frameNum = st.frameNum ∧
    (ridCreateCel st).cels = st.cels ++ [(st.frameNum, st.currentImage)] ∧
    (ridCreateCel st).currentImage = st.currentImage ∧
    (ridCreateCel st).previousImage = st.previousImage :=
  ⟨rfl, rfl, rfl, rfl, rfl, rfl⟩

/-- Fields preserved by the compositing stage. -/
theorem ridComposite_fields (st : DecoderSt) (fb : GRect)
    (fimg : Option DecImage) (fw fh : Nat) (colormap : List color_t) :
    (ridComposite st fb fimg fw fh colormap).spriteFmt = st.spriteFmt ∧
    (ridComposite st fb fimg fw fh colormap).palettes = st.palettes ∧
    (ridComposite st fb fimg fw fh colormap).frameNum = st.frameNum ∧
    (ridComposite st fb fimg fw fh colormap).cels = st.cels ∧
    (ridComposite st fb fimg fw fh colormap).currentImage.fmt =
      st.currentImage.fmt ∧
    (ridComposite st fb fimg fw fh colormap).previousImage =
      st.previousImage := by
  cases fimg with
  | none => exact ⟨rfl, rfl, rfl, rfl, rfl, rfl⟩
  | some fi =>
    have hin : (compositeIndexedImageToIndexed st fb fi fw fh).fmt =
        st.currentImage.fmt := by
      simp only [compositeIndexedImageToIndexed]
      split <;> rfl
    have hrgb : (compositeIndexedImageToRgb st fb fi fw fh colormap).fmt =
        st.currentImage.fmt := by
      simp only [compositeIndexedImageToRgb]
      split <;> rfl
    by_cases hf : st.spriteFmt = PixelFormat.IMAGE_INDEXED
    · have heq : ridComposite st fb (some fi) fw fh colormap =
          { st with
            currentImage := compositeIndexedImageToIndexed st fb fi fw fh } := by
        simp only [ridComposite]
        rw [if_pos hf]
      rw [heq]
      exact ⟨rfl, rfl, rfl, rfl, hin, rfl⟩
    · have heq : ridComposite st fb (some fi) fw fh colormap =
          { st with currentImage :=
              compositeIndexedImageToRgb st fb fi fw fh colormap } := by
        simp only [ridComposite]
        rw [if_neg hf]
      rw [heq]
      exact ⟨rfl, rfl, rfl, rfl, hrgb, rfl⟩

/-- Format and bookkeeping fields of the whole tail, relative to the state
right after the conversion check. -/
theorem ridStages_preserved (st : DecoderSt) (fb : GRect)
    (fimg : Option DecImage) (fw fh : Nat) (colormap : List color_t) :
    (readImageDescTail st fb fimg fw fh colormap).spriteFmt =
      (ridConvertCheck st).spriteFmt ∧
    (readImageDescTail st fb fimg fw fh colormap).palettes =
      (ridConvertCheck st).palettes ∧
    (readImageDescTail st fb fimg fw fh colormap).frameNum =
      (ridConvertCheck st).frameNum + 1 := by
  rw [readImageDescTail]
  obtain ⟨f1, f2, f3, _, _, _⟩ := ridFinish_fields
    (ridDispose (ridCreateCel
      (ridComposite (ridConvertCheck st) fb fimg fw fh colormap)) fb)
  obtain ⟨d1, d2, d3, _, _, _⟩ := ridDispose_fields
    (ridCreateCel (ridComposite (ridConvertCheck st) fb fimg fw fh colormap))
    fb
  obtain ⟨c1, c2, c3, _, _, _⟩ := ridCreateCel_fields
    (ridComposite (ridConvertCheck st) fb fimg fw fh colormap)
  obtain ⟨m1, m2, m3, _, _, _⟩ := ridComposite_fields (ridConvertCheck st)
    fb fimg fw fh colormap
  refine ⟨?_, ?_, ?_⟩
  · rw [f1, d1, c1, m1]
  · rw [f2, d2, c2, m2]
  · rw [f3, d3, c3, m3]

/-- C7: whenever merging a frame's colormap pushes the running palette over
256 entries while the sprite is still indexed, the whole decoded canvas so
far is converted to truecolor (every cel image, the current canvas, the
previous canvas and the sprite format); consequently a sprite that is still
indexed after an image descriptor has a palette of at most 256 entries. -/
theorem spec_c7_palette_overflow_conversion :
    (∀ (st : DecoderSt) (fb : GRect) (fimg : Option DecImage) (fw fh : Nat)
       (colormap : List color_t),
      st.spriteFmt = PixelFormat.IMAGE_INDEXED →
      256 < (spritePalette st st.frameNum).length →
      (readImageDescTail st fb fimg fw fh colormap).spriteFmt =
        PixelFormat.IMAGE_RGB ∧
      (∀ c ∈ (readImageDescTail st fb fimg fw fh colormap).cels,
        c.2.fmt = PixelFormat.IMAGE_RGB) ∧
      (readImageDescTail st fb fimg fw fh
        colormap).currentImage.fmt = PixelFormat.IMAGE_RGB ∧
      (readImageDescTail st fb fimg fw fh
        colormap).previousImage.fmt = PixelFormat.IMAGE_RGB) ∧
    (∀ (st : DecoderSt) (fb : GRect) (fimg : Option DecImage) (fw fh : Nat)
       (colormap : List color_t),
      (readImageDescTail st fb fimg fw fh colormap).spriteFmt =
        PixelFormat.IMAGE_INDEXED →
      (spritePalette (readImageDescTail st fb fimg fw fh colormap)
        ((readImageDescTail st fb fimg fw fh colormap).frameNum - 1)).length
        ≤ 256) := by
  have hconv : ∀ st : DecoderSt,
      (convertIndexedSpriteToRgb st).spriteFmt = PixelFormat.IMAGE_RGB ∧
      (∀ c ∈ (convertIndexedSpriteToRgb st).cels,
        c.2.fmt = PixelFormat.IMAGE_RGB) ∧
      (convertIndexedSpriteToRgb st).currentImage.fmt =
        PixelFormat.IMAGE_RGB ∧
      (convertIndexedSpriteToRgb st).previousImage.fmt =
        PixelFormat.IMAGE_RGB := by
    intro st
    refine ⟨rfl, ?_, rfl, rfl⟩
    intro c hc
    simp only [convertIndexedSpriteToRgb, List.mem_map] at hc
    obtain ⟨a, _, rfl⟩ := hc
    rfl
  constructor
  · intro st fb fimg fw fh colormap hfmt hlen
    have hcheck : ridConvertCheck st = convertIndexedSpriteToRgb st := by
      rw [ridConvertCheck, if_pos ⟨hfmt, hlen⟩]
    obtain ⟨hc1, hc2, hc3, hc4⟩ := hconv st
    rw [readImageDescTail]
    obtain ⟨_, _, _, f4, f5, f6⟩ := ridFinish_fields
      (ridDispose (ridCreateCel
        (ridComposite (ridConvertCheck st) fb fimg fw fh colormap)) fb)
    obtain ⟨d1, _, _, d4, d5, d6⟩ := ridDispose_fields
      (ridCreateCel
        (ridComposite (ridConvertCheck st) fb fimg fw fh colormap)) fb
    obtain ⟨c1, _, _, c4, c5, c6⟩ := ridCreateCel_fields
      (ridComposite (ridConvertCheck st) fb fimg fw fh colormap)
    obtain ⟨m1, _, _, m4, m5, m6⟩ := ridComposite_fields (ridConvertCheck st)
      fb fimg fw fh colormap
    obtain ⟨p1, p2, p3⟩ := ridStages_preserved st fb fimg fw fh colormap
    refine ⟨?_, ?_, ?_, ?_⟩
    · rw [readImageDescTail] at p1
      rw [p1, hcheck, hc1]
    · intro c hc
      rw [f4, d4, c4, m4] at hc
      rcases List.mem_append.mp hc with hold | hnew
      · rw [hcheck] at hold
        exact hc2 c hold
      · rcases List.mem_singleton.mp hnew with rfl
        dsimp only
        rw [m5, hcheck, hc3]
    · rw [f5, d5, c5, m5, hcheck, hc3]
    · rw [f6, d6, c5, m5, hcheck, hc3]
  · intro st fb fimg fw fh colormap hfmt
    obtain ⟨hp1, hp2, hp3⟩ := ridStages_preserved st fb fimg fw fh colormap
    rw [hp1] at hfmt
    by_cases hcond : st.spriteFmt = PixelFormat.IMAGE_INDEXED ∧
        256 < (spritePalette st st.frameNum).length
    · rw [ridConvertCheck, if_pos hcond] at hfmt
      rw [(hconv st).1] at hfmt
      cases hfmt
    · have hcc : ridConvertCheck st = st := by
        rw [ridConvertCheck, if_neg hcond]
      rw [hcc] at hfmt hp2 hp3
      have hlen : (spritePalette st st.frameNum).length ≤ 256 := by
        rcases not_and_or.mp hcond with hno | hno
        · exact absurd hfmt hno
        · omega
      rw [spritePalette, hp2, hp3]
      simpa [spritePalette] using hlen

/-- Witness for C7 at a concrete state: a 1×1 indexed sprite whose merged
palette has 257 entries is wholly converted to truecolor, and its canvas
buffer comes out truecolor as well. -/
theorem spec_c7_palette_overflow_conversion_witness :
    (readImageDescTail
      ⟨PixelFormat.IMAGE_INDEXED, [List.replicate 257 5], [0],
       [(0, ⟨PixelFormat.IMAGE_INDEXED, [1]⟩)],
       ⟨PixelFormat.IMAGE_INDEXED, [1]⟩, ⟨PixelFormat.IMAGE_INDEXED, [0]⟩,
       1, 1, 0, 0, true, -1, DisposalMethod.NONE, 1, [0, 1]⟩
      ⟨0, 0, 1, 1⟩ none 1 1 []).spriteFmt = PixelFormat.IMAGE_RGB ∧
    (readImageDescTail
      ⟨PixelFormat.IMAGE_INDEXED, [List.replicate 257 5], [0],
       [(0, ⟨PixelFormat.IMAGE_INDEXED, [1]⟩)],
       ⟨PixelFormat.IMAGE_INDEXED, [1]⟩, ⟨PixelFormat.IMAGE_INDEXED, [0]⟩,
       1, 1, 0, 0, true, -1, DisposalMethod.NONE, 1, [0, 1]⟩
      ⟨0, 0, 1, 1⟩ none 1 1 []).currentImage.fmt = PixelFormat.IMAGE_RGB := by
  have h := spec_c7_palette_overflow_conversion.1
    ⟨PixelFormat.IMAGE_INDEXED, [List.replicate 257 5], [0],
     [(0, ⟨PixelFormat.IMAGE_INDEXED, [1]⟩)],
     ⟨PixelFormat.IMAGE_INDEXED, [1]⟩, ⟨PixelFormat.IMAGE_INDEXED, [0]⟩,
     1, 1, 0, 0, true, -1, DisposalMethod.NONE, 1, [0, 1]⟩
    ⟨0, 0, 1, 1⟩ none 1 1 [] rfl ?_
  · exact ⟨h.1, h.2.2.1⟩
  · rw [show spritePalette
        ⟨PixelFormat.IMAGE_INDEXED, [List.replicate 257 5], [0],
         [(0, ⟨PixelFormat.IMAGE_INDEXED, [1]⟩)],
         ⟨PixelFormat.IMAGE_INDEXED, [1]⟩, ⟨PixelFormat.IMAGE_INDEXED, [0]⟩,
         1, 1, 0, 0, true, -1, DisposalMethod.NONE, 1, [0, 1]⟩ 0 =
        List.replicate 257 5 from rfl, List.length_replicate]
    omega

/-! ## GIF encoder: per-frame quantization fallback ladder
(`GifEncoder::calculatePalette`, `src/app/script/script_input_chain.cpp`
2917-3077, and `GifEncoder::createOptimizedPalette`, 3079-3096)

`render::PaletteOptimizer` is an external collaborator whose sources are not
in the repository; it is modelled from spec section 4.2: it accumulates
color statistics from pixels and regions, stays "high precision" while the
distinct-color count is below an internal precision threshold (kept here as
the explicit parameter `cap`), and `calculate` emits at most the requested
number of entries.
-/

/-- A truecolor image buffer with its dimensions, row-major. -/
structure ImageM where
  w : Nat
  h : Nat
  pix : List Nat
deriving DecidableEq, Repr

/-- Pixel read on an `ImageM` (0 outside). -/
def ImageM.pixel (img : ImageM) (x y : Int) : Nat :=
  if 0 ≤ x ∧ x < (img.w : Int) ∧ 0 ≤ y ∧ y < (img.h : Int) then
    img.pix.getD (y.toNat * img.w + x.toNat) 0
  else 0

/-- `render::PaletteOptimizer::feedWithRgbaColor`.
Modelled from the spec: the optimizer accumulates the fed colors. -/
def optFeedColor (fed : List Nat) (c : color_t) : List Nat := fed ++ [c]

/-- `render::PaletteOptimizer::feedWithImage(image, rect, withAlpha)`.
Modelled from the spec: accumulates the colors of every pixel of the
sub-rectangle; pixels with alpha below the low-alpha floor (16) are
excluded from quantizer statistics (spec section 3 invariants). -/
def optFeedImage (fed : List Nat) (img : ImageM) (r : GRect) : List Nat :=
  (List.range (max r.h 0).toNat).foldl
    (fun acc yy =>
      (List.range (max r.w 0).toNat).foldl
        (fun acc xx =>
          let c := img.pixel (r.x + xx) (r.y + yy)
          if 16 ≤ rgba_geta c then optFeedColor acc c else acc)
        acc)
    fed

/-- Distinct colors accumulated so far. -/
def optDistinct (fed : List Nat) : List Nat := fed.dedup

/-- `render::PaletteOptimizer::isHighPrecision()`.
Modelled from the spec: exact ("high precision") while the distinct-color
count is below the internal precision threshold `cap`. -/
def optIsHighPrecision (cap : Nat) (fed : List Nat) : Bool :=
  (optDistinct fed).length ≤ cap

/-- `render::PaletteOptimizer::highPrecisionSize()`.
Modelled from the spec: the number of exactly tracked distinct colors. -/
def optHighPrecisionSize (fed : List Nat) : Nat := (optDistinct fed).length

/-- `render::PaletteOptimizer::calculate(palette, reservedIndex)`.
Modelled from the spec: emits a palette of at most `target` entries. -/
def optCalculate (fed : List Nat) (target : Nat) : List Nat :=
  (optDistinct fed).take target

/-- `GifEncoder::createOptimizedPalette` (lines 3079-3096): feed the
optimizer with the pixels of the given bounds whose alpha is at least 128
(forced fully opaque), then calculate at most `ncolors` entries. -/
def createOptimizedPalette (img : ImageM) (bounds : GRect) (ncolors : Nat) :
    List Nat :=
  let fed := (List.range (max bounds.h 0).toNat).foldl
    (fun acc yy =>
      (List.range (max bounds.w 0).toNat).foldl
        (fun acc xx =>
          let c := img.pixel (bounds.x + xx) (bounds.y + yy)
          if 128 ≤ rgba_geta c then
            optFeedColor acc
              (rgba (rgba_getr c) (rgba_getg c) (rgba_getb c) 255)
          else acc)
        acc)
    []
  optCalculate fed ncolors

/-- The four border rectangles fed by one iteration of the inner-border
search of `calculatePalette` (lines 2981-3010), at border thicknesses
`tT`/`tL` over a delta image of size `w × h`. -/
def borderFeed (delta : ImageM) (tT tL : Int) : List Nat :=
  let f1 := optFeedImage [] delta ⟨0, 0, delta.w, tT⟩
  let f2 := optFeedImage f1 delta ⟨0, (delta.h : Int) - tT - 1, delta.w, tT⟩
  let f3 := optFeedImage f2 delta
    ⟨0, tT, tL, (delta.h : Int) - 2 * tT⟩
  optFeedImage f3 delta
    ⟨(delta.w : Int) - tL - 1, tT, tL, (delta.h : Int) - 2 * tT⟩

/-- One-step result of the border-thickness search: either a final palette
with the last thickness values, or the next thickness state. -/
inductive BorderStep
  | done (pal : List Nat) (lastT lastL : Int)
  | next (tT tL lastT lastL : Int)
deriving DecidableEq, Repr

/-- One iteration of the `while (true)` border-thickness search of
`calculatePalette` (lines 2979-3051), with the 255-entry palette `pal`
resized before the loop. -/
def borderStep (cap : Nat) (delta : ImageM) (pal : List Nat)
    (tT tL lastT lastL : Int) : BorderStep :=
  let fed := borderFeed delta tT tL
  if optIsHighPrecision cap fed then
    if 220 ≤ optHighPrecisionSize fed then
      BorderStep.done (optCalculate fed pal.length) tT tL
    else if (delta.h : Int) - tT * 2 ≤ (delta.h : Int) / 4 ∨
        (delta.w : Int) - tL * 2 ≤ (delta.w : Int) / 4 then
      BorderStep.done (optCalculate fed pal.length) lastT lastL
    else if tT * 3 ≥ (delta.h : Int) ∨ tL * 3 ≥ (delta.w : Int) then
      BorderStep.done pal lastT lastL
    else
      BorderStep.next (tT + tT / 2) (tL + tL / 2) (tT + tT / 2) (tL + tL / 2)
  else
    if tT ≤ (delta.h : Int) / 16 ∨ tL ≤ (delta.w : Int) / 16 then
      BorderStep.done (optCalculate fed pal.length) lastT lastL
    else
      BorderStep.next (tT - tT / 2) (tL - tL / 2) (tT - tT / 2) (tL - tL / 2)

/-- The border-thickness search loop.  The C++ loop is `while (true)`;
`fuel` makes the embedding total, with `none` when the loop has not
finished within `fuel` iterations. -/
def borderLoop (cap : Nat) (delta : ImageM) (pal : List Nat) :
    Nat → Int → Int → Int → Int → Option (List Nat × Int × Int)
  | 0, _, _, _, _ => none
  | fuel + 1, tT, tL, lastT, lastL =>
    match borderStep cap delta pal tT tL lastT lastL with
    | BorderStep.done p lT lL => some (p, lT, lL)
    | BorderStep.next tT2 tL2 lT2 lL2 => borderLoop cap delta pal fuel tT2 tL2 lT2 lL2

/-- `GifEncoder::calculatePalette` (lines 2917-3077): the quantization
fallback ladder.  Returns the palette and the transparent index, or `none`
when the border-thickness search does not finish within `fuel`
iterations. -/
def calculatePalette (cap : Nat) (fuel : Nat) (delta current : ImageM)
    (frameBounds : GRect) (disposal : DisposalMethod)
    (transparentIndex : Int) : Option (List Nat × Int) :=
  let pal := createOptimizedPalette delta ⟨0, 0, delta.w, delta.h⟩ 256
  if pal.length = 256 then
    let auxPalette :=
      if disposal = DisposalMethod.DO_NOT_DISPOSE then
        createOptimizedPalette current frameBounds 257
      else pal
    if auxPalette.length ≤ 256 then some (auxPalette, -1)
    else
      let pal := pal.take 255
      let tT0 := (delta.h : Int) / 4
      let tL0 := (delta.w : Int) / 4
      match borderLoop cap delta pal fuel tT0 tL0 tT0 tL0 with
      | none => none
      | some (pal2, lastT, lastL) =>
        let centerRect : GRect :=
          ⟨lastL, lastT, (delta.w : Int) - 2 * lastL,
           (delta.h : Int) - 2 * lastT⟩
        let pal3 :=
          if pal2.length < 255 then
            pal2 ++ createOptimizedPalette delta centerRect
              (255 - pal2.length)
          else pal2
        some (pal3 ++ [0], (pal3 ++ [0]).length - 1)
  else if pal.length ≤ 255 then
    some (pal ++ [0], (pal ++ [0]).length - 1)
  else
    some (pal, transparentIndex)

/-- A 17×17 delta image with 289 pairwise distinct opaque colors: the
concrete input on which the border-thickness search of `calculatePalette`
oscillates forever. -/
def imgC4 : ImageM := ⟨17, 17, (List.range 289).map (fun i => 0xFF000000 + i)⟩

/-- The 255-entry palette prepared before the border loop on `imgC4`. -/
def palC4 : List Nat :=
  (createOptimizedPalette imgC4 ⟨0, 0, (imgC4.w : Int), (imgC4.h : Int)⟩
    256).take 255

set_option maxRecDepth 40000 in
/-- On `imgC4` with precision threshold 120, thickness 4 is not high
precision and shrinks to 2. -/
theorem borderStep_c4_from4 :
    borderStep 120 imgC4 palC4 4 4 4 4 = BorderStep.next 2 2 2 2 := by decide

set_option maxRecDepth 40000 in
/-- On `imgC4` thickness 2 is high precision (116 distinct border colors)
and grows to 3. -/
theorem borderStep_c4_from2 :
    borderStep 120 imgC4 palC4 2 2 2 2 = BorderStep.next 3 3 3 3 := by decide

set_option maxRecDepth 40000 in
/-- On `imgC4` thickness 3 is not high precision (162 distinct border
colors) and shrinks back to 2. -/
theorem borderStep_c4_from3 :
    borderStep 120 imgC4 palC4 3 3 3 3 = BorderStep.next 2 2 2 2 := by decide

/-- The border-thickness search cycles between thicknesses 2 and 3 on
`imgC4` and never returns, whatever the fuel. -/
theorem borderLoop_c4_cycle (f : Nat) :
    borderLoop 120 imgC4 palC4 f 2 2 2 2 = none ∧
    borderLoop 120 imgC4 palC4 f 3 3 3 3 = none := by
  induction f with
  | zero => exact ⟨rfl, rfl⟩
  | succ n ih =>
    constructor
    · rw [borderLoop, borderStep_c4_from2]
      exact ih.2
    · rw [borderLoop, borderStep_c4_from3]
      exact ih.1

set_option maxRecDepth 40000 in
/-- The whole-delta pass on `imgC4` yields a full 256-entry palette. -/
theorem c4_pal_len :
    (createOptimizedPalette imgC4
      ⟨0, 0, (imgC4.w : Int), (imgC4.h : Int)⟩ 256).length = 256 := by
  decide

set_option maxRecDepth 40000 in
/-- The current-frame pass on `imgC4` exceeds the 256-color budget. -/
theorem c4_aux_len :
    ¬ (createOptimizedPalette imgC4 ⟨0, 0, 17, 17⟩ 257).length ≤ 256 := by
  decide

/-- C4 failing input: the quantization fallback ladder does not terminate.
On the 17×17 delta image `imgC4` holding 289 pairwise distinct opaque
colors, with the modelled precision threshold 120 and
disposal `DO_NOT_DISPOSE`, `calculatePalette` runs its border-thickness
search forever (alternating between thicknesses 2 and 3), whatever fuel it
is given — contradicting the claim that the ladder always terminates with a
palette of at most 256 entries. -/
theorem spec_c4_ladder_nonterminating (fuel : Nat) :
    calculatePalette 120 fuel imgC4 imgC4 ⟨0, 0, 17, 17⟩
      DisposalMethod.DO_NOT_DISPOSE (-1) = none := by
  have key : borderLoop 120 imgC4 palC4 fuel 4 4 4 4 = none := by
    cases fuel with
    | zero => rfl
    | succ n =>
      rw [borderLoop, borderStep_c4_from4]
      exact (borderLoop_c4_cycle n).1
  simp only [calculatePalette]
  rw [if_pos c4_pal_len, if_pos trivial, if_neg c4_aux_len]
  rw [show ((imgC4.h : Int) / 4) = 4 from by decide,
      show ((imgC4.w : Int) / 4) = 4 from by decide,
      show (createOptimizedPalette imgC4
        ⟨0, 0, (imgC4.w : Int), (imgC4.h : Int)⟩ 256).take 255 = palC4
        from rfl]
  rw [key]
/-! ## Octree instances settling C1, C5 and C6

Concrete `OctreeMap` states reached by feeding explicit color sequences, with
every intermediate state of the reduction loops materialized as a literal so
that each evaluation step is checked on concrete data. -/

set_option maxRecDepth 400000

set_option maxHeartbeats 2000000

/-- Shorthand for a default (fresh) octree node. -/
def D : OctreeNode := default

/-- Shorthand for a node literal: children, parent, leaf statistics
(r, g, b, a, pixel count) and palette index. -/
def N (ch : Option (List Nat)) (p r g b a pc : Nat) (pi : Int) : OctreeNode :=
  ⟨ch, p, ⟨r, g, b, a, pc⟩, pi⟩

/-- C1 failing input: an `OctreeMap` fed the two colors `0x80` and `0x8000`
at full depth 8. -/
def mapC1 : OctreeMap := (OctreeMap.fresh.addColor 0x80 8).addColor 0x8000 8

set_option maxRecDepth 100000 in
set_option maxHeartbeats 4000000 in
/-- C1: requesting a 1-color palette (`makePalette(1)`) from `mapC1` yields a
palette with 3 entries, exceeding both the requested count and the
count-plus-reserved-slot bound of 2 claimed by the spec: after the reserved
transparency slot is deducted the internal target becomes 0 and the reduction
loop degenerates at the root. -/
theorem spec_c1_makePalette_oversize :
    (mapC1.makePalette [] 1 8).2.1.length = 3 := by
  decide

/-- C5 counterexample input: four colors differing only in their level-6
hextet, fed at depth 7 (so the tree holds exactly 4 leaves). -/
def c5colors : List color_t :=
  (List.range 4).map (fun t => OctreeNode.hextetToBranchColor t 6)

/-- The depth-7 octree holding the four `c5colors`. -/
def mapC5 : OctreeMap :=
  c5colors.foldl (fun m c => m.addColor c 7) OctreeMap.fresh

set_option maxRecDepth 100000 in
set_option maxHeartbeats 4000000 in
/-- C5 counterexample: `mapC5` collects only 4 leaves, yet
`makePalette(5)` at depth hint 7 does NOT return the failure signal (it
returns `true`), because the code compares the leaf count against the
mask-adjusted count 5 − 1 = 4, not against the requested count 5 as the
claim states. -/
theorem spec_c5_counterexample :
    mapC5.collectPhase.2.length = 4 ∧ (4 : Nat) < 5 ∧
    (mapC5.makePalette [] 5 7).1 = true := by
  refine ⟨by decide, by decide, by decide⟩

/-- C5 as amended: `makePalette` returns the failure signal exactly when the
depth hint is 7 and the collected leaf count is below the requested count
MINUS the reserved mask slot (when the mask color is included); in
particular at depth 8 it never fails. -/
theorem spec_c5_depth7_failure_amended (m : OctreeMap) (pal : List color_t)
    (n : Int) (d : Nat) :
    (m.makePalette pal n d).1 = false ↔
      (d = 7 ∧ ultB m.collectPhase.2.length
        (if m.includeMaskColorInPalette then n - 1 else n) = true) := by
  by_cases hc : d = 7 ∧ ultB m.collectPhase.2.length
      (if m.includeMaskColorInPalette then n - 1 else n) = true
  · simp only [OctreeMap.makePalette, if_pos hc]
    simpa using hc
  · simp only [OctreeMap.makePalette, if_neg hc]
    simpa using hc

/-- One color per octree branch: level-5 hextet `q`, level-6 hextet `s`,
level-7 hextet `t`. -/
def mkColor (q s t : Nat) : color_t :=
  OctreeNode.hextetToBranchColor q 5 ||| OctreeNode.hextetToBranchColor s 6 |||
    OctreeNode.hextetToBranchColor t 7

/-- C6 counterexample input: 18 colors spread over 17 level-7 sibling
groups (the first group holds two colors, the other 16 one each). -/
def c6colors : List color_t :=
  [mkColor 0 0 0, mkColor 0 0 1, mkColor 1 0 0, mkColor 2 0 0] ++
    (List.range 14).map (fun s => mkColor 3 s 0)

/-- An `OctreeMap` that keeps no reserved mask slot. -/
def mapC6base : OctreeMap :=
  { OctreeMap.fresh with includeMaskColorInPalette := false }

/-- The depth-8 octree holding the 18 `c6colors`. -/
def mapC6 : OctreeMap := c6colors.foldl (fun m c => m.addColor c 8) mapC6base

/-- Wrap a heap into a mask-free `OctreeMap` (empty leaves vector). -/
def mkMapC6 (h : Heap) : OctreeMap := ⟨h, [], -1, false, none, 0⟩

/-- Heap literal after feeding the first 1 of the `c6colors`. -/
def c6fed1 : OctreeMap := mkMapC6
  [N (some [1,2,3,4,5,6,7,8,9,10,11,12,13,14,15,16]) 0 0 0 0 0 0 (-1),
   N (some [17,18,19,20,21,22,23,24,25,26,27,28,29,30,31,32]) 0 0 0 0 0 0 (-1),
   D,
   D,
   D,
   D,
   D,
   D,
   D,
   D,
   D,
   D,
   D,
   D,
   D,
   D,
   D,
   N (some [33,34,35,36,37,38,39,40,41,42,43,44,45,46,47,48]) 1 0 0 0 0 0 (-1),
   D,
   D,
   D,
   D,
   D,
   D,
   D,
   D,
   D,
   D,
   D,
   D,
   D,
   D,
   D,
   N (some [49,50,51,52,53,54,55,56,57,58,59,60,61,62,63,64]) 17 0 0 0 0 0 (-1),
   D,
   D,
   D,
   D,
   D,
   D,
   D,
   D,
   D,
   D,
   D,
   D,
   D,
   D,
   D,
   N (some [65,66,67,68,69,70,71,72,73,74,75,76,77,78,79,80]) 33 0 0 0 0 0 (-1),
   D,
   D,
   D,
   D,
   D,
   D,
   D,
   D,
   D,
   D,
   D,
   D,
   D,
   D,
   D,
   N (some [81,82,83,84,85,86,87,88,89,90,91,92,93,94,95,96]) 49 0 0 0 0 0 (-1),
   D,
   D,
   D,
   D,
   D,
   D,
   D,
   D,
   D,
   D,
   D,
   D,
   D,
   D,
   D,
   N (some [97,98,99,100,101,102,103,104,105,106,107,108,109,110,111,112]) 65 0 0 0 0 0 (-1),
   D,
   D,
   D,
   D,
   D,
   D,
   D,
   D,
   D,
   D,
   D,
   D,
   D,
   D,
   D,
   N (some [113,114,115,116,117,118,119,120,121,122,123,124,125,126,127,128]) 81 0 0 0 0 0 (-1),
   D,
   D,
   D,
   D,
   D,
   D,
   D,
   D,
   D,
   D,
   D,
   D,
   D,
   D,
   D,
   N none 97 0 0 0 0 1 0,
   D,
   D,
   D,
   D,
   D,
   D,
   D,
   D,
   D,
   D,
   D,
   D,
   D,
   D,
   D]

/-- Heap literal after feeding the first 2 of the `c6colors`. -/
def c6fed2 : OctreeMap := mkMapC6
  [N (some [1,2,3,4,5,6,7,8,9,10,11,12,13,14,15,16]) 0 0 0 0 0 0 (-1),
   N (some [17,18,19,20,21,22,23,24,25,26,27,28,29,30,31,32]) 0 0 0 0 0 0 (-1),
   D,
   D,
   D,
   D,
   D,
   D,
   D,
   D,
   D,
   D,
   D,
   D,
   D,
   D,
   D,
   N (some [33,34,35,36,37,38,39,40,41,42,43,44,45,46,47,48]) 1 0 0 0 0 0 (-1),
   D,
   D,
   D,
   D,
   D,
   D,
   D,
   D,
   D,
   D,
   D,
   D,
   D,
   D,
   D,
   N (some [49,50,51,52,53,54,55,56,57,58,59,60,61,62,63,64]) 17 0 0 0 0 0 (-1),
   D,
   D,
   D,
   D,
   D,
   D,
   D,
   D,
   D,
   D,
   D,
   D,
   D,
   D,
   D,
   N (some [65,66,67,68,69,70,71,72,73,74,75,76,77,78,79,80]) 33 0 0 0 0 0 (-1),
   D,
   D,
   D,
   D,
   D,
   D,
   D,
   D,
   D,
   D,
   D,
   D,
   D,
   D,
   D,
   N (some [81,82,83,84,85,86,87,88,89,90,91,92,93,94,95,96]) 49 0 0 0 0 0 (-1),
   D,
   D,
   D,
   D,
   D,
   D,
   D,
   D,
   D,
   D,
   D,
   D,
   D,
   D,
   D,
   N (some [97,98,99,100,101,102,103,104,105,106,107,108,109,110,111,112]) 65 0 0 0 0 0 (-1),
   D,
   D,
   D,
   D,
   D,
   D,
   D,
   D,
   D,
   D,
   D,
   D,
   D,
   D,
   D,
   N (some [113,114,115,116,117,118,119,120,121,122,123,124,125,126,127,128]) 81 0 0 0 0 0 (-1),
   D,
   D,
   D,
   D,
   D,
   D,
   D,
   D,
   D,
   D,
   D,
   D,
   D,
   D,
   D,
   N none 97 0 0 0 0 1 0,
   N none 97 1 0 0 0 1 0,
   D,
   D,
   D,
   D,
   D,
   D,
   D,
   D,
   D,
   D,
   D,
   D,
   D,
   D]

/-- Heap literal after feeding the first 3 of the `c6colors`. -/
def c6fed3 : OctreeMap := mkMapC6
  [N (some [1,2,3,4,5,6,7,8,9,10,11,12,13,14,15,16]) 0 0 0 0 0 0 (-1),
   N (some [17,18,19,20,21,22,23,24,25,26,27,28,29,30,31,32]) 0 0 0 0 0 0 (-1),
   D,
   D,
   D,
   D,
   D,
   D,
   D,
   D,
   D,
   D,
   D,
   D,
   D,
   D,
   D,
   N (some [33,34,35,36,37,38,39,40,41,42,43,44,45,46,47,48]) 1 0 0 0 0 0 (-1),
   D,
   D,
   D,
   D,
   D,
   D,
   D,
   D,
   D,
   D,
   D,
   D,
   D,
   D,
   D,
   N (some [49,50,51,52,53,54,55,56,57,58,59,60,61,62,63,64]) 17 0 0 0 0 0 (-1),
   D,
   D,
   D,
   D,
   D,
   D,
   D,
   D,
   D,
   D,
   D,
   D,
   D,
   D,
   D,
   N (some [65,66,67,68,69,70,71,72,73,74,75,76,77,78,79,80]) 33 0 0 0 0 0 (-1),
   D,
   D,
   D,
   D,
   D,
   D,
   D,
   D,
   D,
   D,
   D,
   D,
   D,
   D,
   D,
   N (some [81,82,83,84,85,86,87,88,89,90,91,92,93,94,95,96]) 49 0 0 0 0 0 (-1),
   D,
   D,
   D,
   D,
   D,
   D,
   D,
   D,
   D,
   D,
   D,
   D,
   D,
   D,
   D,
   N (some [97,98,99,100,101,102,103,104,105,106,107,108,109,110,111,112]) 65 0 0 0 0 0 (-1),
   N (some [129,130,131,132,133,134,135,136,137,138,139,140,141,142,143,144]) 65 0 0 0 0 0 (-1),
   D,
   D,
   D,
   D,
   D,
   D,
   D,
   D,
   D,
   D,
   D,
   D,
   D,
   D,
   N (some [113,114,115,116,117,118,119,120,121,122,123,124,125,126,127,128]) 81 0 0 0 0 0 (-1),
   D,
   D,
   D,
   D,
   D,
   D,
   D,
   D,
   D,
   D,
   D,
   D,
   D,
   D,
   D,
   N none 97 0 0 0 0 1 0,
   N none 97 1 0 0 0 1 0,
   D,
   D,
   D,
   D,
   D,
   D,
   D,
   D,
   D,
   D,
   D,
   D,
   D,
   D,
   N (some [145,146,147,148,149,150,151,152,153,154,155,156,157,158,159,160]) 82 0 0 0 0 0 (-1),
   D,
   D,
   D,
   D,
   D,
   D,
   D,
   D,
   D,
   D,
   D,
   D,
   D,
   D,
   D,
   N none 129 4 0 0 0 1 0,
   D,
   D,
   D,
   D,
   D,
   D,
   D,
   D,
   D,
   D,
   D,
   D,
   D,
   D,
   D]

/-- Heap literal after feeding the first 4 of the `c6colors`. -/
def c6fed4 : OctreeMap := mkMapC6
  [N (some [1,2,3,4,5,6,7,8,9,10,11,12,13,14,15,16]) 0 0 0 0 0 0 (-1),
   N (some [17,18,19,20,21,22,23,24,25,26,27,28,29,30,31,32]) 0 0 0 0 0 0 (-1),
   D,
   D,
   D,
   D,
   D,
   D,
   D,
   D,
   D,
   D,
   D,
   D,
   D,
   D,
   D,
   N (some [33,34,35,36,37,38,39,40,41,42,43,44,45,46,47,48]) 1 0 0 0 0 0 (-1),
   D,
   D,
   D,
   D,
   D,
   D,
   D,
   D,
   D,
   D,
   D,
   D,
   D,
   D,
   D,
   N (some [49,50,51,52,53,54,55,56,57,58,59,60,61,62,63,64]) 17 0 0 0 0 0 (-1),
   D,
   D,
   D,
   D,
   D,
   D,
   D,
   D,
   D,
   D,
   D,
   D,
   D,
   D,
   D,
   N (some [65,66,67,68,69,70,71,72,73,74,75,76,77,78,79,80]) 33 0 0 0 0 0 (-1),
   D,
   D,
   D,
   D,
   D,
   D,
   D,
   D,
   D,
   D,
   D,
   D,
   D,
   D,
   D,
   N (some [81,82,83,84,85,86,87,88,89,90,91,92,93,94,95,96]) 49 0 0 0 0 0 (-1),
   D,
   D,
   D,
   D,
   D,
   D,
   D,
   D,
   D,
   D,
   D,
   D,
   D,
   D,
   D,
   N (some [97,98,99,100,101,102,103,104,105,106,107,108,109,110,111,112]) 65 0 0 0 0 0 (-1),
   N (some [129,130,131,132,133,134,135,136,137,138,139,140,141,142,143,144]) 65 0 0 0 0 0 (-1),
   N (some [161,162,163,164,165,166,167,168,169,170,171,172,173,174,175,176]) 65 0 0 0 0 0 (-1),
   D,
   D,
   D,
   D,
   D,
   D,
   D,
   D,
   D,
   D,
   D,
   D,
   D,
   N (some [113,114,115,116,117,118,119,120,121,122,123,124,125,126,127,128]) 81 0 0 0 0 0 (-1),
   D,
   D,
   D,
   D,
   D,
   D,
   D,
   D,
   D,
   D,
   D,
   D,
   D,
   D,
   D,
   N none 97 0 0 0 0 1 0,
   N none 97 1 0 0 0 1 0,
   D,
   D,
   D,
   D,
   D,
   D,
   D,
   D,
   D,
   D,
   D,
   D,
   D,
   D,
   N (some [145,146,147,148,149,150,151,152,153,154,155,156,157,158,159,160]) 82 0 0 0 0 0 (-1),
   D,
   D,
   D,
   D,
   D,
   D,
   D,
   D,
   D,
   D,
   D,
   D,
   D,
   D,
   D,
   N none 129 4 0 0 0 1 0,
   D,
   D,
   D,
   D,
   D,
   D,
   D,
   D,
   D,
   D,
   D,
   D,
   D,
   D,
   D,
   N (some [177,178,179,180,181,182,183,184,185,186,187,188,189,190,191,192]) 83 0 0 0 0 0 (-1),
   D,
   D,
   D,
   D,
   D,
   D,
   D,
   D,
   D,
   D,
   D,
   D,
   D,
   D,
   D,
   N none 161 0 4 0 0 1 0,
   D,
   D,
   D,
   D,
   D,
   D,
   D,
   D,
   D,
   D,
   D,
   D,
   D,
   D,
   D]

/-- Heap literal after feeding the first 5 of the `c6colors`. -/
def c6fed5 : OctreeMap := mkMapC6
  [N (some [1,2,3,4,5,6,7,8,9,10,11,12,13,14,15,16]) 0 0 0 0 0 0 (-1),
   N (some [17,18,19,20,21,22,23,24,25,26,27,28,29,30,31,32]) 0 0 0 0 0 0 (-1),
   D,
   D,
   D,
   D,
   D,
   D,
   D,
   D,
   D,
   D,
   D,
   D,
   D,
   D,
   D,
   N (some [33,34,35,36,37,38,39,40,41,42,43,44,45,46,47,48]) 1 0 0 0 0 0 (-1),
   D,
   D,
   D,
   D,
   D,
   D,
   D,
   D,
   D,
   D,
   D,
   D,
   D,
   D,
   D,
   N (some [49,50,51,52,53,54,55,56,57,58,59,60,61,62,63,64]) 17 0 0 0 0 0 (-1),
   D,
   D,
   D,
   D,
   D,
   D,
   D,
   D,
   D,
   D,
   D,
   D,
   D,
   D,
   D,
   N (some [65,66,67,68,69,70,71,72,73,74,75,76,77,78,79,80]) 33 0 0 0 0 0 (-1),
   D,
   D,
   D,
   D,
   D,
   D,
   D,
   D,
   D,
   D,
   D,
   D,
   D,
   D,
   D,
   N (some [81,82,83,84,85,86,87,88,89,90,91,92,93,94,95,96]) 49 0 0 0 0 0 (-1),
   D,
   D,
   D,
   D,
   D,
   D,
   D,
   D,
   D,
   D,
   D,
   D,
   D,
   D,
   D,
   N (some [97,98,99,100,101,102,103,104,105,106,107,108,109,110,111,112]) 65 0 0 0 0 0 (-1),
   N (some [129,130,131,132,133,134,135,136,137,138,139,140,141,142,143,144]) 65 0 0 0 0 0 (-1),
   N (some [161,162,163,164,165,166,167,168,169,170,171,172,173,174,175,176]) 65 0 0 0 0 0 (-1),
   N (some [193,194,195,196,197,198,199,200,201,202,203,204,205,206,207,208]) 65 0 0 0 0 0 (-1),
   D,
   D,
   D,
   D,
   D,
   D,
   D,
   D,
   D,
   D,
   D,
   D,
   N (some [113,114,115,116,117,118,119,120,121,122,123,124,125,126,127,128]) 81 0 0 0 0 0 (-1),
   D,
   D,
   D,
   D,
   D,
   D,
   D,
   D,
   D,
   D,
   D,
   D,
   D,
   D,
   D,
   N none 97 0 0 0 0 1 0,
   N none 97 1 0 0 0 1 0,
   D,
   D,
   D,
   D,
   D,
   D,
   D,
   D,
   D,
   D,
   D,
   D,
   D,
   D,
   N (some [145,146,147,148,149,150,151,152,153,154,155,156,157,158,159,160]) 82 0 0 0 0 0 (-1),
   D,
   D,
   D,
   D,
   D,
   D,
   D,
   D,
   D,
   D,
   D,
   D,
   D,
   D,
   D,
   N none 129 4 0 0 0 1 0,
   D,
   D,
   D,
   D,
   D,
   D,
   D,
   D,
   D,
   D,
   D,
   D,
   D,
   D,
   D,
   N (some [177,178,179,180,181,182,183,184,185,186,187,188,189,190,191,192]) 83 0 0 0 0 0 (-1),
   D,
   D,
   D,
   D,
   D,
   D,
   D,
   D,
   D,
   D,
   D,
   D,
   D,
   D,
   D,
   N none 161 0 4 0 0 1 0,
   D,
   D,
   D,
   D,
   D,
   D,
   D,
   D,
   D,
   D,
   D,
   D,
   D,
   D,
   D,
   N (some [209,210,211,212,213,214,215,216,217,218,219,220,221,222,223,224]) 84 0 0 0 0 0 (-1),
   D,
   D,
   D,
   D,
   D,
   D,
   D,
   D,
   D,
   D,
   D,
   D,
   D,
   D,
   D,
   N none 193 4 4 0 0 1 0,
   D,
   D,
   D,
   D,
   D,
   D,
   D,
   D,
   D,
   D,
   D,
   D,
   D,
   D,
   D]

/-- Heap literal after feeding the first 6 of the `c6colors`. -/
def c6fed6 : OctreeMap := mkMapC6
  [N (some [1,2,3,4,5,6,7,8,9,10,11,12,13,14,15,16]) 0 0 0 0 0 0 (-1),
   N (some [17,18,19,20,21,22,23,24,25,26,27,28,29,30,31,32]) 0 0 0 0 0 0 (-1),
   D,
   D,
   D,
   D,
   D,
   D,
   D,
   D,
   D,
   D,
   D,
   D,
   D,
   D,
   D,
   N (some [33,34,35,36,37,38,39,40,41,42,43,44,45,46,47,48]) 1 0 0 0 0 0 (-1),
   D,
   D,
   D,
   D,
   D,
   D,
   D,
   D,
   D,
   D,
   D,
   D,
   D,
   D,
   D,
   N (some [49,50,51,52,53,54,55,56,57,58,59,60,61,62,63,64]) 17 0 0 0 0 0 (-1),
   D,
   D,
   D,
   D,
   D,
   D,
   D,
   D,
   D,
   D,
   D,
   D,
   D,
   D,
   D,
   N (some [65,66,67,68,69,70,71,72,73,74,75,76,77,78,79,80]) 33 0 0 0 0 0 (-1),
   D,
   D,
   D,
   D,
   D,
   D,
   D,
   D,
   D,
   D,
   D,
   D,
   D,
   D,
   D,
   N (some [81,82,83,84,85,86,87,88,89,90,91,92,93,94,95,96]) 49 0 0 0 0 0 (-1),
   D,
   D,
   D,
   D,
   D,
   D,
   D,
   D,
   D,
   D,
   D,
   D,
   D,
   D,
   D,
   N (some [97,98,99,100,101,102,103,104,105,106,107,108,109,110,111,112]) 65 0 0 0 0 0 (-1),
   N (some [129,130,131,132,133,134,135,136,137,138,139,140,141,142,143,144]) 65 0 0 0 0 0 (-1),
   N (some [161,162,163,164,165,166,167,168,169,170,171,172,173,174,175,176]) 65 0 0 0 0 0 (-1),
   N (some [193,194,195,196,197,198,199,200,201,202,203,204,205,206,207,208]) 65 0 0 0 0 0 (-1),
   D,
   D,
   D,
   D,
   D,
   D,
   D,
   D,
   D,
   D,
   D,
   D,
   N (some [113,114,115,116,117,118,119,120,121,122,123,124,125,126,127,128]) 81 0 0 0 0 0 (-1),
   D,
   D,
   D,
   D,
   D,
   D,
   D,
   D,
   D,
   D,
   D,
   D,
   D,
   D,
   D,
   N none 97 0 0 0 0 1 0,
   N none 97 1 0 0 0 1 0,
   D,
   D,
   D,
   D,
   D,
   D,
   D,
   D,
   D,
   D,
   D,
   D,
   D,
   D,
   N (some [145,146,147,148,149,150,151,152,153,154,155,156,157,158,159,160]) 82 0 0 0 0 0 (-1),
   D,
   D,
   D,
   D,
   D,
   D,
   D,
   D,
   D,
   D,
   D,
   D,
   D,
   D,
   D,
   N none 129 4 0 0 0 1 0,
   D,
   D,
   D,
   D,
   D,
   D,
   D,
   D,
   D,
   D,
   D,
   D,
   D,
   D,
   D,
   N (some [177,178,179,180,181,182,183,184,185,186,187,188,189,190,191,192]) 83 0 0 0 0 0 (-1),
   D,
   D,
   D,
   D,
   D,
   D,
   D,
   D,
   D,
   D,
   D,
   D,
   D,
   D,
   D,
   N none 161 0 4 0 0 1 0,
   D,
   D,
   D,
   D,
   D,
   D,
   D,
   D,
   D,
   D,
   D,
   D,
   D,
   D,
   D,
   N (some [209,210,211,212,213,214,215,216,217,218,219,220,221,222,223,224]) 84 0 0 0 0 0 (-1),
   N (some [225,226,227,228,229,230,231,232,233,234,235,236,237,238,239,240]) 84 0 0 0 0 0 (-1),
   D,
   D,
   D,
   D,
   D,
   D,
   D,
   D,
   D,
   D,
   D,
   D,
   D,
   D,
   N none 193 4 4 0 0 1 0,
   D,
   D,
   D,
   D,
   D,
   D,
   D,
   D,
   D,
   D,
   D,
   D,
   D,
   D,
   D,
   N none 194 6 4 0 0 1 0,
   D,
   D,
   D,
   D,
   D,
   D,
   D,
   D,
   D,
   D,
   D,
   D,
   D,
   D,
   D]

/-- Heap literal after feeding the first 7 of the `c6colors`. -/
def c6fed7 : OctreeMap := mkMapC6
  [N (some [1,2,3,4,5,6,7,8,9,10,11,12,13,14,15,16]) 0 0 0 0 0 0 (-1),
   N (some [17,18,19,20,21,22,23,24,25,26,27,28,29,30,31,32]) 0 0 0 0 0 0 (-1),
   D,
   D,
   D,
   D,
   D,
   D,
   D,
   D,
   D,
   D,
   D,
   D,
   D,
   D,
   D,
   N (some [33,34,35,36,37,38,39,40,41,42,43,44,45,46,47,48]) 1 0 0 0 0 0 (-1),
   D,
   D,
   D,
   D,
   D,
   D,
   D,
   D,
   D,
   D,
   D,
   D,
   D,
   D,
   D,
   N (some [49,50,51,52,53,54,55,56,57,58,59,60,61,62,63,64]) 17 0 0 0 0 0 (-1),
   D,
   D,
   D,
   D,
   D,
   D,
   D,
   D,
   D,
   D,
   D,
   D,
   D,
   D,
   D,
   N (some [65,66,67,68,69,70,71,72,73,74,75,76,77,78,79,80]) 33 0 0 0 0 0 (-1),
   D,
   D,
   D,
   D,
   D,
   D,
   D,
   D,
   D,
   D,
   D,
   D,
   D,
   D,
   D,
   N (some [81,82,83,84,85,86,87,88,89,90,91,92,93,94,95,96]) 49 0 0 0 0 0 (-1),
   D,
   D,
   D,
   D,
   D,
   D,
   D,
   D,
   D,
   D,
   D,
   D,
   D,
   D,
   D,
   N (some [97,98,99,100,101,102,103,104,105,106,107,108,109,110,111,112]) 65 0 0 0 0 0 (-1),
   N (some [129,130,131,132,133,134,135,136,137,138,139,140,141,142,143,144]) 65 0 0 0 0 0 (-1),
   N (some [161,162,163,164,165,166,167,168,169,170,171,172,173,174,175,176]) 65 0 0 0 0 0 (-1),
   N (some [193,194,195,196,197,198,199,200,201,202,203,204,205,206,207,208]) 65 0 0 0 0 0 (-1),
   D,
   D,
   D,
   D,
   D,
   D,
   D,
   D,
   D,
   D,
   D,
   D,
   N (some [113,114,115,116,117,118,119,120,121,122,123,124,125,126,127,128]) 81 0 0 0 0 0 (-1),
   D,
   D,
   D,
   D,
   D,
   D,
   D,
   D,
   D,
   D,
   D,
   D,
   D,
   D,
   D,
   N none 97 0 0 0 0 1 0,
   N none 97 1 0 0 0 1 0,
   D,
   D,
   D,
   D,
   D,
   D,
   D,
   D,
   D,
   D,
   D,
   D,
   D,
   D,
   N (some [145,146,147,148,149,150,151,152,153,154,155,156,157,158,159,160]) 82 0 0 0 0 0 (-1),
   D,
   D,
   D,
   D,
   D,
   D,
   D,
   D,
   D,
   D,
   D,
   D,
   D,
   D,
   D,
   N none 129 4 0 0 0 1 0,
   D,
   D,
   D,
   D,
   D,
   D,
   D,
   D,
   D,
   D,
   D,
   D,
   D,
   D,
   D,
   N (some [177,178,179,180,181,182,183,184,185,186,187,188,189,190,191,192]) 83 0 0 0 0 0 (-1),
   D,
   D,
   D,
   D,
   D,
   D,
   D,
   D,
   D,
   D,
   D,
   D,
   D,
   D,
   D,
   N none 161 0 4 0 0 1 0,
   D,
   D,
   D,
   D,
   D,
   D,
   D,
   D,
   D,
   D,
   D,
   D,
   D,
   D,
   D,
   N (some [209,210,211,212,213,214,215,216,217,218,219,220,221,222,223,224]) 84 0 0 0 0 0 (-1),
   N (some [225,226,227,228,229,230,231,232,233,234,235,236,237,238,239,240]) 84 0 0 0 0 0 (-1),
   N (some [241,242,243,244,245,246,247,248,249,250,251,252,253,254,255,256]) 84 0 0 0 0 0 (-1),
   D,
   D,
   D,
   D,
   D,
   D,
   D,
   D,
   D,
   D,
   D,
   D,
   D,
   N none 193 4 4 0 0 1 0,
   D,
   D,
   D,
   D,
   D,
   D,
   D,
   D,
   D,
   D,
   D,
   D,
   D,
   D,
   D,
   N none 194 6 4 0 0 1 0,
   D,
   D,
   D,
   D,
   D,
   D,
   D,
   D,
   D,
   D,
   D,
   D,
   D,
   D,
   D,
   N none 195 4 6 0 0 1 0,
   D,
   D,
   D,
   D,
   D,
   D,
   D,
   D,
   D,
   D,
   D,
   D,
   D,
   D,
   D]

/-- Heap literal after feeding the first 8 of the `c6colors`. -/
def c6fed8 : OctreeMap := mkMapC6
  [N (some [1,2,3,4,5,6,7,8,9,10,11,12,13,14,15,16]) 0 0 0 0 0 0 (-1),
   N (some [17,18,19,20,21,22,23,24,25,26,27,28,29,30,31,32]) 0 0 0 0 0 0 (-1),
   D,
   D,
   D,
   D,
   D,
   D,
   D,
   D,
   D,
   D,
   D,
   D,
   D,
   D,
   D,
   N (some [33,34,35,36,37,38,39,40,41,42,43,44,45,46,47,48]) 1 0 0 0 0 0 (-1),
   D,
   D,
   D,
   D,
   D,
   D,
   D,
   D,
   D,
   D,
   D,
   D,
   D,
   D,
   D,
   N (some [49,50,51,52,53,54,55,56,57,58,59,60,61,62,63,64]) 17 0 0 0 0 0 (-1),
   D,
   D,
   D,
   D,
   D,
   D,
   D,
   D,
   D,
   D,
   D,
   D,
   D,
   D,
   D,
   N (some [65,66,67,68,69,70,71,72,73,74,75,76,77,78,79,80]) 33 0 0 0 0 0 (-1),
   D,
   D,
   D,
   D,
   D,
   D,
   D,
   D,
   D,
   D,
   D,
   D,
   D,
   D,
   D,
   N (some [81,82,83,84,85,86,87,88,89,90,91,92,93,94,95,96]) 49 0 0 0 0 0 (-1),
   D,
   D,
   D,
   D,
   D,
   D,
   D,
   D,
   D,
   D,
   D,
   D,
   D,
   D,
   D,
   N (some [97,98,99,100,101,102,103,104,105,106,107,108,109,110,111,112]) 65 0 0 0 0 0 (-1),
   N (some [129,130,131,132,133,134,135,136,137,138,139,140,141,142,143,144]) 65 0 0 0 0 0 (-1),
   N (some [161,162,163,164,165,166,167,168,169,170,171,172,173,174,175,176]) 65 0 0 0 0 0 (-1),
   N (some [193,194,195,196,197,198,199,200,201,202,203,204,205,206,207,208]) 65 0 0 0 0 0 (-1),
   D,
   D,
   D,
   D,
   D,
   D,
   D,
   D,
   D,
   D,
   D,
   D,
   N (some [113,114,115,116,117,118,119,120,121,122,123,124,125,126,127,128]) 81 0 0 0 0 0 (-1),
   D,
   D,
   D,
   D,
   D,
   D,
   D,
   D,
   D,
   D,
   D,
   D,
   D,
   D,
   D,
   N none 97 0 0 0 0 1 0,
   N none 97 1 0 0 0 1 0,
   D,
   D,
   D,
   D,
   D,
   D,
   D,
   D,
   D,
   D,
   D,
   D,
   D,
   D,
   N (some [145,146,147,148,149,150,151,152,153,154,155,156,157,158,159,160]) 82 0 0 0 0 0 (-1),
   D,
   D,
   D,
   D,
   D,
   D,
   D,
   D,
   D,
   D,
   D,
   D,
   D,
   D,
   D,
   N none 129 4 0 0 0 1 0,
   D,
   D,
   D,
   D,
   D,
   D,
   D,
   D,
   D,
   D,
   D,
   D,
   D,
   D,
   D,
   N (some [177,178,179,180,181,182,183,184,185,186,187,188,189,190,191,192]) 83 0 0 0 0 0 (-1),
   D,
   D,
   D,
   D,
   D,
   D,
   D,
   D,
   D,
   D,
   D,
   D,
   D,
   D,
   D,
   N none 161 0 4 0 0 1 0,
   D,
   D,
   D,
   D,
   D,
   D,
   D,
   D,
   D,
   D,
   D,
   D,
   D,
   D,
   D,
   N (some [209,210,211,212,213,214,215,216,217,218,219,220,221,222,223,224]) 84 0 0 0 0 0 (-1),
   N (some [225,226,227,228,229,230,231,232,233,234,235,236,237,238,239,240]) 84 0 0 0 0 0 (-1),
   N (some [241,242,243,244,245,246,247,248,249,250,251,252,253,254,255,256]) 84 0 0 0 0 0 (-1),
   N (some [257,258,259,260,261,262,263,264,265,266,267,268,269,270,271,272]) 84 0 0 0 0 0 (-1),
   D,
   D,
   D,
   D,
   D,
   D,
   D,
   D,
   D,
   D,
   D,
   D,
   N none 193 4 4 0 0 1 0,
   D,
   D,
   D,
   D,
   D,
   D,
   D,
   D,
   D,
   D,
   D,
   D,
   D,
   D,
   D,
   N none 194 6 4 0 0 1 0,
   D,
   D,
   D,
   D,
   D,
   D,
   D,
   D,
   D,
   D,
   D,
   D,
   D,
   D,
   D,
   N none 195 4 6 0 0 1 0,
   D,
   D,
   D,
   D,
   D,
   D,
   D,
   D,
   D,
   D,
   D,
   D,
   D,
   D,
   D,
   N none 196 6 6 0 0 1 0,
   D,
   D,
   D,
   D,
   D,
   D,
   D,
   D,
   D,
   D,
   D,
   D,
   D,
   D,
   D]

/-- Heap literal after feeding the first 9 of the `c6colors`. -/
def c6fed9 : OctreeMap := mkMapC6
  [N (some [1,2,3,4,5,6,7,8,9,10,11,12,13,14,15,16]) 0 0 0 0 0 0 (-1),
   N (some [17,18,19,20,21,22,23,24,25,26,27,28,29,30,31,32]) 0 0 0 0 0 0 (-1),
   D,
   D,
   D,
   D,
   D,
   D,
   D,
   D,
   D,
   D,
   D,
   D,
   D,
   D,
   D,
   N (some [33,34,35,36,37,38,39,40,41,42,43,44,45,46,47,48]) 1 0 0 0 0 0 (-1),
   D,
   D,
   D,
   D,
   D,
   D,
   D,
   D,
   D,
   D,
   D,
   D,
   D,
   D,
   D,
   N (some [49,50,51,52,53,54,55,56,57,58,59,60,61,62,63,64]) 17 0 0 0 0 0 (-1),
   D,
   D,
   D,
   D,
   D,
   D,
   D,
   D,
   D,
   D,
   D,
   D,
   D,
   D,
   D,
   N (some [65,66,67,68,69,70,71,72,73,74,75,76,77,78,79,80]) 33 0 0 0 0 0 (-1),
   D,
   D,
   D,
   D,
   D,
   D,
   D,
   D,
   D,
   D,
   D,
   D,
   D,
   D,
   D,
   N (some [81,82,83,84,85,86,87,88,89,90,91,92,93,94,95,96]) 49 0 0 0 0 0 (-1),
   D,
   D,
   D,
   D,
   D,
   D,
   D,
   D,
   D,
   D,
   D,
   D,
   D,
   D,
   D,
   N (some [97,98,99,100,101,102,103,104,105,106,107,108,109,110,111,112]) 65 0 0 0 0 0 (-1),
   N (some [129,130,131,132,133,134,135,136,137,138,139,140,141,142,143,144]) 65 0 0 0 0 0 (-1),
   N (some [161,162,163,164,165,166,167,168,169,170,171,172,173,174,175,176]) 65 0 0 0 0 0 (-1),
   N (some [193,194,195,196,197,198,199,200,201,202,203,204,205,206,207,208]) 65 0 0 0 0 0 (-1),
   D,
   D,
   D,
   D,
   D,
   D,
   D,
   D,
   D,
   D,
   D,
   D,
   N (some [113,114,115,116,117,118,119,120,121,122,123,124,125,126,127,128]) 81 0 0 0 0 0 (-1),
   D,
   D,
   D,
   D,
   D,
   D,
   D,
   D,
   D,
   D,
   D,
   D,
   D,
   D,
   D,
   N none 97 0 0 0 0 1 0,
   N none 97 1 0 0 0 1 0,
   D,
   D,
   D,
   D,
   D,
   D,
   D,
   D,
   D,
   D,
   D,
   D,
   D,
   D,
   N (some [145,146,147,148,149,150,151,152,153,154,155,156,157,158,159,160]) 82 0 0 0 0 0 (-1),
   D,
   D,
   D,
   D,
   D,
   D,
   D,
   D,
   D,
   D,
   D,
   D,
   D,
   D,
   D,
   N none 129 4 0 0 0 1 0,
   D,
   D,
   D,
   D,
   D,
   D,
   D,
   D,
   D,
   D,
   D,
   D,
   D,
   D,
   D,
   N (some [177,178,179,180,181,182,183,184,185,186,187,188,189,190,191,192]) 83 0 0 0 0 0 (-1),
   D,
   D,
   D,
   D,
   D,
   D,
   D,
   D,
   D,
   D,
   D,
   D,
   D,
   D,
   D,
   N none 161 0 4 0 0 1 0,
   D,
   D,
   D,
   D,
   D,
   D,
   D,
   D,
   D,
   D,
   D,
   D,
   D,
   D,
   D,
   N (some [209,210,211,212,213,214,215,216,217,218,219,220,221,222,223,224]) 84 0 0 0 0 0 (-1),
   N (some [225,226,227,228,229,230,231,232,233,234,235,236,237,238,239,240]) 84 0 0 0 0 0 (-1),
   N (some [241,242,243,244,245,246,247,248,249,250,251,252,253,254,255,256]) 84 0 0 0 0 0 (-1),
   N (some [257,258,259,260,261,262,263,264,265,266,267,268,269,270,271,272]) 84 0 0 0 0 0 (-1),
   N (some [273,274,275,276,277,278,279,280,281,282,283,284,285,286,287,288]) 84 0 0 0 0 0 (-1),
   D,
   D,
   D,
   D,
   D,
   D,
   D,
   D,
   D,
   D,
   D,
   N none 193 4 4 0 0 1 0,
   D,
   D,
   D,
   D,
   D,
   D,
   D,
   D,
   D,
   D,
   D,
   D,
   D,
   D,
   D,
   N none 194 6 4 0 0 1 0,
   D,
   D,
   D,
   D,
   D,
   D,
   D,
   D,
   D,
   D,
   D,
   D,
   D,
   D,
   D,
   N none 195 4 6 0 0 1 0,
   D,
   D,
   D,
   D,
   D,
   D,
   D,
   D,
   D,
   D,
   D,
   D,
   D,
   D,
   D,
   N none 196 6 6 0 0 1 0,
   D,
   D,
   D,
   D,
   D,
   D,
   D,
   D,
   D,
   D,
   D,
   D,
   D,
   D,
   D,
   N none 197 4 4 2 0 1 0,
   D,
   D,
   D,
   D,
   D,
   D,
   D,
   D,
   D,
   D,
   D,
   D,
   D,
   D,
   D]

/-- Heap literal after feeding the first 10 of the `c6colors`. -/
def c6fed10 : OctreeMap := mkMapC6
  [N (some [1,2,3,4,5,6,7,8,9,10,11,12,13,14,15,16]) 0 0 0 0 0 0 (-1),
   N (some [17,18,19,20,21,22,23,24,25,26,27,28,29,30,31,32]) 0 0 0 0 0 0 (-1),
   D,
   D,
   D,
   D,
   D,
   D,
   D,
   D,
   D,
   D,
   D,
   D,
   D,
   D,
   D,
   N (some [33,34,35,36,37,38,39,40,41,42,43,44,45,46,47,48]) 1 0 0 0 0 0 (-1),
   D,
   D,
   D,
   D,
   D,
   D,
   D,
   D,
   D,
   D,
   D,
   D,
   D,
   D,
   D,
   N (some [49,50,51,52,53,54,55,56,57,58,59,60,61,62,63,64]) 17 0 0 0 0 0 (-1),
   D,
   D,
   D,
   D,
   D,
   D,
   D,
   D,
   D,
   D,
   D,
   D,
   D,
   D,
   D,
   N (some [65,66,67,68,69,70,71,72,73,74,75,76,77,78,79,80]) 33 0 0 0 0 0 (-1),
   D,
   D,
   D,
   D,
   D,
   D,
   D,
   D,
   D,
   D,
   D,
   D,
   D,
   D,
   D,
   N (some [81,82,83,84,85,86,87,88,89,90,91,92,93,94,95,96]) 49 0 0 0 0 0 (-1),
   D,
   D,
   D,
   D,
   D,
   D,
   D,
   D,
   D,
   D,
   D,
   D,
   D,
   D,
   D,
   N (some [97,98,99,100,101,102,103,104,105,106,107,108,109,110,111,112]) 65 0 0 0 0 0 (-1),
   N (some [129,130,131,132,133,134,135,136,137,138,139,140,141,142,143,144]) 65 0 0 0 0 0 (-1),
   N (some [161,162,163,164,165,166,167,168,169,170,171,172,173,174,175,176]) 65 0 0 0 0 0 (-1),
   N (some [193,194,195,196,197,198,199,200,201,202,203,204,205,206,207,208]) 65 0 0 0 0 0 (-1),
   D,
   D,
   D,
   D,
   D,
   D,
   D,
   D,
   D,
   D,
   D,
   D,
   N (some [113,114,115,116,117,118,119,120,121,122,123,124,125,126,127,128]) 81 0 0 0 0 0 (-1),
   D,
   D,
   D,
   D,
   D,
   D,
   D,
   D,
   D,
   D,
   D,
   D,
   D,
   D,
   D,
   N none 97 0 0 0 0 1 0,
   N none 97 1 0 0 0 1 0,
   D,
   D,
   D,
   D,
   D,
   D,
   D,
   D,
   D,
   D,
   D,
   D,
   D,
   D,
   N (some [145,146,147,148,149,150,151,152,153,154,155,156,157,158,159,160]) 82 0 0 0 0 0 (-1),
   D,
   D,
   D,
   D,
   D,
   D,
   D,
   D,
   D,
   D,
   D,
   D,
   D,
   D,
   D,
   N none 129 4 0 0 0 1 0,
   D,
   D,
   D,
   D,
   D,
   D,
   D,
   D,
   D,
   D,
   D,
   D,
   D,
   D,
   D,
   N (some [177,178,179,180,181,182,183,184,185,186,187,188,189,190,191,192]) 83 0 0 0 0 0 (-1),
   D,
   D,
   D,
   D,
   D,
   D,
   D,
   D,
   D,
   D,
   D,
   D,
   D,
   D,
   D,
   N none 161 0 4 0 0 1 0,
   D,
   D,
   D,
   D,
   D,
   D,
   D,
   D,
   D,
   D,
   D,
   D,
   D,
   D,
   D,
   N (some [209,210,211,212,213,214,215,216,217,218,219,220,221,222,223,224]) 84 0 0 0 0 0 (-1),
   N (some [225,226,227,228,229,230,231,232,233,234,235,236,237,238,239,240]) 84 0 0 0 0 0 (-1),
   N (some [241,242,243,244,245,246,247,248,249,250,251,252,253,254,255,256]) 84 0 0 0 0 0 (-1),
   N (some [257,258,259,260,261,262,263,264,265,266,267,268,269,270,271,272]) 84 0 0 0 0 0 (-1),
   N (some [273,274,275,276,277,278,279,280,281,282,283,284,285,286,287,288]) 84 0 0 0 0 0 (-1),
   N (some [289,290,291,292,293,294,295,296,297,298,299,300,301,302,303,304]) 84 0 0 0 0 0 (-1),
   D,
   D,
   D,
   D,
   D,
   D,
   D,
   D,
   D,
   D,
   N none 193 4 4 0 0 1 0,
   D,
   D,
   D,
   D,
   D,
   D,
   D,
   D,
   D,
   D,
   D,
   D,
   D,
   D,
   D,
   N none 194 6 4 0 0 1 0,
   D,
   D,
   D,
   D,
   D,
   D,
   D,
   D,
   D,
   D,
   D,
   D,
   D,
   D,
   D,
   N none 195 4 6 0 0 1 0,
   D,
   D,
   D,
   D,
   D,
   D,
   D,
   D,
   D,
   D,
   D,
   D,
   D,
   D,
   D,
   N none 196 6 6 0 0 1 0,
   D,
   D,
   D,
   D,
   D,
   D,
   D,
   D,
   D,
   D,
   D,
   D,
   D,
   D,
   D,
   N none 197 4 4 2 0 1 0,
   D,
   D,
   D,
   D,
   D,
   D,
   D,
   D,
   D,
   D,
   D,
   D,
   D,
   D,
   D,
   N none 198 6 4 2 0 1 0,
   D,
   D,
   D,
   D,
   D,
   D,
   D,
   D,
   D,
   D,
   D,
   D,
   D,
   D,
   D]

/-- Heap literal after feeding the first 11 of the `c6colors`. -/
def c6fed11 : OctreeMap := mkMapC6
  [N (some [1,2,3,4,5,6,7,8,9,10,11,12,13,14,15,16]) 0 0 0 0 0 0 (-1),
   N (some [17,18,19,20,21,22,23,24,25,26,27,28,29,30,31,32]) 0 0 0 0 0 0 (-1),
   D,
   D,
   D,
   D,
   D,
   D,
   D,
   D,
   D,
   D,
   D,
   D,
   D,
   D,
   D,
   N (some [33,34,35,36,37,38,39,40,41,42,43,44,45,46,47,48]) 1 0 0 0 0 0 (-1),
   D,
   D,
   D,
   D,
   D,
   D,
   D,
   D,
   D,
   D,
   D,
   D,
   D,
   D,
   D,
   N (some [49,50,51,52,53,54,55,56,57,58,59,60,61,62,63,64]) 17 0 0 0 0 0 (-1),
   D,
   D,
   D,
   D,
   D,
   D,
   D,
   D,
   D,
   D,
   D,
   D,
   D,
   D,
   D,
   N (some [65,66,67,68,69,70,71,72,73,74,75,76,77,78,79,80]) 33 0 0 0 0 0 (-1),
   D,
   D,
   D,
   D,
   D,
   D,
   D,
   D,
   D,
   D,
   D,
   D,
   D,
   D,
   D,
   N (some [81,82,83,84,85,86,87,88,89,90,91,92,93,94,95,96]) 49 0 0 0 0 0 (-1),
   D,
   D,
   D,
   D,
   D,
   D,
   D,
   D,
   D,
   D,
   D,
   D,
   D,
   D,
   D,
   N (some [97,98,99,100,101,102,103,104,105,106,107,108,109,110,111,112]) 65 0 0 0 0 0 (-1),
   N (some [129,130,131,132,133,134,135,136,137,138,139,140,141,142,143,144]) 65 0 0 0 0 0 (-1),
   N (some [161,162,163,164,165,166,167,168,169,170,171,172,173,174,175,176]) 65 0 0 0 0 0 (-1),
   N (some [193,194,195,196,197,198,199,200,201,202,203,204,205,206,207,208]) 65 0 0 0 0 0 (-1),
   D,
   D,
   D,
   D,
   D,
   D,
   D,
   D,
   D,
   D,
   D,
   D,
   N (some [113,114,115,116,117,118,119,120,121,122,123,124,125,126,127,128]) 81 0 0 0 0 0 (-1),
   D,
   D,
   D,
   D,
   D,
   D,
   D,
   D,
   D,
   D,
   D,
   D,
   D,
   D,
   D,
   N none 97 0 0 0 0 1 0,
   N none 97 1 0 0 0 1 0,
   D,
   D,
   D,
   D,
   D,
   D,
   D,
   D,
   D,
   D,
   D,
   D,
   D,
   D,
   N (some [145,146,147,148,149,150,151,152,153,154,155,156,157,158,159,160]) 82 0 0 0 0 0 (-1),
   D,
   D,
   D,
   D,
   D,
   D,
   D,
   D,
   D,
   D,
   D,
   D,
   D,
   D,
   D,
   N none 129 4 0 0 0 1 0,
   D,
   D,
   D,
   D,
   D,
   D,
   D,
   D,
   D,
   D,
   D,
   D,
   D,
   D,
   D,
   N (some [177,178,179,180,181,182,183,184,185,186,187,188,189,190,191,192]) 83 0 0 0 0 0 (-1),
   D,
   D,
   D,
   D,
   D,
   D,
   D,
   D,
   D,
   D,
   D,
   D,
   D,
   D,
   D,
   N none 161 0 4 0 0 1 0,
   D,
   D,
   D,
   D,
   D,
   D,
   D,
   D,
   D,
   D,
   D,
   D,
   D,
   D,
   D,
   N (some [209,210,211,212,213,214,215,216,217,218,219,220,221,222,223,224]) 84 0 0 0 0 0 (-1),
   N (some [225,226,227,228,229,230,231,232,233,234,235,236,237,238,239,240]) 84 0 0 0 0 0 (-1),
   N (some [241,242,243,244,245,246,247,248,249,250,251,252,253,254,255,256]) 84 0 0 0 0 0 (-1),
   N (some [257,258,259,260,261,262,263,264,265,266,267,268,269,270,271,272]) 84 0 0 0 0 0 (-1),
   N (some [273,274,275,276,277,278,279,280,281,282,283,284,285,286,287,288]) 84 0 0 0 0 0 (-1),
   N (some [289,290,291,292,293,294,295,296,297,298,299,300,301,302,303,304]) 84 0 0 0 0 0 (-1),
   N (some [305,306,307,308,309,310,311,312,313,314,315,316,317,318,319,320]) 84 0 0 0 0 0 (-1),
   D,
   D,
   D,
   D,
   D,
   D,
   D,
   D,
   D,
   N none 193 4 4 0 0 1 0,
   D,
   D,
   D,
   D,
   D,
   D,
   D,
   D,
   D,
   D,
   D,
   D,
   D,
   D,
   D,
   N none 194 6 4 0 0 1 0,
   D,
   D,
   D,
   D,
   D,
   D,
   D,
   D,
   D,
   D,
   D,
   D,
   D,
   D,
   D,
   N none 195 4 6 0 0 1 0,
   D,
   D,
   D,
   D,
   D,
   D,
   D,
   D,
   D,
   D,
   D,
   D,
   D,
   D,
   D,
   N none 196 6 6 0 0 1 0,
   D,
   D,
   D,
   D,
   D,
   D,
   D,
   D,
   D,
   D,
   D,
   D,
   D,
   D,
   D,
   N none 197 4 4 2 0 1 0,
   D,
   D,
   D,
   D,
   D,
   D,
   D,
   D,
   D,
   D,
   D,
   D,
   D,
   D,
   D,
   N none 198 6 4 2 0 1 0,
   D,
   D,
   D,
   D,
   D,
   D,
   D,
   D,
   D,
   D,
   D,
   D,
   D,
   D,
   D,
   N none 199 4 6 2 0 1 0,
   D,
   D,
   D,
   D,
   D,
   D,
   D,
   D,
   D,
   D,
   D,
   D,
   D,
   D,
   D]

/-- Heap literal after feeding the first 12 of the `c6colors`. -/
def c6fed12 : OctreeMap := mkMapC6
  [N (some [1,2,3,4,5,6,7,8,9,10,11,12,13,14,15,16]) 0 0 0 0 0 0 (-1),
   N (some [17,18,19,20,21,22,23,24,25,26,27,28,29,30,31,32]) 0 0 0 0 0 0 (-1),
   D,
   D,
   D,
   D,
   D,
   D,
   D,
   D,
   D,
   D,
   D,
   D,
   D,
   D,
   D,
   N (some [33,34,35,36,37,38,39,40,41,42,43,44,45,46,47,48]) 1 0 0 0 0 0 (-1),
   D,
   D,
   D,
   D,
   D,
   D,
   D,
   D,
   D,
   D,
   D,
   D,
   D,
   D,
   D,
   N (some [49,50,51,52,53,54,55,56,57,58,59,60,61,62,63,64]) 17 0 0 0 0 0 (-1),
   D,
   D,
   D,
   D,
   D,
   D,
   D,
   D,
   D,
   D,
   D,
   D,
   D,
   D,
   D,
   N (some [65,66,67,68,69,70,71,72,73,74,75,76,77,78,79,80]) 33 0 0 0 0 0 (-1),
   D,
   D,
   D,
   D,
   D,
   D,
   D,
   D,
   D,
   D,
   D,
   D,
   D,
   D,
   D,
   N (some [81,82,83,84,85,86,87,88,89,90,91,92,93,94,95,96]) 49 0 0 0 0 0 (-1),
   D,
   D,
   D,
   D,
   D,
   D,
   D,
   D,
   D,
   D,
   D,
   D,
   D,
   D,
   D,
   N (some [97,98,99,100,101,102,103,104,105,106,107,108,109,110,111,112]) 65 0 0 0 0 0 (-1),
   N (some [129,130,131,132,133,134,135,136,137,138,139,140,141,142,143,144]) 65 0 0 0 0 0 (-1),
   N (some [161,162,163,164,165,166,167,168,169,170,171,172,173,174,175,176]) 65 0 0 0 0 0 (-1),
   N (some [193,194,195,196,197,198,199,200,201,202,203,204,205,206,207,208]) 65 0 0 0 0 0 (-1),
   D,
   D,
   D,
   D,
   D,
   D,
   D,
   D,
   D,
   D,
   D,
   D,
   N (some [113,114,115,116,117,118,119,120,121,122,123,124,125,126,127,128]) 81 0 0 0 0 0 (-1),
   D,
   D,
   D,
   D,
   D,
   D,
   D,
   D,
   D,
   D,
   D,
   D,
   D,
   D,
   D,
   N none 97 0 0 0 0 1 0,
   N none 97 1 0 0 0 1 0,
   D,
   D,
   D,
   D,
   D,
   D,
   D,
   D,
   D,
   D,
   D,
   D,
   D,
   D,
   N (some [145,146,147,148,149,150,151,152,153,154,155,156,157,158,159,160]) 82 0 0 0 0 0 (-1),
   D,
   D,
   D,
   D,
   D,
   D,
   D,
   D,
   D,
   D,
   D,
   D,
   D,
   D,
   D,
   N none 129 4 0 0 0 1 0,
   D,
   D,
   D,
   D,
   D,
   D,
   D,
   D,
   D,
   D,
   D,
   D,
   D,
   D,
   D,
   N (some [177,178,179,180,181,182,183,184,185,186,187,188,189,190,191,192]) 83 0 0 0 0 0 (-1),
   D,
   D,
   D,
   D,
   D,
   D,
   D,
   D,
   D,
   D,
   D,
   D,
   D,
   D,
   D,
   N none 161 0 4 0 0 1 0,
   D,
   D,
   D,
   D,
   D,
   D,
   D,
   D,
   D,
   D,
   D,
   D,
   D,
   D,
   D,
   N (some [209,210,211,212,213,214,215,216,217,218,219,220,221,222,223,224]) 84 0 0 0 0 0 (-1),
   N (some [225,226,227,228,229,230,231,232,233,234,235,236,237,238,239,240]) 84 0 0 0 0 0 (-1),
   N (some [241,242,243,244,245,246,247,248,249,250,251,252,253,254,255,256]) 84 0 0 0 0 0 (-1),
   N (some [257,258,259,260,261,262,263,264,265,266,267,268,269,270,271,272]) 84 0 0 0 0 0 (-1),
   N (some [273,274,275,276,277,278,279,280,281,282,283,284,285,286,287,288]) 84 0 0 0 0 0 (-1),
   N (some [289,290,291,292,293,294,295,296,297,298,299,300,301,302,303,304]) 84 0 0 0 0 0 (-1),
   N (some [305,306,307,308,309,310,311,312,313,314,315,316,317,318,319,320]) 84 0 0 0 0 0 (-1),
   N (some [321,322,323,324,325,326,327,328,329,330,331,332,333,334,335,336]) 84 0 0 0 0 0 (-1),
   D,
   D,
   D,
   D,
   D,
   D,
   D,
   D,
   N none 193 4 4 0 0 1 0,
   D,
   D,
   D,
   D,
   D,
   D,
   D,
   D,
   D,
   D,
   D,
   D,
   D,
   D,
   D,
   N none 194 6 4 0 0 1 0,
   D,
   D,
   D,
   D,
   D,
   D,
   D,
   D,
   D,
   D,
   D,
   D,
   D,
   D,
   D,
   N none 195 4 6 0 0 1 0,
   D,
   D,
   D,
   D,
   D,
   D,
   D,
   D,
   D,
   D,
   D,
   D,
   D,
   D,
   D,
   N none 196 6 6 0 0 1 0,
   D,
   D,
   D,
   D,
   D,
   D,
   D,
   D,
   D,
   D,
   D,
   D,
   D,
   D,
   D,
   N none 197 4 4 2 0 1 0,
   D,
   D,
   D,
   D,
   D,
   D,
   D,
   D,
   D,
   D,
   D,
   D,
   D,
   D,
   D,
   N none 198 6 4 2 0 1 0,
   D,
   D,
   D,
   D,
   D,
   D,
   D,
   D,
   D,
   D,
   D,
   D,
   D,
   D,
   D,
   N none 199 4 6 2 0 1 0,
   D,
   D,
   D,
   D,
   D,
   D,
   D,
   D,
   D,
   D,
   D,
   D,
   D,
   D,
   D,
   N none 200 6 6 2 0 1 0,
   D,
   D,
   D,
   D,
   D,
   D,
   D,
   D,
   D,
   D,
   D,
   D,
   D,
   D,
   D]

/-- Heap literal after feeding the first 13 of the `c6colors`. -/
def c6fed13 : OctreeMap := mkMapC6
  [N (some [1,2,3,4,5,6,7,8,9,10,11,12,13,14,15,16]) 0 0 0 0 0 0 (-1),
   N (some [17,18,19,20,21,22,23,24,25,26,27,28,29,30,31,32]) 0 0 0 0 0 0 (-1),
   D,
   D,
   D,
   D,
   D,
   D,
   D,
   D,
   D,
   D,
   D,
   D,
   D,
   D,
   D,
   N (some [33,34,35,36,37,38,39,40,41,42,43,44,45,46,47,48]) 1 0 0 0 0 0 (-1),
   D,
   D,
   D,
   D,
   D,
   D,
   D,
   D,
   D,
   D,
   D,
   D,
   D,
   D,
   D,
   N (some [49,50,51,52,53,54,55,56,57,58,59,60,61,62,63,64]) 17 0 0 0 0 0 (-1),
   D,
   D,
   D,
   D,
   D,
   D,
   D,
   D,
   D,
   D,
   D,
   D,
   D,
   D,
   D,
   N (some [65,66,67,68,69,70,71,72,73,74,75,76,77,78,79,80]) 33 0 0 0 0 0 (-1),
   D,
   D,
   D,
   D,
   D,
   D,
   D,
   D,
   D,
   D,
   D,
   D,
   D,
   D,
   D,
   N (some [81,82,83,84,85,86,87,88,89,90,91,92,93,94,95,96]) 49 0 0 0 0 0 (-1),
   D,
   D,
   D,
   D,
   D,
   D,
   D,
   D,
   D,
   D,
   D,
   D,
   D,
   D,
   D,
   N (some [97,98,99,100,101,102,103,104,105,106,107,108,109,110,111,112]) 65 0 0 0 0 0 (-1),
   N (some [129,130,131,132,133,134,135,136,137,138,139,140,141,142,143,144]) 65 0 0 0 0 0 (-1),
   N (some [161,162,163,164,165,166,167,168,169,170,171,172,173,174,175,176]) 65 0 0 0 0 0 (-1),
   N (some [193,194,195,196,197,198,199,200,201,202,203,204,205,206,207,208]) 65 0 0 0 0 0 (-1),
   D,
   D,
   D,
   D,
   D,
   D,
   D,
   D,
   D,
   D,
   D,
   D,
   N (some [113,114,115,116,117,118,119,120,121,122,123,124,125,126,127,128]) 81 0 0 0 0 0 (-1),
   D,
   D,
   D,
   D,
   D,
   D,
   D,
   D,
   D,
   D,
   D,
   D,
   D,
   D,
   D,
   N none 97 0 0 0 0 1 0,
   N none 97 1 0 0 0 1 0,
   D,
   D,
   D,
   D,
   D,
   D,
   D,
   D,
   D,
   D,
   D,
   D,
   D,
   D,
   N (some [145,146,147,148,149,150,151,152,153,154,155,156,157,158,159,160]) 82 0 0 0 0 0 (-1),
   D,
   D,
   D,
   D,
   D,
   D,
   D,
   D,
   D,
   D,
   D,
   D,
   D,
   D,
   D,
   N none 129 4 0 0 0 1 0,
   D,
   D,
   D,
   D,
   D,
   D,
   D,
   D,
   D,
   D,
   D,
   D,
   D,
   D,
   D,
   N (some [177,178,179,180,181,182,183,184,185,186,187,188,189,190,191,192]) 83 0 0 0 0 0 (-1),
   D,
   D,
   D,
   D,
   D,
   D,
   D,
   D,
   D,
   D,
   D,
   D,
   D,
   D,
   D,
   N none 161 0 4 0 0 1 0,
   D,
   D,
   D,
   D,
   D,
   D,
   D,
   D,
   D,
   D,
   D,
   D,
   D,
   D,
   D,
   N (some [209,210,211,212,213,214,215,216,217,218,219,220,221,222,223,224]) 84 0 0 0 0 0 (-1),
   N (some [225,226,227,228,229,230,231,232,233,234,235,236,237,238,239,240]) 84 0 0 0 0 0 (-1),
   N (some [241,242,243,244,245,246,247,248,249,250,251,252,253,254,255,256]) 84 0 0 0 0 0 (-1),
   N (some [257,258,259,260,261,262,263,264,265,266,267,268,269,270,271,272]) 84 0 0 0 0 0 (-1),
   N (some [273,274,275,276,277,278,279,280,281,282,283,284,285,286,287,288]) 84 0 0 0 0 0 (-1),
   N (some [289,290,291,292,293,294,295,296,297,298,299,300,301,302,303,304]) 84 0 0 0 0 0 (-1),
   N (some [305,306,307,308,309,310,311,312,313,314,315,316,317,318,319,320]) 84 0 0 0 0 0 (-1),
   N (some [321,322,323,324,325,326,327,328,329,330,331,332,333,334,335,336]) 84 0 0 0 0 0 (-1),
   N (some [337,338,339,340,341,342,343,344,345,346,347,348,349,350,351,352]) 84 0 0 0 0 0 (-1),
   D,
   D,
   D,
   D,
   D,
   D,
   D,
   N none 193 4 4 0 0 1 0,
   D,
   D,
   D,
   D,
   D,
   D,
   D,
   D,
   D,
   D,
   D,
   D,
   D,
   D,
   D,
   N none 194 6 4 0 0 1 0,
   D,
   D,
   D,
   D,
   D,
   D,
   D,
   D,
   D,
   D,
   D,
   D,
   D,
   D,
   D,
   N none 195 4 6 0 0 1 0,
   D,
   D,
   D,
   D,
   D,
   D,
   D,
   D,
   D,
   D,
   D,
   D,
   D,
   D,
   D,
   N none 196 6 6 0 0 1 0,
   D,
   D,
   D,
   D,
   D,
   D,
   D,
   D,
   D,
   D,
   D,
   D,
   D,
   D,
   D,
   N none 197 4 4 2 0 1 0,
   D,
   D,
   D,
   D,
   D,
   D,
   D,
   D,
   D,
   D,
   D,
   D,
   D,
   D,
   D,
   N none 198 6 4 2 0 1 0,
   D,
   D,
   D,
   D,
   D,
   D,
   D,
   D,
   D,
   D,
   D,
   D,
   D,
   D,
   D,
   N none 199 4 6 2 0 1 0,
   D,
   D,
   D,
   D,
   D,
   D,
   D,
   D,
   D,
   D,
   D,
   D,
   D,
   D,
   D,
   N none 200 6 6 2 0 1 0,
   D,
   D,
   D,
   D,
   D,
   D,
   D,
   D,
   D,
   D,
   D,
   D,
   D,
   D,
   D,
   N none 201 4 4 0 2 1 0,
   D,
   D,
   D,
   D,
   D,
   D,
   D,
   D,
   D,
   D,
   D,
   D,
   D,
   D,
   D]

/-- Heap literal after feeding the first 14 of the `c6colors`. -/
def c6fed14 : OctreeMap := mkMapC6
  [N (some [1,2,3,4,5,6,7,8,9,10,11,12,13,14,15,16]) 0 0 0 0 0 0 (-1),
   N (some [17,18,19,20,21,22,23,24,25,26,27,28,29,30,31,32]) 0 0 0 0 0 0 (-1),
   D,
   D,
   D,
   D,
   D,
   D,
   D,
   D,
   D,
   D,
   D,
   D,
   D,
   D,
   D,
   N (some [33,34,35,36,37,38,39,40,41,42,43,44,45,46,47,48]) 1 0 0 0 0 0 (-1),
   D,
   D,
   D,
   D,
   D,
   D,
   D,
   D,
   D,
   D,
   D,
   D,
   D,
   D,
   D,
   N (some [49,50,51,52,53,54,55,56,57,58,59,60,61,62,63,64]) 17 0 0 0 0 0 (-1),
   D,
   D,
   D,
   D,
   D,
   D,
   D,
   D,
   D,
   D,
   D,
   D,
   D,
   D,
   D,
   N (some [65,66,67,68,69,70,71,72,73,74,75,76,77,78,79,80]) 33 0 0 0 0 0 (-1),
   D,
   D,
   D,
   D,
   D,
   D,
   D,
   D,
   D,
   D,
   D,
   D,
   D,
   D,
   D,
   N (some [81,82,83,84,85,86,87,88,89,90,91,92,93,94,95,96]) 49 0 0 0 0 0 (-1),
   D,
   D,
   D,
   D,
   D,
   D,
   D,
   D,
   D,
   D,
   D,
   D,
   D,
   D,
   D,
   N (some [97,98,99,100,101,102,103,104,105,106,107,108,109,110,111,112]) 65 0 0 0 0 0 (-1),
   N (some [129,130,131,132,133,134,135,136,137,138,139,140,141,142,143,144]) 65 0 0 0 0 0 (-1),
   N (some [161,162,163,164,165,166,167,168,169,170,171,172,173,174,175,176]) 65 0 0 0 0 0 (-1),
   N (some [193,194,195,196,197,198,199,200,201,202,203,204,205,206,207,208]) 65 0 0 0 0 0 (-1),
   D,
   D,
   D,
   D,
   D,
   D,
   D,
   D,
   D,
   D,
   D,
   D,
   N (some [113,114,115,116,117,118,119,120,121,122,123,124,125,126,127,128]) 81 0 0 0 0 0 (-1),
   D,
   D,
   D,
   D,
   D,
   D,
   D,
   D,
   D,
   D,
   D,
   D,
   D,
   D,
   D,
   N none 97 0 0 0 0 1 0,
   N none 97 1 0 0 0 1 0,
   D,
   D,
   D,
   D,
   D,
   D,
   D,
   D,
   D,
   D,
   D,
   D,
   D,
   D,
   N (some [145,146,147,148,149,150,151,152,153,154,155,156,157,158,159,160]) 82 0 0 0 0 0 (-1),
   D,
   D,
   D,
   D,
   D,
   D,
   D,
   D,
   D,
   D,
   D,
   D,
   D,
   D,
   D,
   N none 129 4 0 0 0 1 0,
   D,
   D,
   D,
   D,
   D,
   D,
   D,
   D,
   D,
   D,
   D,
   D,
   D,
   D,
   D,
   N (some [177,178,179,180,181,182,183,184,185,186,187,188,189,190,191,192]) 83 0 0 0 0 0 (-1),
   D,
   D,
   D,
   D,
   D,
   D,
   D,
   D,
   D,
   D,
   D,
   D,
   D,
   D,
   D,
   N none 161 0 4 0 0 1 0,
   D,
   D,
   D,
   D,
   D,
   D,
   D,
   D,
   D,
   D,
   D,
   D,
   D,
   D,
   D,
   N (some [209,210,211,212,213,214,215,216,217,218,219,220,221,222,223,224]) 84 0 0 0 0 0 (-1),
   N (some [225,226,227,228,229,230,231,232,233,234,235,236,237,238,239,240]) 84 0 0 0 0 0 (-1),
   N (some [241,242,243,244,245,246,247,248,249,250,251,252,253,254,255,256]) 84 0 0 0 0 0 (-1),
   N (some [257,258,259,260,261,262,263,264,265,266,267,268,269,270,271,272]) 84 0 0 0 0 0 (-1),
   N (some [273,274,275,276,277,278,279,280,281,282,283,284,285,286,287,288]) 84 0 0 0 0 0 (-1),
   N (some [289,290,291,292,293,294,295,296,297,298,299,300,301,302,303,304]) 84 0 0 0 0 0 (-1),
   N (some [305,306,307,308,309,310,311,312,313,314,315,316,317,318,319,320]) 84 0 0 0 0 0 (-1),
   N (some [321,322,323,324,325,326,327,328,329,330,331,332,333,334,335,336]) 84 0 0 0 0 0 (-1),
   N (some [337,338,339,340,341,342,343,344,345,346,347,348,349,350,351,352]) 84 0 0 0 0 0 (-1),
   N (some [353,354,355,356,357,358,359,360,361,362,363,364,365,366,367,368]) 84 0 0 0 0 0 (-1),
   D,
   D,
   D,
   D,
   D,
   D,
   N none 193 4 4 0 0 1 0,
   D,
   D,
   D,
   D,
   D,
   D,
   D,
   D,
   D,
   D,
   D,
   D,
   D,
   D,
   D,
   N none 194 6 4 0 0 1 0,
   D,
   D,
   D,
   D,
   D,
   D,
   D,
   D,
   D,
   D,
   D,
   D,
   D,
   D,
   D,
   N none 195 4 6 0 0 1 0,
   D,
   D,
   D,
   D,
   D,
   D,
   D,
   D,
   D,
   D,
   D,
   D,
   D,
   D,
   D,
   N none 196 6 6 0 0 1 0,
   D,
   D,
   D,
   D,
   D,
   D,
   D,
   D,
   D,
   D,
   D,
   D,
   D,
   D,
   D,
   N none 197 4 4 2 0 1 0,
   D,
   D,
   D,
   D,
   D,
   D,
   D,
   D,
   D,
   D,
   D,
   D,
   D,
   D,
   D,
   N none 198 6 4 2 0 1 0,
   D,
   D,
   D,
   D,
   D,
   D,
   D,
   D,
   D,
   D,
   D,
   D,
   D,
   D,
   D,
   N none 199 4 6 2 0 1 0,
   D,
   D,
   D,
   D,
   D,
   D,
   D,
   D,
   D,
   D,
   D,
   D,
   D,
   D,
   D,
   N none 200 6 6 2 0 1 0,
   D,
   D,
   D,
   D,
   D,
   D,
   D,
   D,
   D,
   D,
   D,
   D,
   D,
   D,
   D,
   N none 201 4 4 0 2 1 0,
   D,
   D,
   D,
   D,
   D,
   D,
   D,
   D,
   D,
   D,
   D,
   D,
   D,
   D,
   D,
   N none 202 6 4 0 2 1 0,
   D,
   D,
   D,
   D,
   D,
   D,
   D,
   D,
   D,
   D,
   D,
   D,
   D,
   D,
   D]

/-- Heap literal after feeding the first 15 of the `c6colors`. -/
def c6fed15 : OctreeMap := mkMapC6
  [N (some [1,2,3,4,5,6,7,8,9,10,11,12,13,14,15,16]) 0 0 0 0 0 0 (-1),
   N (some [17,18,19,20,21,22,23,24,25,26,27,28,29,30,31,32]) 0 0 0 0 0 0 (-1),
   D,
   D,
   D,
   D,
   D,
   D,
   D,
   D,
   D,
   D,
   D,
   D,
   D,
   D,
   D,
   N (some [33,34,35,36,37,38,39,40,41,42,43,44,45,46,47,48]) 1 0 0 0 0 0 (-1),
   D,
   D,
   D,
   D,
   D,
   D,
   D,
   D,
   D,
   D,
   D,
   D,
   D,
   D,
   D,
   N (some [49,50,51,52,53,54,55,56,57,58,59,60,61,62,63,64]) 17 0 0 0 0 0 (-1),
   D,
   D,
   D,
   D,
   D,
   D,
   D,
   D,
   D,
   D,
   D,
   D,
   D,
   D,
   D,
   N (some [65,66,67,68,69,70,71,72,73,74,75,76,77,78,79,80]) 33 0 0 0 0 0 (-1),
   D,
   D,
   D,
   D,
   D,
   D,
   D,
   D,
   D,
   D,
   D,
   D,
   D,
   D,
   D,
   N (some [81,82,83,84,85,86,87,88,89,90,91,92,93,94,95,96]) 49 0 0 0 0 0 (-1),
   D,
   D,
   D,
   D,
   D,
   D,
   D,
   D,
   D,
   D,
   D,
   D,
   D,
   D,
   D,
   N (some [97,98,99,100,101,102,103,104,105,106,107,108,109,110,111,112]) 65 0 0 0 0 0 (-1),
   N (some [129,130,131,132,133,134,135,136,137,138,139,140,141,142,143,144]) 65 0 0 0 0 0 (-1),
   N (some [161,162,163,164,165,166,167,168,169,170,171,172,173,174,175,176]) 65 0 0 0 0 0 (-1),
   N (some [193,194,195,196,197,198,199,200,201,202,203,204,205,206,207,208]) 65 0 0 0 0 0 (-1),
   D,
   D,
   D,
   D,
   D,
   D,
   D,
   D,
   D,
   D,
   D,
   D,
   N (some [113,114,115,116,117,118,119,120,121,122,123,124,125,126,127,128]) 81 0 0 0 0 0 (-1),
   D,
   D,
   D,
   D,
   D,
   D,
   D,
   D,
   D,
   D,
   D,
   D,
   D,
   D,
   D,
   N none 97 0 0 0 0 1 0,
   N none 97 1 0 0 0 1 0,
   D,
   D,
   D,
   D,
   D,
   D,
   D,
   D,
   D,
   D,
   D,
   D,
   D,
   D,
   N (some [145,146,147,148,149,150,151,152,153,154,155,156,157,158,159,160]) 82 0 0 0 0 0 (-1),
   D,
   D,
   D,
   D,
   D,
   D,
   D,
   D,
   D,
   D,
   D,
   D,
   D,
   D,
   D,
   N none 129 4 0 0 0 1 0,
   D,
   D,
   D,
   D,
   D,
   D,
   D,
   D,
   D,
   D,
   D,
   D,
   D,
   D,
   D,
   N (some [177,178,179,180,181,182,183,184,185,186,187,188,189,190,191,192]) 83 0 0 0 0 0 (-1),
   D,
   D,
   D,
   D,
   D,
   D,
   D,
   D,
   D,
   D,
   D,
   D,
   D,
   D,
   D,
   N none 161 0 4 0 0 1 0,
   D,
   D,
   D,
   D,
   D,
   D,
   D,
   D,
   D,
   D,
   D,
   D,
   D,
   D,
   D,
   N (some [209,210,211,212,213,214,215,216,217,218,219,220,221,222,223,224]) 84 0 0 0 0 0 (-1),
   N (some [225,226,227,228,229,230,231,232,233,234,235,236,237,238,239,240]) 84 0 0 0 0 0 (-1),
   N (some [241,242,243,244,245,246,247,248,249,250,251,252,253,254,255,256]) 84 0 0 0 0 0 (-1),
   N (some [257,258,259,260,261,262,263,264,265,266,267,268,269,270,271,272]) 84 0 0 0 0 0 (-1),
   N (some [273,274,275,276,277,278,279,280,281,282,283,284,285,286,287,288]) 84 0 0 0 0 0 (-1),
   N (some [289,290,291,292,293,294,295,296,297,298,299,300,301,302,303,304]) 84 0 0 0 0 0 (-1),
   N (some [305,306,307,308,309,310,311,312,313,314,315,316,317,318,319,320]) 84 0 0 0 0 0 (-1),
   N (some [321,322,323,324,325,326,327,328,329,330,331,332,333,334,335,336]) 84 0 0 0 0 0 (-1),
   N (some [337,338,339,340,341,342,343,344,345,346,347,348,349,350,351,352]) 84 0 0 0 0 0 (-1),
   N (some [353,354,355,356,357,358,359,360,361,362,363,364,365,366,367,368]) 84 0 0 0 0 0 (-1),
   N (some [369,370,371,372,373,374,375,376,377,378,379,380,381,382,383,384]) 84 0 0 0 0 0 (-1),
   D,
   D,
   D,
   D,
   D,
   N none 193 4 4 0 0 1 0,
   D,
   D,
   D,
   D,
   D,
   D,
   D,
   D,
   D,
   D,
   D,
   D,
   D,
   D,
   D,
   N none 194 6 4 0 0 1 0,
   D,
   D,
   D,
   D,
   D,
   D,
   D,
   D,
   D,
   D,
   D,
   D,
   D,
   D,
   D,
   N none 195 4 6 0 0 1 0,
   D,
   D,
   D,
   D,
   D,
   D,
   D,
   D,
   D,
   D,
   D,
   D,
   D,
   D,
   D,
   N none 196 6 6 0 0 1 0,
   D,
   D,
   D,
   D,
   D,
   D,
   D,
   D,
   D,
   D,
   D,
   D,
   D,
   D,
   D,
   N none 197 4 4 2 0 1 0,
   D,
   D,
   D,
   D,
   D,
   D,
   D,
   D,
   D,
   D,
   D,
   D,
   D,
   D,
   D,
   N none 198 6 4 2 0 1 0,
   D,
   D,
   D,
   D,
   D,
   D,
   D,
   D,
   D,
   D,
   D,
   D,
   D,
   D,
   D,
   N none 199 4 6 2 0 1 0,
   D,
   D,
   D,
   D,
   D,
   D,
   D,
   D,
   D,
   D,
   D,
   D,
   D,
   D,
   D,
   N none 200 6 6 2 0 1 0,
   D,
   D,
   D,
   D,
   D,
   D,
   D,
   D,
   D,
   D,
   D,
   D,
   D,
   D,
   D,
   N none 201 4 4 0 2 1 0,
   D,
   D,
   D,
   D,
   D,
   D,
   D,
   D,
   D,
   D,
   D,
   D,
   D,
   D,
   D,
   N none 202 6 4 0 2 1 0,
   D,
   D,
   D,
   D,
   D,
   D,
   D,
   D,
   D,
   D,
   D,
   D,
   D,
   D,
   D,
   N none 203 4 6 0 2 1 0,
   D,
   D,
   D,
   D,
   D,
   D,
   D,
   D,
   D,
   D,
   D,
   D,
   D,
   D,
   D]

/-- Heap literal after feeding the first 16 of the `c6colors`. -/
def c6fed16 : OctreeMap := mkMapC6
  [N (some [1,2,3,4,5,6,7,8,9,10,11,12,13,14,15,16]) 0 0 0 0 0 0 (-1),
   N (some [17,18,19,20,21,22,23,24,25,26,27,28,29,30,31,32]) 0 0 0 0 0 0 (-1),
   D,
   D,
   D,
   D,
   D,
   D,
   D,
   D,
   D,
   D,
   D,
   D,
   D,
   D,
   D,
   N (some [33,34,35,36,37,38,39,40,41,42,43,44,45,46,47,48]) 1 0 0 0 0 0 (-1),
   D,
   D,
   D,
   D,
   D,
   D,
   D,
   D,
   D,
   D,
   D,
   D,
   D,
   D,
   D,
   N (some [49,50,51,52,53,54,55,56,57,58,59,60,61,62,63,64]) 17 0 0 0 0 0 (-1),
   D,
   D,
   D,
   D,
   D,
   D,
   D,
   D,
   D,
   D,
   D,
   D,
   D,
   D,
   D,
   N (some [65,66,67,68,69,70,71,72,73,74,75,76,77,78,79,80]) 33 0 0 0 0 0 (-1),
   D,
   D,
   D,
   D,
   D,
   D,
   D,
   D,
   D,
   D,
   D,
   D,
   D,
   D,
   D,
   N (some [81,82,83,84,85,86,87,88,89,90,91,92,93,94,95,96]) 49 0 0 0 0 0 (-1),
   D,
   D,
   D,
   D,
   D,
   D,
   D,
   D,
   D,
   D,
   D,
   D,
   D,
   D,
   D,
   N (some [97,98,99,100,101,102,103,104,105,106,107,108,109,110,111,112]) 65 0 0 0 0 0 (-1),
   N (some [129,130,131,132,133,134,135,136,137,138,139,140,141,142,143,144]) 65 0 0 0 0 0 (-1),
   N (some [161,162,163,164,165,166,167,168,169,170,171,172,173,174,175,176]) 65 0 0 0 0 0 (-1),
   N (some [193,194,195,196,197,198,199,200,201,202,203,204,205,206,207,208]) 65 0 0 0 0 0 (-1),
   D,
   D,
   D,
   D,
   D,
   D,
   D,
   D,
   D,
   D,
   D,
   D,
   N (some [113,114,115,116,117,118,119,120,121,122,123,124,125,126,127,128]) 81 0 0 0 0 0 (-1),
   D,
   D,
   D,
   D,
   D,
   D,
   D,
   D,
   D,
   D,
   D,
   D,
   D,
   D,
   D,
   N none 97 0 0 0 0 1 0,
   N none 97 1 0 0 0 1 0,
   D,
   D,
   D,
   D,
   D,
   D,
   D,
   D,
   D,
   D,
   D,
   D,
   D,
   D,
   N (some [145,146,147,148,149,150,151,152,153,154,155,156,157,158,159,160]) 82 0 0 0 0 0 (-1),
   D,
   D,
   D,
   D,
   D,
   D,
   D,
   D,
   D,
   D,
   D,
   D,
   D,
   D,
   D,
   N none 129 4 0 0 0 1 0,
   D,
   D,
   D,
   D,
   D,
   D,
   D,
   D,
   D,
   D,
   D,
   D,
   D,
   D,
   D,
   N (some [177,178,179,180,181,182,183,184,185,186,187,188,189,190,191,192]) 83 0 0 0 0 0 (-1),
   D,
   D,
   D,
   D,
   D,
   D,
   D,
   D,
   D,
   D,
   D,
   D,
   D,
   D,
   D,
   N none 161 0 4 0 0 1 0,
   D,
   D,
   D,
   D,
   D,
   D,
   D,
   D,
   D,
   D,
   D,
   D,
   D,
   D,
   D,
   N (some [209,210,211,212,213,214,215,216,217,218,219,220,221,222,223,224]) 84 0 0 0 0 0 (-1),
   N (some [225,226,227,228,229,230,231,232,233,234,235,236,237,238,239,240]) 84 0 0 0 0 0 (-1),
   N (some [241,242,243,244,245,246,247,248,249,250,251,252,253,254,255,256]) 84 0 0 0 0 0 (-1),
   N (some [257,258,259,260,261,262,263,264,265,266,267,268,269,270,271,272]) 84 0 0 0 0 0 (-1),
   N (some [273,274,275,276,277,278,279,280,281,282,283,284,285,286,287,288]) 84 0 0 0 0 0 (-1),
   N (some [289,290,291,292,293,294,295,296,297,298,299,300,301,302,303,304]) 84 0 0 0 0 0 (-1),
   N (some [305,306,307,308,309,310,311,312,313,314,315,316,317,318,319,320]) 84 0 0 0 0 0 (-1),
   N (some [321,322,323,324,325,326,327,328,329,330,331,332,333,334,335,336]) 84 0 0 0 0 0 (-1),
   N (some [337,338,339,340,341,342,343,344,345,346,347,348,349,350,351,352]) 84 0 0 0 0 0 (-1),
   N (some [353,354,355,356,357,358,359,360,361,362,363,364,365,366,367,368]) 84 0 0 0 0 0 (-1),
   N (some [369,370,371,372,373,374,375,376,377,378,379,380,381,382,383,384]) 84 0 0 0 0 0 (-1),
   N (some [385,386,387,388,389,390,391,392,393,394,395,396,397,398,399,400]) 84 0 0 0 0 0 (-1),
   D,
   D,
   D,
   D,
   N none 193 4 4 0 0 1 0,
   D,
   D,
   D,
   D,
   D,
   D,
   D,
   D,
   D,
   D,
   D,
   D,
   D,
   D,
   D,
   N none 194 6 4 0 0 1 0,
   D,
   D,
   D,
   D,
   D,
   D,
   D,
   D,
   D,
   D,
   D,
   D,
   D,
   D,
   D,
   N none 195 4 6 0 0 1 0,
   D,
   D,
   D,
   D,
   D,
   D,
   D,
   D,
   D,
   D,
   D,
   D,
   D,
   D,
   D,
   N none 196 6 6 0 0 1 0,
   D,
   D,
   D,
   D,
   D,
   D,
   D,
   D,
   D,
   D,
   D,
   D,
   D,
   D,
   D,
   N none 197 4 4 2 0 1 0,
   D,
   D,
   D,
   D,
   D,
   D,
   D,
   D,
   D,
   D,
   D,
   D,
   D,
   D,
   D,
   N none 198 6 4 2 0 1 0,
   D,
   D,
   D,
   D,
   D,
   D,
   D,
   D,
   D,
   D,
   D,
   D,
   D,
   D,
   D,
   N none 199 4 6 2 0 1 0,
   D,
   D,
   D,
   D,
   D,
   D,
   D,
   D,
   D,
   D,
   D,
   D,
   D,
   D,
   D,
   N none 200 6 6 2 0 1 0,
   D,
   D,
   D,
   D,
   D,
   D,
   D,
   D,
   D,
   D,
   D,
   D,
   D,
   D,
   D,
   N none 201 4 4 0 2 1 0,
   D,
   D,
   D,
   D,
   D,
   D,
   D,
   D,
   D,
   D,
   D,
   D,
   D,
   D,
   D,
   N none 202 6 4 0 2 1 0,
   D,
   D,
   D,
   D,
   D,
   D,
   D,
   D,
   D,
   D,
   D,
   D,
   D,
   D,
   D,
   N none 203 4 6 0 2 1 0,
   D,
   D,
   D,
   D,
   D,
   D,
   D,
   D,
   D,
   D,
   D,
   D,
   D,
   D,
   D,
   N none 204 6 6 0 2 1 0,
   D,
   D,
   D,
   D,
   D,
   D,
   D,
   D,
   D,
   D,
   D,
   D,
   D,
   D,
   D]

/-- Heap literal after feeding the first 17 of the `c6colors`. -/
def c6fed17 : OctreeMap := mkMapC6
  [N (some [1,2,3,4,5,6,7,8,9,10,11,12,13,14,15,16]) 0 0 0 0 0 0 (-1),
   N (some [17,18,19,20,21,22,23,24,25,26,27,28,29,30,31,32]) 0 0 0 0 0 0 (-1),
   D,
   D,
   D,
   D,
   D,
   D,
   D,
   D,
   D,
   D,
   D,
   D,
   D,
   D,
   D,
   N (some [33,34,35,36,37,38,39,40,41,42,43,44,45,46,47,48]) 1 0 0 0 0 0 (-1),
   D,
   D,
   D,
   D,
   D,
   D,
   D,
   D,
   D,
   D,
   D,
   D,
   D,
   D,
   D,
   N (some [49,50,51,52,53,54,55,56,57,58,59,60,61,62,63,64]) 17 0 0 0 0 0 (-1),
   D,
   D,
   D,
   D,
   D,
   D,
   D,
   D,
   D,
   D,
   D,
   D,
   D,
   D,
   D,
   N (some [65,66,67,68,69,70,71,72,73,74,75,76,77,78,79,80]) 33 0 0 0 0 0 (-1),
   D,
   D,
   D,
   D,
   D,
   D,
   D,
   D,
   D,
   D,
   D,
   D,
   D,
   D,
   D,
   N (some [81,82,83,84,85,86,87,88,89,90,91,92,93,94,95,96]) 49 0 0 0 0 0 (-1),
   D,
   D,
   D,
   D,
   D,
   D,
   D,
   D,
   D,
   D,
   D,
   D,
   D,
   D,
   D,
   N (some [97,98,99,100,101,102,103,104,105,106,107,108,109,110,111,112]) 65 0 0 0 0 0 (-1),
   N (some [129,130,131,132,133,134,135,136,137,138,139,140,141,142,143,144]) 65 0 0 0 0 0 (-1),
   N (some [161,162,163,164,165,166,167,168,169,170,171,172,173,174,175,176]) 65 0 0 0 0 0 (-1),
   N (some [193,194,195,196,197,198,199,200,201,202,203,204,205,206,207,208]) 65 0 0 0 0 0 (-1),
   D,
   D,
   D,
   D,
   D,
   D,
   D,
   D,
   D,
   D,
   D,
   D,
   N (some [113,114,115,116,117,118,119,120,121,122,123,124,125,126,127,128]) 81 0 0 0 0 0 (-1),
   D,
   D,
   D,
   D,
   D,
   D,
   D,
   D,
   D,
   D,
   D,
   D,
   D,
   D,
   D,
   N none 97 0 0 0 0 1 0,
   N none 97 1 0 0 0 1 0,
   D,
   D,
   D,
   D,
   D,
   D,
   D,
   D,
   D,
   D,
   D,
   D,
   D,
   D,
   N (some [145,146,147,148,149,150,151,152,153,154,155,156,157,158,159,160]) 82 0 0 0 0 0 (-1),
   D,
   D,
   D,
   D,
   D,
   D,
   D,
   D,
   D,
   D,
   D,
   D,
   D,
   D,
   D,
   N none 129 4 0 0 0 1 0,
   D,
   D,
   D,
   D,
   D,
   D,
   D,
   D,
   D,
   D,
   D,
   D,
   D,
   D,
   D,
   N (some [177,178,179,180,181,182,183,184,185,186,187,188,189,190,191,192]) 83 0 0 0 0 0 (-1),
   D,
   D,
   D,
   D,
   D,
   D,
   D,
   D,
   D,
   D,
   D,
   D,
   D,
   D,
   D,
   N none 161 0 4 0 0 1 0,
   D,
   D,
   D,
   D,
   D,
   D,
   D,
   D,
   D,
   D,
   D,
   D,
   D,
   D,
   D,
   N (some [209,210,211,212,213,214,215,216,217,218,219,220,221,222,223,224]) 84 0 0 0 0 0 (-1),
   N (some [225,226,227,228,229,230,231,232,233,234,235,236,237,238,239,240]) 84 0 0 0 0 0 (-1),
   N (some [241,242,243,244,245,246,247,248,249,250,251,252,253,254,255,256]) 84 0 0 0 0 0 (-1),
   N (some [257,258,259,260,261,262,263,264,265,266,267,268,269,270,271,272]) 84 0 0 0 0 0 (-1),
   N (some [273,274,275,276,277,278,279,280,281,282,283,284,285,286,287,288]) 84 0 0 0 0 0 (-1),
   N (some [289,290,291,292,293,294,295,296,297,298,299,300,301,302,303,304]) 84 0 0 0 0 0 (-1),
   N (some [305,306,307,308,309,310,311,312,313,314,315,316,317,318,319,320]) 84 0 0 0 0 0 (-1),
   N (some [321,322,323,324,325,326,327,328,329,330,331,332,333,334,335,336]) 84 0 0 0 0 0 (-1),
   N (some [337,338,339,340,341,342,343,344,345,346,347,348,349,350,351,352]) 84 0 0 0 0 0 (-1),
   N (some [353,354,355,356,357,358,359,360,361,362,363,364,365,366,367,368]) 84 0 0 0 0 0 (-1),
   N (some [369,370,371,372,373,374,375,376,377,378,379,380,381,382,383,384]) 84 0 0 0 0 0 (-1),
   N (some [385,386,387,388,389,390,391,392,393,394,395,396,397,398,399,400]) 84 0 0 0 0 0 (-1),
   N (some [401,402,403,404,405,406,407,408,409,410,411,412,413,414,415,416]) 84 0 0 0 0 0 (-1),
   D,
   D,
   D,
   N none 193 4 4 0 0 1 0,
   D,
   D,
   D,
   D,
   D,
   D,
   D,
   D,
   D,
   D,
   D,
   D,
   D,
   D,
   D,
   N none 194 6 4 0 0 1 0,
   D,
   D,
   D,
   D,
   D,
   D,
   D,
   D,
   D,
   D,
   D,
   D,
   D,
   D,
   D,
   N none 195 4 6 0 0 1 0,
   D,
   D,
   D,
   D,
   D,
   D,
   D,
   D,
   D,
   D,
   D,
   D,
   D,
   D,
   D,
   N none 196 6 6 0 0 1 0,
   D,
   D,
   D,
   D,
   D,
   D,
   D,
   D,
   D,
   D,
   D,
   D,
   D,
   D,
   D,
   N none 197 4 4 2 0 1 0,
   D,
   D,
   D,
   D,
   D,
   D,
   D,
   D,
   D,
   D,
   D,
   D,
   D,
   D,
   D,
   N none 198 6 4 2 0 1 0,
   D,
   D,
   D,
   D,
   D,
   D,
   D,
   D,
   D,
   D,
   D,
   D,
   D,
   D,
   D,
   N none 199 4 6 2 0 1 0,
   D,
   D,
   D,
   D,
   D,
   D,
   D,
   D,
   D,
   D,
   D,
   D,
   D,
   D,
   D,
   N none 200 6 6 2 0 1 0,
   D,
   D,
   D,
   D,
   D,
   D,
   D,
   D,
   D,
   D,
   D,
   D,
   D,
   D,
   D,
   N none 201 4 4 0 2 1 0,
   D,
   D,
   D,
   D,
   D,
   D,
   D,
   D,
   D,
   D,
   D,
   D,
   D,
   D,
   D,
   N none 202 6 4 0 2 1 0,
   D,
   D,
   D,
   D,
   D,
   D,
   D,
   D,
   D,
   D,
   D,
   D,
   D,
   D,
   D,
   N none 203 4 6 0 2 1 0,
   D,
   D,
   D,
   D,
   D,
   D,
   D,
   D,
   D,
   D,
   D,
   D,
   D,
   D,
   D,
   N none 204 6 6 0 2 1 0,
   D,
   D,
   D,
   D,
   D,
   D,
   D,
   D,
   D,
   D,
   D,
   D,
   D,
   D,
   D,
   N none 205 4 4 2 2 1 0,
   D,
   D,
   D,
   D,
   D,
   D,
   D,
   D,
   D,
   D,
   D,
   D,
   D,
   D,
   D]

/-- Heap literal after feeding the first 18 of the `c6colors`. -/
def c6fed18 : OctreeMap := mkMapC6
  [N (some [1,2,3,4,5,6,7,8,9,10,11,12,13,14,15,16]) 0 0 0 0 0 0 (-1),
   N (some [17,18,19,20,21,22,23,24,25,26,27,28,29,30,31,32]) 0 0 0 0 0 0 (-1),
   D,
   D,
   D,
   D,
   D,
   D,
   D,
   D,
   D,
   D,
   D,
   D,
   D,
   D,
   D,
   N (some [33,34,35,36,37,38,39,40,41,42,43,44,45,46,47,48]) 1 0 0 0 0 0 (-1),
   D,
   D,
   D,
   D,
   D,
   D,
   D,
   D,
   D,
   D,
   D,
   D,
   D,
   D,
   D,
   N (some [49,50,51,52,53,54,55,56,57,58,59,60,61,62,63,64]) 17 0 0 0 0 0 (-1),
   D,
   D,
   D,
   D,
   D,
   D,
   D,
   D,
   D,
   D,
   D,
   D,
   D,
   D,
   D,
   N (some [65,66,67,68,69,70,71,72,73,74,75,76,77,78,79,80]) 33 0 0 0 0 0 (-1),
   D,
   D,
   D,
   D,
   D,
   D,
   D,
   D,
   D,
   D,
   D,
   D,
   D,
   D,
   D,
   N (some [81,82,83,84,85,86,87,88,89,90,91,92,93,94,95,96]) 49 0 0 0 0 0 (-1),
   D,
   D,
   D,
   D,
   D,
   D,
   D,
   D,
   D,
   D,
   D,
   D,
   D,
   D,
   D,
   N (some [97,98,99,100,101,102,103,104,105,106,107,108,109,110,111,112]) 65 0 0 0 0 0 (-1),
   N (some [129,130,131,132,133,134,135,136,137,138,139,140,141,142,143,144]) 65 0 0 0 0 0 (-1),
   N (some [161,162,163,164,165,166,167,168,169,170,171,172,173,174,175,176]) 65 0 0 0 0 0 (-1),
   N (some [193,194,195,196,197,198,199,200,201,202,203,204,205,206,207,208]) 65 0 0 0 0 0 (-1),
   D,
   D,
   D,
   D,
   D,
   D,
   D,
   D,
   D,
   D,
   D,
   D,
   N (some [113,114,115,116,117,118,119,120,121,122,123,124,125,126,127,128]) 81 0 0 0 0 0 (-1),
   D,
   D,
   D,
   D,
   D,
   D,
   D,
   D,
   D,
   D,
   D,
   D,
   D,
   D,
   D,
   N none 97 0 0 0 0 1 0,
   N none 97 1 0 0 0 1 0,
   D,
   D,
   D,
   D,
   D,
   D,
   D,
   D,
   D,
   D,
   D,
   D,
   D,
   D,
   N (some [145,146,147,148,149,150,151,152,153,154,155,156,157,158,159,160]) 82 0 0 0 0 0 (-1),
   D,
   D,
   D,
   D,
   D,
   D,
   D,
   D,
   D,
   D,
   D,
   D,
   D,
   D,
   D,
   N none 129 4 0 0 0 1 0,
   D,
   D,
   D,
   D,
   D,
   D,
   D,
   D,
   D,
   D,
   D,
   D,
   D,
   D,
   D,
   N (some [177,178,179,180,181,182,183,184,185,186,187,188,189,190,191,192]) 83 0 0 0 0 0 (-1),
   D,
   D,
   D,
   D,
   D,
   D,
   D,
   D,
   D,
   D,
   D,
   D,
   D,
   D,
   D,
   N none 161 0 4 0 0 1 0,
   D,
   D,
   D,
   D,
   D,
   D,
   D,
   D,
   D,
   D,
   D,
   D,
   D,
   D,
   D,
   N (some [209,210,211,212,213,214,215,216,217,218,219,220,221,222,223,224]) 84 0 0 0 0 0 (-1),
   N (some [225,226,227,228,229,230,231,232,233,234,235,236,237,238,239,240]) 84 0 0 0 0 0 (-1),
   N (some [241,242,243,244,245,246,247,248,249,250,251,252,253,254,255,256]) 84 0 0 0 0 0 (-1),
   N (some [257,258,259,260,261,262,263,264,265,266,267,268,269,270,271,272]) 84 0 0 0 0 0 (-1),
   N (some [273,274,275,276,277,278,279,280,281,282,283,284,285,286,287,288]) 84 0 0 0 0 0 (-1),
   N (some [289,290,291,292,293,294,295,296,297,298,299,300,301,302,303,304]) 84 0 0 0 0 0 (-1),
   N (some [305,306,307,308,309,310,311,312,313,314,315,316,317,318,319,320]) 84 0 0 0 0 0 (-1),
   N (some [321,322,323,324,325,326,327,328,329,330,331,332,333,334,335,336]) 84 0 0 0 0 0 (-1),
   N (some [337,338,339,340,341,342,343,344,345,346,347,348,349,350,351,352]) 84 0 0 0 0 0 (-1),
   N (some [353,354,355,356,357,358,359,360,361,362,363,364,365,366,367,368]) 84 0 0 0 0 0 (-1),
   N (some [369,370,371,372,373,374,375,376,377,378,379,380,381,382,383,384]) 84 0 0 0 0 0 (-1),
   N (some [385,386,387,388,389,390,391,392,393,394,395,396,397,398,399,400]) 84 0 0 0 0 0 (-1),
   N (some [401,402,403,404,405,406,407,408,409,410,411,412,413,414,415,416]) 84 0 0 0 0 0 (-1),
   N (some [417,418,419,420,421,422,423,424,425,426,427,428,429,430,431,432]) 84 0 0 0 0 0 (-1),
   D,
   D,
   N none 193 4 4 0 0 1 0,
   D,
   D,
   D,
   D,
   D,
   D,
   D,
   D,
   D,
   D,
   D,
   D,
   D,
   D,
   D,
   N none 194 6 4 0 0 1 0,
   D,
   D,
   D,
   D,
   D,
   D,
   D,
   D,
   D,
   D,
   D,
   D,
   D,
   D,
   D,
   N none 195 4 6 0 0 1 0,
   D,
   D,
   D,
   D,
   D,
   D,
   D,
   D,
   D,
   D,
   D,
   D,
   D,
   D,
   D,
   N none 196 6 6 0 0 1 0,
   D,
   D,
   D,
   D,
   D,
   D,
   D,
   D,
   D,
   D,
   D,
   D,
   D,
   D,
   D,
   N none 197 4 4 2 0 1 0,
   D,
   D,
   D,
   D,
   D,
   D,
   D,
   D,
   D,
   D,
   D,
   D,
   D,
   D,
   D,
   N none 198 6 4 2 0 1 0,
   D,
   D,
   D,
   D,
   D,
   D,
   D,
   D,
   D,
   D,
   D,
   D,
   D,
   D,
   D,
   N none 199 4 6 2 0 1 0,
   D,
   D,
   D,
   D,
   D,
   D,
   D,
   D,
   D,
   D,
   D,
   D,
   D,
   D,
   D,
   N none 200 6 6 2 0 1 0,
   D,
   D,
   D,
   D,
   D,
   D,
   D,
   D,
   D,
   D,
   D,
   D,
   D,
   D,
   D,
   N none 201 4 4 0 2 1 0,
   D,
   D,
   D,
   D,
   D,
   D,
   D,
   D,
   D,
   D,
   D,
   D,
   D,
   D,
   D,
   N none 202 6 4 0 2 1 0,
   D,
   D,
   D,
   D,
   D,
   D,
   D,
   D,
   D,
   D,
   D,
   D,
   D,
   D,
   D,
   N none 203 4 6 0 2 1 0,
   D,
   D,
   D,
   D,
   D,
   D,
   D,
   D,
   D,
   D,
   D,
   D,
   D,
   D,
   D,
   N none 204 6 6 0 2 1 0,
   D,
   D,
   D,
   D,
   D,
   D,
   D,
   D,
   D,
   D,
   D,
   D,
   D,
   D,
   D,
   N none 205 4 4 2 2 1 0,
   D,
   D,
   D,
   D,
   D,
   D,
   D,
   D,
   D,
   D,
   D,
   D,
   D,
   D,
   D,
   N none 206 6 4 2 2 1 0,
   D,
   D,
   D,
   D,
   D,
   D,
   D,
   D,
   D,
   D,
   D,
   D,
   D,
   D,
   D]

/-- Feeding step 1 of the C6 instance, checked on literal heaps. -/
theorem c6_feed_1 : (mapC6base).addColor 0 8 = c6fed1 := by
  decide

/-- Feeding step 2 of the C6 instance, checked on literal heaps. -/
theorem c6_feed_2 : (c6fed1).addColor 1 8 = c6fed2 := by
  decide

/-- Feeding step 3 of the C6 instance, checked on literal heaps. -/
theorem c6_feed_3 : (c6fed2).addColor 4 8 = c6fed3 := by
  decide

/-- Feeding step 4 of the C6 instance, checked on literal heaps. -/
theorem c6_feed_4 : (c6fed3).addColor 1024 8 = c6fed4 := by
  decide

/-- Feeding step 5 of the C6 instance, checked on literal heaps. -/
theorem c6_feed_5 : (c6fed4).addColor 1028 8 = c6fed5 := by
  decide

/-- Feeding step 6 of the C6 instance, checked on literal heaps. -/
theorem c6_feed_6 : (c6fed5).addColor 1030 8 = c6fed6 := by
  decide

/-- Feeding step 7 of the C6 instance, checked on literal heaps. -/
theorem c6_feed_7 : (c6fed6).addColor 1540 8 = c6fed7 := by
  decide

/-- Feeding step 8 of the C6 instance, checked on literal heaps. -/
theorem c6_feed_8 : (c6fed7).addColor 1542 8 = c6fed8 := by
  decide

/-- Feeding step 9 of the C6 instance, checked on literal heaps. -/
theorem c6_feed_9 : (c6fed8).addColor 132100 8 = c6fed9 := by
  decide

/-- Feeding step 10 of the C6 instance, checked on literal heaps. -/
theorem c6_feed_10 : (c6fed9).addColor 132102 8 = c6fed10 := by
  decide

/-- Feeding step 11 of the C6 instance, checked on literal heaps. -/
theorem c6_feed_11 : (c6fed10).addColor 132612 8 = c6fed11 := by
  decide

/-- Feeding step 12 of the C6 instance, checked on literal heaps. -/
theorem c6_feed_12 : (c6fed11).addColor 132614 8 = c6fed12 := by
  decide

/-- Feeding step 13 of the C6 instance, checked on literal heaps. -/
theorem c6_feed_13 : (c6fed12).addColor 33555460 8 = c6fed13 := by
  decide

/-- Feeding step 14 of the C6 instance, checked on literal heaps. -/
theorem c6_feed_14 : (c6fed13).addColor 33555462 8 = c6fed14 := by
  decide

/-- Feeding step 15 of the C6 instance, checked on literal heaps. -/
theorem c6_feed_15 : (c6fed14).addColor 33555972 8 = c6fed15 := by
  decide

/-- Feeding step 16 of the C6 instance, checked on literal heaps. -/
theorem c6_feed_16 : (c6fed15).addColor 33555974 8 = c6fed16 := by
  decide

/-- Feeding step 17 of the C6 instance, checked on literal heaps. -/
theorem c6_feed_17 : (c6fed16).addColor 33686532 8 = c6fed17 := by
  decide

/-- Feeding step 18 of the C6 instance, checked on literal heaps. -/
theorem c6_feed_18 : (c6fed17).addColor 33686534 8 = c6fed18 := by
  decide

/-- The C6 octree equals its literal heap. -/
theorem c6_map_eq : mapC6 = c6fed18 := by
  unfold mapC6
  rw [show c6colors = [0, 1, 4, 1024, 1028, 1030, 1540, 1542, 132100, 132102, 132612, 132614, 33555460, 33555462, 33555972, 33555974, 33686532, 33686534] from by decide]
  simp only [List.foldl_cons, List.foldl_nil]
  rw [c6_feed_1, c6_feed_2, c6_feed_3, c6_feed_4, c6_feed_5, c6_feed_6, c6_feed_7, c6_feed_8, c6_feed_9, c6_feed_10, c6_feed_11, c6_feed_12, c6_feed_13, c6_feed_14, c6_feed_15, c6_feed_16, c6_feed_17, c6_feed_18]

/-- Heap literal after the leaf-collection phase of the C6 instance. -/
def c6colHeap : Heap :=
  [N (some [1,2,3,4,5,6,7,8,9,10,11,12,13,14,15,16]) 0 0 0 0 0 0 (-1),
   N (some [17,18,19,20,21,22,23,24,25,26,27,28,29,30,31,32]) 0 0 0 0 0 0 (-1),
   D,
   D,
   D,
   D,
   D,
   D,
   D,
   D,
   D,
   D,
   D,
   D,
   D,
   D,
   D,
   N (some [33,34,35,36,37,38,39,40,41,42,43,44,45,46,47,48]) 1 0 0 0 0 0 (-1),
   D,
   D,
   D,
   D,
   D,
   D,
   D,
   D,
   D,
   D,
   D,
   D,
   D,
   D,
   D,
   N (some [49,50,51,52,53,54,55,56,57,58,59,60,61,62,63,64]) 17 0 0 0 0 0 (-1),
   D,
   D,
   D,
   D,
   D,
   D,
   D,
   D,
   D,
   D,
   D,
   D,
   D,
   D,
   D,
   N (some [65,66,67,68,69,70,71,72,73,74,75,76,77,78,79,80]) 33 0 0 0 0 0 (-1),
   D,
   D,
   D,
   D,
   D,
   D,
   D,
   D,
   D,
   D,
   D,
   D,
   D,
   D,
   D,
   N (some [81,82,83,84,85,86,87,88,89,90,91,92,93,94,95,96]) 49 0 0 0 0 0 (-1),
   D,
   D,
   D,
   D,
   D,
   D,
   D,
   D,
   D,
   D,
   D,
   D,
   D,
   D,
   D,
   N (some [97,98,99,100,101,102,103,104,105,106,107,108,109,110,111,112]) 65 0 0 0 0 0 (-1),
   N (some [129,130,131,132,133,134,135,136,137,138,139,140,141,142,143,144]) 65 0 0 0 0 0 (-1),
   N (some [161,162,163,164,165,166,167,168,169,170,171,172,173,174,175,176]) 65 0 0 0 0 0 (-1),
   N (some [193,194,195,196,197,198,199,200,201,202,203,204,205,206,207,208]) 65 0 0 0 0 0 (-1),
   D,
   D,
   D,
   D,
   D,
   D,
   D,
   D,
   D,
   D,
   D,
   D,
   N (some [113,114,115,116,117,118,119,120,121,122,123,124,125,126,127,128]) 81 0 0 0 0 0 (-1),
   D,
   D,
   D,
   D,
   D,
   D,
   D,
   D,
   D,
   D,
   D,
   D,
   D,
   D,
   D,
   N none 97 0 0 0 0 1 0,
   N none 97 1 0 0 0 1 1,
   D,
   D,
   D,
   D,
   D,
   D,
   D,
   D,
   D,
   D,
   D,
   D,
   D,
   D,
   N (some [145,146,147,148,149,150,151,152,153,154,155,156,157,158,159,160]) 82 0 0 0 0 0 (-1),
   D,
   D,
   D,
   D,
   D,
   D,
   D,
   D,
   D,
   D,
   D,
   D,
   D,
   D,
   D,
   N none 129 4 0 0 0 1 2,
   D,
   D,
   D,
   D,
   D,
   D,
   D,
   D,
   D,
   D,
   D,
   D,
   D,
   D,
   D,
   N (some [177,178,179,180,181,182,183,184,185,186,187,188,189,190,191,192]) 83 0 0 0 0 0 (-1),
   D,
   D,
   D,
   D,
   D,
   D,
   D,
   D,
   D,
   D,
   D,
   D,
   D,
   D,
   D,
   N none 161 0 4 0 0 1 3,
   D,
   D,
   D,
   D,
   D,
   D,
   D,
   D,
   D,
   D,
   D,
   D,
   D,
   D,
   D,
   N (some [209,210,211,212,213,214,215,216,217,218,219,220,221,222,223,224]) 84 0 0 0 0 0 (-1),
   N (some [225,226,227,228,229,230,231,232,233,234,235,236,237,238,239,240]) 84 0 0 0 0 0 (-1),
   N (some [241,242,243,244,245,246,247,248,249,250,251,252,253,254,255,256]) 84 0 0 0 0 0 (-1),
   N (some [257,258,259,260,261,262,263,264,265,266,267,268,269,270,271,272]) 84 0 0 0 0 0 (-1),
   N (some [273,274,275,276,277,278,279,280,281,282,283,284,285,286,287,288]) 84 0 0 0 0 0 (-1),
   N (some [289,290,291,292,293,294,295,296,297,298,299,300,301,302,303,304]) 84 0 0 0 0 0 (-1),
   N (some [305,306,307,308,309,310,311,312,313,314,315,316,317,318,319,320]) 84 0 0 0 0 0 (-1),
   N (some [321,322,323,324,325,326,327,328,329,330,331,332,333,334,335,336]) 84 0 0 0 0 0 (-1),
   N (some [337,338,339,340,341,342,343,344,345,346,347,348,349,350,351,352]) 84 0 0 0 0 0 (-1),
   N (some [353,354,355,356,357,358,359,360,361,362,363,364,365,366,367,368]) 84 0 0 0 0 0 (-1),
   N (some [369,370,371,372,373,374,375,376,377,378,379,380,381,382,383,384]) 84 0 0 0 0 0 (-1),
   N (some [385,386,387,388,389,390,391,392,393,394,395,396,397,398,399,400]) 84 0 0 0 0 0 (-1),
   N (some [401,402,403,404,405,406,407,408,409,410,411,412,413,414,415,416]) 84 0 0 0 0 0 (-1),
   N (some [417,418,419,420,421,422,423,424,425,426,427,428,429,430,431,432]) 84 0 0 0 0 0 (-1),
   D,
   D,
   N none 193 4 4 0 0 1 4,
   D,
   D,
   D,
   D,
   D,
   D,
   D,
   D,
   D,
   D,
   D,
   D,
   D,
   D,
   D,
   N none 194 6 4 0 0 1 5,
   D,
   D,
   D,
   D,
   D,
   D,
   D,
   D,
   D,
   D,
   D,
   D,
   D,
   D,
   D,
   N none 195 4 6 0 0 1 6,
   D,
   D,
   D,
   D,
   D,
   D,
   D,
   D,
   D,
   D,
   D,
   D,
   D,
   D,
   D,
   N none 196 6 6 0 0 1 7,
   D,
   D,
   D,
   D,
   D,
   D,
   D,
   D,
   D,
   D,
   D,
   D,
   D,
   D,
   D,
   N none 197 4 4 2 0 1 8,
   D,
   D,
   D,
   D,
   D,
   D,
   D,
   D,
   D,
   D,
   D,
   D,
   D,
   D,
   D,
   N none 198 6 4 2 0 1 9,
   D,
   D,
   D,
   D,
   D,
   D,
   D,
   D,
   D,
   D,
   D,
   D,
   D,
   D,
   D,
   N none 199 4 6 2 0 1 10,
   D,
   D,
   D,
   D,
   D,
   D,
   D,
   D,
   D,
   D,
   D,
   D,
   D,
   D,
   D,
   N none 200 6 6 2 0 1 11,
   D,
   D,
   D,
   D,
   D,
   D,
   D,
   D,
   D,
   D,
   D,
   D,
   D,
   D,
   D,
   N none 201 4 4 0 2 1 12,
   D,
   D,
   D,
   D,
   D,
   D,
   D,
   D,
   D,
   D,
   D,
   D,
   D,
   D,
   D,
   N none 202 6 4 0 2 1 13,
   D,
   D,
   D,
   D,
   D,
   D,
   D,
   D,
   D,
   D,
   D,
   D,
   D,
   D,
   D,
   N none 203 4 6 0 2 1 14,
   D,
   D,
   D,
   D,
   D,
   D,
   D,
   D,
   D,
   D,
   D,
   D,
   D,
   D,
   D,
   N none 204 6 6 0 2 1 15,
   D,
   D,
   D,
   D,
   D,
   D,
   D,
   D,
   D,
   D,
   D,
   D,
   D,
   D,
   D,
   N none 205 4 4 2 2 1 16,
   D,
   D,
   D,
   D,
   D,
   D,
   D,
   D,
   D,
   D,
   D,
   D,
   D,
   D,
   D,
   N none 206 6 4 2 2 1 17,
   D,
   D,
   D,
   D,
   D,
   D,
   D,
   D,
   D,
   D,
   D,
   D,
   D,
   D,
   D]

/-- The 18 collected leaf ids of the C6 instance. -/
def c6colLeaves : List Nat := [113,114,145,177,209,225,241,257,273,289,305,321,337,353,369,385,401,417]

/-- Leaf collection of the C6 instance, checked on literal heaps. -/
theorem c6_collect : c6fed18.collectPhase = (c6colHeap, c6colLeaves) := by
  decide

/-- State entering the reduction loops of the C6 instance. -/
def c6st0 : MPSt := ⟨c6colHeap, c6colLeaves, []⟩

/-- C6 reduction state after 1 collapse step of the first pass. -/
def c6st1 : MPSt :=
  ⟨[N (some [1,2,3,4,5,6,7,8,9,10,11,12,13,14,15,16]) 0 0 0 0 0 0 (-1),
   N (some [17,18,19,20,21,22,23,24,25,26,27,28,29,30,31,32]) 0 0 0 0 0 0 (-1),
   D,
   D,
   D,
   D,
   D,
   D,
   D,
   D,
   D,
   D,
   D,
   D,
   D,
   D,
   D,
   N (some [33,34,35,36,37,38,39,40,41,42,43,44,45,46,47,48]) 1 0 0 0 0 0 (-1),
   D,
   D,
   D,
   D,
   D,
   D,
   D,
   D,
   D,
   D,
   D,
   D,
   D,
   D,
   D,
   N (some [49,50,51,52,53,54,55,56,57,58,59,60,61,62,63,64]) 17 0 0 0 0 0 (-1),
   D,
   D,
   D,
   D,
   D,
   D,
   D,
   D,
   D,
   D,
   D,
   D,
   D,
   D,
   D,
   N (some [65,66,67,68,69,70,71,72,73,74,75,76,77,78,79,80]) 33 0 0 0 0 0 (-1),
   D,
   D,
   D,
   D,
   D,
   D,
   D,
   D,
   D,
   D,
   D,
   D,
   D,
   D,
   D,
   N (some [81,82,83,84,85,86,87,88,89,90,91,92,93,94,95,96]) 49 0 0 0 0 0 (-1),
   D,
   D,
   D,
   D,
   D,
   D,
   D,
   D,
   D,
   D,
   D,
   D,
   D,
   D,
   D,
   N (some [97,98,99,100,101,102,103,104,105,106,107,108,109,110,111,112]) 65 0 0 0 0 0 (-1),
   N (some [129,130,131,132,133,134,135,136,137,138,139,140,141,142,143,144]) 65 0 0 0 0 0 (-1),
   N (some [161,162,163,164,165,166,167,168,169,170,171,172,173,174,175,176]) 65 0 0 0 0 0 (-1),
   N (some [193,194,195,196,197,198,199,200,201,202,203,204,205,206,207,208]) 65 0 0 0 0 0 (-1),
   D,
   D,
   D,
   D,
   D,
   D,
   D,
   D,
   D,
   D,
   D,
   D,
   N (some [113,114,115,116,117,118,119,120,121,122,123,124,125,126,127,128]) 81 0 0 0 0 0 (-1),
   D,
   D,
   D,
   D,
   D,
   D,
   D,
   D,
   D,
   D,
   D,
   D,
   D,
   D,
   D,
   N none 97 0 0 0 0 1 0,
   N none 97 1 0 0 0 1 1,
   D,
   D,
   D,
   D,
   D,
   D,
   D,
   D,
   D,
   D,
   D,
   D,
   D,
   D,
   N (some [145,146,147,148,149,150,151,152,153,154,155,156,157,158,159,160]) 82 0 0 0 0 0 (-1),
   D,
   D,
   D,
   D,
   D,
   D,
   D,
   D,
   D,
   D,
   D,
   D,
   D,
   D,
   D,
   N none 129 4 0 0 0 1 2,
   D,
   D,
   D,
   D,
   D,
   D,
   D,
   D,
   D,
   D,
   D,
   D,
   D,
   D,
   D,
   N (some [177,178,179,180,181,182,183,184,185,186,187,188,189,190,191,192]) 83 0 0 0 0 0 (-1),
   D,
   D,
   D,
   D,
   D,
   D,
   D,
   D,
   D,
   D,
   D,
   D,
   D,
   D,
   D,
   N none 161 0 4 0 0 1 3,
   D,
   D,
   D,
   D,
   D,
   D,
   D,
   D,
   D,
   D,
   D,
   D,
   D,
   D,
   D,
   N (some [209,210,211,212,213,214,215,216,217,218,219,220,221,222,223,224]) 84 0 0 0 0 0 (-1),
   N (some [225,226,227,228,229,230,231,232,233,234,235,236,237,238,239,240]) 84 0 0 0 0 0 (-1),
   N (some [241,242,243,244,245,246,247,248,249,250,251,252,253,254,255,256]) 84 0 0 0 0 0 (-1),
   N (some [257,258,259,260,261,262,263,264,265,266,267,268,269,270,271,272]) 84 0 0 0 0 0 (-1),
   N (some [273,274,275,276,277,278,279,280,281,282,283,284,285,286,287,288]) 84 0 0 0 0 0 (-1),
   N (some [289,290,291,292,293,294,295,296,297,298,299,300,301,302,303,304]) 84 0 0 0 0 0 (-1),
   N (some [305,306,307,308,309,310,311,312,313,314,315,316,317,318,319,320]) 84 0 0 0 0 0 (-1),
   N (some [321,322,323,324,325,326,327,328,329,330,331,332,333,334,335,336]) 84 0 0 0 0 0 (-1),
   N (some [337,338,339,340,341,342,343,344,345,346,347,348,349,350,351,352]) 84 0 0 0 0 0 (-1),
   N (some [353,354,355,356,357,358,359,360,361,362,363,364,365,366,367,368]) 84 0 0 0 0 0 (-1),
   N (some [369,370,371,372,373,374,375,376,377,378,379,380,381,382,383,384]) 84 0 0 0 0 0 (-1),
   N (some [385,386,387,388,389,390,391,392,393,394,395,396,397,398,399,400]) 84 0 0 0 0 0 (-1),
   N (some [401,402,403,404,405,406,407,408,409,410,411,412,413,414,415,416]) 84 0 0 0 0 0 (-1),
   N (some [417,418,419,420,421,422,423,424,425,426,427,428,429,430,431,432]) 84 6 4 2 2 1 (-1),
   D,
   D,
   N none 193 4 4 0 0 1 4,
   D,
   D,
   D,
   D,
   D,
   D,
   D,
   D,
   D,
   D,
   D,
   D,
   D,
   D,
   D,
   N none 194 6 4 0 0 1 5,
   D,
   D,
   D,
   D,
   D,
   D,
   D,
   D,
   D,
   D,
   D,
   D,
   D,
   D,
   D,
   N none 195 4 6 0 0 1 6,
   D,
   D,
   D,
   D,
   D,
   D,
   D,
   D,
   D,
   D,
   D,
   D,
   D,
   D,
   D,
   N none 196 6 6 0 0 1 7,
   D,
   D,
   D,
   D,
   D,
   D,
   D,
   D,
   D,
   D,
   D,
   D,
   D,
   D,
   D,
   N none 197 4 4 2 0 1 8,
   D,
   D,
   D,
   D,
   D,
   D,
   D,
   D,
   D,
   D,
   D,
   D,
   D,
   D,
   D,
   N none 198 6 4 2 0 1 9,
   D,
   D,
   D,
   D,
   D,
   D,
   D,
   D,
   D,
   D,
   D,
   D,
   D,
   D,
   D,
   N none 199 4 6 2 0 1 10,
   D,
   D,
   D,
   D,
   D,
   D,
   D,
   D,
   D,
   D,
   D,
   D,
   D,
   D,
   D,
   N none 200 6 6 2 0 1 11,
   D,
   D,
   D,
   D,
   D,
   D,
   D,
   D,
   D,
   D,
   D,
   D,
   D,
   D,
   D,
   N none 201 4 4 0 2 1 12,
   D,
   D,
   D,
   D,
   D,
   D,
   D,
   D,
   D,
   D,
   D,
   D,
   D,
   D,
   D,
   N none 202 6 4 0 2 1 13,
   D,
   D,
   D,
   D,
   D,
   D,
   D,
   D,
   D,
   D,
   D,
   D,
   D,
   D,
   D,
   N none 203 4 6 0 2 1 14,
   D,
   D,
   D,
   D,
   D,
   D,
   D,
   D,
   D,
   D,
   D,
   D,
   D,
   D,
   D,
   N none 204 6 6 0 2 1 15,
   D,
   D,
   D,
   D,
   D,
   D,
   D,
   D,
   D,
   D,
   D,
   D,
   D,
   D,
   D,
   N none 205 4 4 2 2 1 16,
   D,
   D,
   D,
   D,
   D,
   D,
   D,
   D,
   D,
   D,
   D,
   D,
   D,
   D,
   D,
   N none 206 6 4 2 2 1 17,
   D,
   D,
   D,
   D,
   D,
   D,
   D,
   D,
   D,
   D,
   D,
   D,
   D,
   D,
   D],
 [113,114,145,177,209,225,241,257,273,289,305,321,337,353,369,385,401], [206]⟩

/-- C6 reduction state after 2 collapse steps of the first pass. -/
def c6st2 : MPSt :=
  ⟨[N (some [1,2,3,4,5,6,7,8,9,10,11,12,13,14,15,16]) 0 0 0 0 0 0 (-1),
   N (some [17,18,19,20,21,22,23,24,25,26,27,28,29,30,31,32]) 0 0 0 0 0 0 (-1),
   D,
   D,
   D,
   D,
   D,
   D,
   D,
   D,
   D,
   D,
   D,
   D,
   D,
   D,
   D,
   N (some [33,34,35,36,37,38,39,40,41,42,43,44,45,46,47,48]) 1 0 0 0 0 0 (-1),
   D,
   D,
   D,
   D,
   D,
   D,
   D,
   D,
   D,
   D,
   D,
   D,
   D,
   D,
   D,
   N (some [49,50,51,52,53,54,55,56,57,58,59,60,61,62,63,64]) 17 0 0 0 0 0 (-1),
   D,
   D,
   D,
   D,
   D,
   D,
   D,
   D,
   D,
   D,
   D,
   D,
   D,
   D,
   D,
   N (some [65,66,67,68,69,70,71,72,73,74,75,76,77,78,79,80]) 33 0 0 0 0 0 (-1),
   D,
   D,
   D,
   D,
   D,
   D,
   D,
   D,
   D,
   D,
   D,
   D,
   D,
   D,
   D,
   N (some [81,82,83,84,85,86,87,88,89,90,91,92,93,94,95,96]) 49 0 0 0 0 0 (-1),
   D,
   D,
   D,
   D,
   D,
   D,
   D,
   D,
   D,
   D,
   D,
   D,
   D,
   D,
   D,
   N (some [97,98,99,100,101,102,103,104,105,106,107,108,109,110,111,112]) 65 0 0 0 0 0 (-1),
   N (some [129,130,131,132,133,134,135,136,137,138,139,140,141,142,143,144]) 65 0 0 0 0 0 (-1),
   N (some [161,162,163,164,165,166,167,168,169,170,171,172,173,174,175,176]) 65 0 0 0 0 0 (-1),
   N (some [193,194,195,196,197,198,199,200,201,202,203,204,205,206,207,208]) 65 0 0 0 0 0 (-1),
   D,
   D,
   D,
   D,
   D,
   D,
   D,
   D,
   D,
   D,
   D,
   D,
   N (some [113,114,115,116,117,118,119,120,121,122,123,124,125,126,127,128]) 81 0 0 0 0 0 (-1),
   D,
   D,
   D,
   D,
   D,
   D,
   D,
   D,
   D,
   D,
   D,
   D,
   D,
   D,
   D,
   N none 97 0 0 0 0 1 0,
   N none 97 1 0 0 0 1 1,
   D,
   D,
   D,
   D,
   D,
   D,
   D,
   D,
   D,
   D,
   D,
   D,
   D,
   D,
   N (some [145,146,147,148,149,150,151,152,153,154,155,156,157,158,159,160]) 82 0 0 0 0 0 (-1),
   D,
   D,
   D,
   D,
   D,
   D,
   D,
   D,
   D,
   D,
   D,
   D,
   D,
   D,
   D,
   N none 129 4 0 0 0 1 2,
   D,
   D,
   D,
   D,
   D,
   D,
   D,
   D,
   D,
   D,
   D,
   D,
   D,
   D,
   D,
   N (some [177,178,179,180,181,182,183,184,185,186,187,188,189,190,191,192]) 83 0 0 0 0 0 (-1),
   D,
   D,
   D,
   D,
   D,
   D,
   D,
   D,
   D,
   D,
   D,
   D,
   D,
   D,
   D,
   N none 161 0 4 0 0 1 3,
   D,
   D,
   D,
   D,
   D,
   D,
   D,
   D,
   D,
   D,
   D,
   D,
   D,
   D,
   D,
   N (some [209,210,211,212,213,214,215,216,217,218,219,220,221,222,223,224]) 84 0 0 0 0 0 (-1),
   N (some [225,226,227,228,229,230,231,232,233,234,235,236,237,238,239,240]) 84 0 0 0 0 0 (-1),
   N (some [241,242,243,244,245,246,247,248,249,250,251,252,253,254,255,256]) 84 0 0 0 0 0 (-1),
   N (some [257,258,259,260,261,262,263,264,265,266,267,268,269,270,271,272]) 84 0 0 0 0 0 (-1),
   N (some [273,274,275,276,277,278,279,280,281,282,283,284,285,286,287,288]) 84 0 0 0 0 0 (-1),
   N (some [289,290,291,292,293,294,295,296,297,298,299,300,301,302,303,304]) 84 0 0 0 0 0 (-1),
   N (some [305,306,307,308,309,310,311,312,313,314,315,316,317,318,319,320]) 84 0 0 0 0 0 (-1),
   N (some [321,322,323,324,325,326,327,328,329,330,331,332,333,334,335,336]) 84 0 0 0 0 0 (-1),
   N (some [337,338,339,340,341,342,343,344,345,346,347,348,349,350,351,352]) 84 0 0 0 0 0 (-1),
   N (some [353,354,355,356,357,358,359,360,361,362,363,364,365,366,367,368]) 84 0 0 0 0 0 (-1),
   N (some [369,370,371,372,373,374,375,376,377,378,379,380,381,382,383,384]) 84 0 0 0 0 0 (-1),
   N (some [385,386,387,388,389,390,391,392,393,394,395,396,397,398,399,400]) 84 0 0 0 0 0 (-1),
   N (some [401,402,403,404,405,406,407,408,409,410,411,412,413,414,415,416]) 84 4 4 2 2 1 (-1),
   N (some [417,418,419,420,421,422,423,424,425,426,427,428,429,430,431,432]) 84 6 4 2 2 1 (-1),
   D,
   D,
   N none 193 4 4 0 0 1 4,
   D,
   D,
   D,
   D,
   D,
   D,
   D,
   D,
   D,
   D,
   D,
   D,
   D,
   D,
   D,
   N none 194 6 4 0 0 1 5,
   D,
   D,
   D,
   D,
   D,
   D,
   D,
   D,
   D,
   D,
   D,
   D,
   D,
   D,
   D,
   N none 195 4 6 0 0 1 6,
   D,
   D,
   D,
   D,
   D,
   D,
   D,
   D,
   D,
   D,
   D,
   D,
   D,
   D,
   D,
   N none 196 6 6 0 0 1 7,
   D,
   D,
   D,
   D,
   D,
   D,
   D,
   D,
   D,
   D,
   D,
   D,
   D,
   D,
   D,
   N none 197 4 4 2 0 1 8,
   D,
   D,
   D,
   D,
   D,
   D,
   D,
   D,
   D,
   D,
   D,
   D,
   D,
   D,
   D,
   N none 198 6 4 2 0 1 9,
   D,
   D,
   D,
   D,
   D,
   D,
   D,
   D,
   D,
   D,
   D,
   D,
   D,
   D,
   D,
   N none 199 4 6 2 0 1 10,
   D,
   D,
   D,
   D,
   D,
   D,
   D,
   D,
   D,
   D,
   D,
   D,
   D,
   D,
   D,
   N none 200 6 6 2 0 1 11,
   D,
   D,
   D,
   D,
   D,
   D,
   D,
   D,
   D,
   D,
   D,
   D,
   D,
   D,
   D,
   N none 201 4 4 0 2 1 12,
   D,
   D,
   D,
   D,
   D,
   D,
   D,
   D,
   D,
   D,
   D,
   D,
   D,
   D,
   D,
   N none 202 6 4 0 2 1 13,
   D,
   D,
   D,
   D,
   D,
   D,
   D,
   D,
   D,
   D,
   D,
   D,
   D,
   D,
   D,
   N none 203 4 6 0 2 1 14,
   D,
   D,
   D,
   D,
   D,
   D,
   D,
   D,
   D,
   D,
   D,
   D,
   D,
   D,
   D,
   N none 204 6 6 0 2 1 15,
   D,
   D,
   D,
   D,
   D,
   D,
   D,
   D,
   D,
   D,
   D,
   D,
   D,
   D,
   D,
   N none 205 4 4 2 2 1 16,
   D,
   D,
   D,
   D,
   D,
   D,
   D,
   D,
   D,
   D,
   D,
   D,
   D,
   D,
   D,
   N none 206 6 4 2 2 1 17,
   D,
   D,
   D,
   D,
   D,
   D,
   D,
   D,
   D,
   D,
   D,
   D,
   D,
   D,
   D],
 [113,114,145,177,209,225,241,257,273,289,305,321,337,353,369,385], [206,205]⟩

/-- C6 reduction state after 3 collapse steps of the first pass. -/
def c6st3 : MPSt :=
  ⟨[N (some [1,2,3,4,5,6,7,8,9,10,11,12,13,14,15,16]) 0 0 0 0 0 0 (-1),
   N (some [17,18,19,20,21,22,23,24,25,26,27,28,29,30,31,32]) 0 0 0 0 0 0 (-1),
   D,
   D,
   D,
   D,
   D,
   D,
   D,
   D,
   D,
   D,
   D,
   D,
   D,
   D,
   D,
   N (some [33,34,35,36,37,38,39,40,41,42,43,44,45,46,47,48]) 1 0 0 0 0 0 (-1),
   D,
   D,
   D,
   D,
   D,
   D,
   D,
   D,
   D,
   D,
   D,
   D,
   D,
   D,
   D,
   N (some [49,50,51,52,53,54,55,56,57,58,59,60,61,62,63,64]) 17 0 0 0 0 0 (-1),
   D,
   D,
   D,
   D,
   D,
   D,
   D,
   D,
   D,
   D,
   D,
   D,
   D,
   D,
   D,
   N (some [65,66,67,68,69,70,71,72,73,74,75,76,77,78,79,80]) 33 0 0 0 0 0 (-1),
   D,
   D,
   D,
   D,
   D,
   D,
   D,
   D,
   D,
   D,
   D,
   D,
   D,
   D,
   D,
   N (some [81,82,83,84,85,86,87,88,89,90,91,92,93,94,95,96]) 49 0 0 0 0 0 (-1),
   D,
   D,
   D,
   D,
   D,
   D,
   D,
   D,
   D,
   D,
   D,
   D,
   D,
   D,
   D,
   N (some [97,98,99,100,101,102,103,104,105,106,107,108,109,110,111,112]) 65 0 0 0 0 0 (-1),
   N (some [129,130,131,132,133,134,135,136,137,138,139,140,141,142,143,144]) 65 0 0 0 0 0 (-1),
   N (some [161,162,163,164,165,166,167,168,169,170,171,172,173,174,175,176]) 65 0 0 0 0 0 (-1),
   N (some [193,194,195,196,197,198,199,200,201,202,203,204,205,206,207,208]) 65 0 0 0 0 0 (-1),
   D,
   D,
   D,
   D,
   D,
   D,
   D,
   D,
   D,
   D,
   D,
   D,
   N (some [113,114,115,116,117,118,119,120,121,122,123,124,125,126,127,128]) 81 0 0 0 0 0 (-1),
   D,
   D,
   D,
   D,
   D,
   D,
   D,
   D,
   D,
   D,
   D,
   D,
   D,
   D,
   D,
   N none 97 0 0 0 0 1 0,
   N none 97 1 0 0 0 1 1,
   D,
   D,
   D,
   D,
   D,
   D,
   D,
   D,
   D,
   D,
   D,
   D,
   D,
   D,
   N (some [145,146,147,148,149,150,151,152,153,154,155,156,157,158,159,160]) 82 0 0 0 0 0 (-1),
   D,
   D,
   D,
   D,
   D,
   D,
   D,
   D,
   D,
   D,
   D,
   D,
   D,
   D,
   D,
   N none 129 4 0 0 0 1 2,
   D,
   D,
   D,
   D,
   D,
   D,
   D,
   D,
   D,
   D,
   D,
   D,
   D,
   D,
   D,
   N (some [177,178,179,180,181,182,183,184,185,186,187,188,189,190,191,192]) 83 0 0 0 0 0 (-1),
   D,
   D,
   D,
   D,
   D,
   D,
   D,
   D,
   D,
   D,
   D,
   D,
   D,
   D,
   D,
   N none 161 0 4 0 0 1 3,
   D,
   D,
   D,
   D,
   D,
   D,
   D,
   D,
   D,
   D,
   D,
   D,
   D,
   D,
   D,
   N (some [209,210,211,212,213,214,215,216,217,218,219,220,221,222,223,224]) 84 0 0 0 0 0 (-1),
   N (some [225,226,227,228,229,230,231,232,233,234,235,236,237,238,239,240]) 84 0 0 0 0 0 (-1),
   N (some [241,242,243,244,245,246,247,248,249,250,251,252,253,254,255,256]) 84 0 0 0 0 0 (-1),
   N (some [257,258,259,260,261,262,263,264,265,266,267,268,269,270,271,272]) 84 0 0 0 0 0 (-1),
   N (some [273,274,275,276,277,278,279,280,281,282,283,284,285,286,287,288]) 84 0 0 0 0 0 (-1),
   N (some [289,290,291,292,293,294,295,296,297,298,299,300,301,302,303,304]) 84 0 0 0 0 0 (-1),
   N (some [305,306,307,308,309,310,311,312,313,314,315,316,317,318,319,320]) 84 0 0 0 0 0 (-1),
   N (some [321,322,323,324,325,326,327,328,329,330,331,332,333,334,335,336]) 84 0 0 0 0 0 (-1),
   N (some [337,338,339,340,341,342,343,344,345,346,347,348,349,350,351,352]) 84 0 0 0 0 0 (-1),
   N (some [353,354,355,356,357,358,359,360,361,362,363,364,365,366,367,368]) 84 0 0 0 0 0 (-1),
   N (some [369,370,371,372,373,374,375,376,377,378,379,380,381,382,383,384]) 84 0 0 0 0 0 (-1),
   N (some [385,386,387,388,389,390,391,392,393,394,395,396,397,398,399,400]) 84 6 6 0 2 1 (-1),
   N (some [401,402,403,404,405,406,407,408,409,410,411,412,413,414,415,416]) 84 4 4 2 2 1 (-1),
   N (some [417,418,419,420,421,422,423,424,425,426,427,428,429,430,431,432]) 84 6 4 2 2 1 (-1),
   D,
   D,
   N none 193 4 4 0 0 1 4,
   D,
   D,
   D,
   D,
   D,
   D,
   D,
   D,
   D,
   D,
   D,
   D,
   D,
   D,
   D,
   N none 194 6 4 0 0 1 5,
   D,
   D,
   D,
   D,
   D,
   D,
   D,
   D,
   D,
   D,
   D,
   D,
   D,
   D,
   D,
   N none 195 4 6 0 0 1 6,
   D,
   D,
   D,
   D,
   D,
   D,
   D,
   D,
   D,
   D,
   D,
   D,
   D,
   D,
   D,
   N none 196 6 6 0 0 1 7,
   D,
   D,
   D,
   D,
   D,
   D,
   D,
   D,
   D,
   D,
   D,
   D,
   D,
   D,
   D,
   N none 197 4 4 2 0 1 8,
   D,
   D,
   D,
   D,
   D,
   D,
   D,
   D,
   D,
   D,
   D,
   D,
   D,
   D,
   D,
   N none 198 6 4 2 0 1 9,
   D,
   D,
   D,
   D,
   D,
   D,
   D,
   D,
   D,
   D,
   D,
   D,
   D,
   D,
   D,
   N none 199 4 6 2 0 1 10,
   D,
   D,
   D,
   D,
   D,
   D,
   D,
   D,
   D,
   D,
   D,
   D,
   D,
   D,
   D,
   N none 200 6 6 2 0 1 11,
   D,
   D,
   D,
   D,
   D,
   D,
   D,
   D,
   D,
   D,
   D,
   D,
   D,
   D,
   D,
   N none 201 4 4 0 2 1 12,
   D,
   D,
   D,
   D,
   D,
   D,
   D,
   D,
   D,
   D,
   D,
   D,
   D,
   D,
   D,
   N none 202 6 4 0 2 1 13,
   D,
   D,
   D,
   D,
   D,
   D,
   D,
   D,
   D,
   D,
   D,
   D,
   D,
   D,
   D,
   N none 203 4 6 0 2 1 14,
   D,
   D,
   D,
   D,
   D,
   D,
   D,
   D,
   D,
   D,
   D,
   D,
   D,
   D,
   D,
   N none 204 6 6 0 2 1 15,
   D,
   D,
   D,
   D,
   D,
   D,
   D,
   D,
   D,
   D,
   D,
   D,
   D,
   D,
   D,
   N none 205 4 4 2 2 1 16,
   D,
   D,
   D,
   D,
   D,
   D,
   D,
   D,
   D,
   D,
   D,
   D,
   D,
   D,
   D,
   N none 206 6 4 2 2 1 17,
   D,
   D,
   D,
   D,
   D,
   D,
   D,
   D,
   D,
   D,
   D,
   D,
   D,
   D,
   D],
 [113,114,145,177,209,225,241,257,273,289,305,321,337,353,369], [206,205,204]⟩

/-- C6 reduction state after 4 collapse steps of the first pass. -/
def c6st4 : MPSt :=
  ⟨[N (some [1,2,3,4,5,6,7,8,9,10,11,12,13,14,15,16]) 0 0 0 0 0 0 (-1),
   N (some [17,18,19,20,21,22,23,24,25,26,27,28,29,30,31,32]) 0 0 0 0 0 0 (-1),
   D,
   D,
   D,
   D,
   D,
   D,
   D,
   D,
   D,
   D,
   D,
   D,
   D,
   D,
   D,
   N (some [33,34,35,36,37,38,39,40,41,42,43,44,45,46,47,48]) 1 0 0 0 0 0 (-1),
   D,
   D,
   D,
   D,
   D,
   D,
   D,
   D,
   D,
   D,
   D,
   D,
   D,
   D,
   D,
   N (some [49,50,51,52,53,54,55,56,57,58,59,60,61,62,63,64]) 17 0 0 0 0 0 (-1),
   D,
   D,
   D,
   D,
   D,
   D,
   D,
   D,
   D,
   D,
   D,
   D,
   D,
   D,
   D,
   N (some [65,66,67,68,69,70,71,72,73,74,75,76,77,78,79,80]) 33 0 0 0 0 0 (-1),
   D,
   D,
   D,
   D,
   D,
   D,
   D,
   D,
   D,
   D,
   D,
   D,
   D,
   D,
   D,
   N (some [81,82,83,84,85,86,87,88,89,90,91,92,93,94,95,96]) 49 0 0 0 0 0 (-1),
   D,
   D,
   D,
   D,
   D,
   D,
   D,
   D,
   D,
   D,
   D,
   D,
   D,
   D,
   D,
   N (some [97,98,99,100,101,102,103,104,105,106,107,108,109,110,111,112]) 65 0 0 0 0 0 (-1),
   N (some [129,130,131,132,133,134,135,136,137,138,139,140,141,142,143,144]) 65 0 0 0 0 0 (-1),
   N (some [161,162,163,164,165,166,167,168,169,170,171,172,173,174,175,176]) 65 0 0 0 0 0 (-1),
   N (some [193,194,195,196,197,198,199,200,201,202,203,204,205,206,207,208]) 65 0 0 0 0 0 (-1),
   D,
   D,
   D,
   D,
   D,
   D,
   D,
   D,
   D,
   D,
   D,
   D,
   N (some [113,114,115,116,117,118,119,120,121,122,123,124,125,126,127,128]) 81 0 0 0 0 0 (-1),
   D,
   D,
   D,
   D,
   D,
   D,
   D,
   D,
   D,
   D,
   D,
   D,
   D,
   D,
   D,
   N none 97 0 0 0 0 1 0,
   N none 97 1 0 0 0 1 1,
   D,
   D,
   D,
   D,
   D,
   D,
   D,
   D,
   D,
   D,
   D,
   D,
   D,
   D,
   N (some [145,146,147,148,149,150,151,152,153,154,155,156,157,158,159,160]) 82 0 0 0 0 0 (-1),
   D,
   D,
   D,
   D,
   D,
   D,
   D,
   D,
   D,
   D,
   D,
   D,
   D,
   D,
   D,
   N none 129 4 0 0 0 1 2,
   D,
   D,
   D,
   D,
   D,
   D,
   D,
   D,
   D,
   D,
   D,
   D,
   D,
   D,
   D,
   N (some [177,178,179,180,181,182,183,184,185,186,187,188,189,190,191,192]) 83 0 0 0 0 0 (-1),
   D,
   D,
   D,
   D,
   D,
   D,
   D,
   D,
   D,
   D,
   D,
   D,
   D,
   D,
   D,
   N none 161 0 4 0 0 1 3,
   D,
   D,
   D,
   D,
   D,
   D,
   D,
   D,
   D,
   D,
   D,
   D,
   D,
   D,
   D,
   N (some [209,210,211,212,213,214,215,216,217,218,219,220,221,222,223,224]) 84 0 0 0 0 0 (-1),
   N (some [225,226,227,228,229,230,231,232,233,234,235,236,237,238,239,240]) 84 0 0 0 0 0 (-1),
   N (some [241,242,243,244,245,246,247,248,249,250,251,252,253,254,255,256]) 84 0 0 0 0 0 (-1),
   N (some [257,258,259,260,261,262,263,264,265,266,267,268,269,270,271,272]) 84 0 0 0 0 0 (-1),
   N (some [273,274,275,276,277,278,279,280,281,282,283,284,285,286,287,288]) 84 0 0 0 0 0 (-1),
   N (some [289,290,291,292,293,294,295,296,297,298,299,300,301,302,303,304]) 84 0 0 0 0 0 (-1),
   N (some [305,306,307,308,309,310,311,312,313,314,315,316,317,318,319,320]) 84 0 0 0 0 0 (-1),
   N (some [321,322,323,324,325,326,327,328,329,330,331,332,333,334,335,336]) 84 0 0 0 0 0 (-1),
   N (some [337,338,339,340,341,342,343,344,345,346,347,348,349,350,351,352]) 84 0 0 0 0 0 (-1),
   N (some [353,354,355,356,357,358,359,360,361,362,363,364,365,366,367,368]) 84 0 0 0 0 0 (-1),
   N (some [369,370,371,372,373,374,375,376,377,378,379,380,381,382,383,384]) 84 4 6 0 2 1 (-1),
   N (some [385,386,387,388,389,390,391,392,393,394,395,396,397,398,399,400]) 84 6 6 0 2 1 (-1),
   N (some [401,402,403,404,405,406,407,408,409,410,411,412,413,414,415,416]) 84 4 4 2 2 1 (-1),
   N (some [417,418,419,420,421,422,423,424,425,426,427,428,429,430,431,432]) 84 6 4 2 2 1 (-1),
   D,
   D,
   N none 193 4 4 0 0 1 4,
   D,
   D,
   D,
   D,
   D,
   D,
   D,
   D,
   D,
   D,
   D,
   D,
   D,
   D,
   D,
   N none 194 6 4 0 0 1 5,
   D,
   D,
   D,
   D,
   D,
   D,
   D,
   D,
   D,
   D,
   D,
   D,
   D,
   D,
   D,
   N none 195 4 6 0 0 1 6,
   D,
   D,
   D,
   D,
   D,
   D,
   D,
   D,
   D,
   D,
   D,
   D,
   D,
   D,
   D,
   N none 196 6 6 0 0 1 7,
   D,
   D,
   D,
   D,
   D,
   D,
   D,
   D,
   D,
   D,
   D,
   D,
   D,
   D,
   D,
   N none 197 4 4 2 0 1 8,
   D,
   D,
   D,
   D,
   D,
   D,
   D,
   D,
   D,
   D,
   D,
   D,
   D,
   D,
   D,
   N none 198 6 4 2 0 1 9,
   D,
   D,
   D,
   D,
   D,
   D,
   D,
   D,
   D,
   D,
   D,
   D,
   D,
   D,
   D,
   N none 199 4 6 2 0 1 10,
   D,
   D,
   D,
   D,
   D,
   D,
   D,
   D,
   D,
   D,
   D,
   D,
   D,
   D,
   D,
   N none 200 6 6 2 0 1 11,
   D,
   D,
   D,
   D,
   D,
   D,
   D,
   D,
   D,
   D,
   D,
   D,
   D,
   D,
   D,
   N none 201 4 4 0 2 1 12,
   D,
   D,
   D,
   D,
   D,
   D,
   D,
   D,
   D,
   D,
   D,
   D,
   D,
   D,
   D,
   N none 202 6 4 0 2 1 13,
   D,
   D,
   D,
   D,
   D,
   D,
   D,
   D,
   D,
   D,
   D,
   D,
   D,
   D,
   D,
   N none 203 4 6 0 2 1 14,
   D,
   D,
   D,
   D,
   D,
   D,
   D,
   D,
   D,
   D,
   D,
   D,
   D,
   D,
   D,
   N none 204 6 6 0 2 1 15,
   D,
   D,
   D,
   D,
   D,
   D,
   D,
   D,
   D,
   D,
   D,
   D,
   D,
   D,
   D,
   N none 205 4 4 2 2 1 16,
   D,
   D,
   D,
   D,
   D,
   D,
   D,
   D,
   D,
   D,
   D,
   D,
   D,
   D,
   D,
   N none 206 6 4 2 2 1 17,
   D,
   D,
   D,
   D,
   D,
   D,
   D,
   D,
   D,
   D,
   D,
   D,
   D,
   D,
   D],
 [113,114,145,177,209,225,241,257,273,289,305,321,337,353], [206,205,204,203]⟩

/-- C6 reduction state after 5 collapse steps of the first pass. -/
def c6st5 : MPSt :=
  ⟨[N (some [1,2,3,4,5,6,7,8,9,10,11,12,13,14,15,16]) 0 0 0 0 0 0 (-1),
   N (some [17,18,19,20,21,22,23,24,25,26,27,28,29,30,31,32]) 0 0 0 0 0 0 (-1),
   D,
   D,
   D,
   D,
   D,
   D,
   D,
   D,
   D,
   D,
   D,
   D,
   D,
   D,
   D,
   N (some [33,34,35,36,37,38,39,40,41,42,43,44,45,46,47,48]) 1 0 0 0 0 0 (-1),
   D,
   D,
   D,
   D,
   D,
   D,
   D,
   D,
   D,
   D,
   D,
   D,
   D,
   D,
   D,
   N (some [49,50,51,52,53,54,55,56,57,58,59,60,61,62,63,64]) 17 0 0 0 0 0 (-1),
   D,
   D,
   D,
   D,
   D,
   D,
   D,
   D,
   D,
   D,
   D,
   D,
   D,
   D,
   D,
   N (some [65,66,67,68,69,70,71,72,73,74,75,76,77,78,79,80]) 33 0 0 0 0 0 (-1),
   D,
   D,
   D,
   D,
   D,
   D,
   D,
   D,
   D,
   D,
   D,
   D,
   D,
   D,
   D,
   N (some [81,82,83,84,85,86,87,88,89,90,91,92,93,94,95,96]) 49 0 0 0 0 0 (-1),
   D,
   D,
   D,
   D,
   D,
   D,
   D,
   D,
   D,
   D,
   D,
   D,
   D,
   D,
   D,
   N (some [97,98,99,100,101,102,103,104,105,106,107,108,109,110,111,112]) 65 0 0 0 0 0 (-1),
   N (some [129,130,131,132,133,134,135,136,137,138,139,140,141,142,143,144]) 65 0 0 0 0 0 (-1),
   N (some [161,162,163,164,165,166,167,168,169,170,171,172,173,174,175,176]) 65 0 0 0 0 0 (-1),
   N (some [193,194,195,196,197,198,199,200,201,202,203,204,205,206,207,208]) 65 0 0 0 0 0 (-1),
   D,
   D,
   D,
   D,
   D,
   D,
   D,
   D,
   D,
   D,
   D,
   D,
   N (some [113,114,115,116,117,118,119,120,121,122,123,124,125,126,127,128]) 81 0 0 0 0 0 (-1),
   D,
   D,
   D,
   D,
   D,
   D,
   D,
   D,
   D,
   D,
   D,
   D,
   D,
   D,
   D,
   N none 97 0 0 0 0 1 0,
   N none 97 1 0 0 0 1 1,
   D,
   D,
   D,
   D,
   D,
   D,
   D,
   D,
   D,
   D,
   D,
   D,
   D,
   D,
   N (some [145,146,147,148,149,150,151,152,153,154,155,156,157,158,159,160]) 82 0 0 0 0 0 (-1),
   D,
   D,
   D,
   D,
   D,
   D,
   D,
   D,
   D,
   D,
   D,
   D,
   D,
   D,
   D,
   N none 129 4 0 0 0 1 2,
   D,
   D,
   D,
   D,
   D,
   D,
   D,
   D,
   D,
   D,
   D,
   D,
   D,
   D,
   D,
   N (some [177,178,179,180,181,182,183,184,185,186,187,188,189,190,191,192]) 83 0 0 0 0 0 (-1),
   D,
   D,
   D,
   D,
   D,
   D,
   D,
   D,
   D,
   D,
   D,
   D,
   D,
   D,
   D,
   N none 161 0 4 0 0 1 3,
   D,
   D,
   D,
   D,
   D,
   D,
   D,
   D,
   D,
   D,
   D,
   D,
   D,
   D,
   D,
   N (some [209,210,211,212,213,214,215,216,217,218,219,220,221,222,223,224]) 84 0 0 0 0 0 (-1),
   N (some [225,226,227,228,229,230,231,232,233,234,235,236,237,238,239,240]) 84 0 0 0 0 0 (-1),
   N (some [241,242,243,244,245,246,247,248,249,250,251,252,253,254,255,256]) 84 0 0 0 0 0 (-1),
   N (some [257,258,259,260,261,262,263,264,265,266,267,268,269,270,271,272]) 84 0 0 0 0 0 (-1),
   N (some [273,274,275,276,277,278,279,280,281,282,283,284,285,286,287,288]) 84 0 0 0 0 0 (-1),
   N (some [289,290,291,292,293,294,295,296,297,298,299,300,301,302,303,304]) 84 0 0 0 0 0 (-1),
   N (some [305,306,307,308,309,310,311,312,313,314,315,316,317,318,319,320]) 84 0 0 0 0 0 (-1),
   N (some [321,322,323,324,325,326,327,328,329,330,331,332,333,334,335,336]) 84 0 0 0 0 0 (-1),
   N (some [337,338,339,340,341,342,343,344,345,346,347,348,349,350,351,352]) 84 0 0 0 0 0 (-1),
   N (some [353,354,355,356,357,358,359,360,361,362,363,364,365,366,367,368]) 84 6 4 0 2 1 (-1),
   N (some [369,370,371,372,373,374,375,376,377,378,379,380,381,382,383,384]) 84 4 6 0 2 1 (-1),
   N (some [385,386,387,388,389,390,391,392,393,394,395,396,397,398,399,400]) 84 6 6 0 2 1 (-1),
   N (some [401,402,403,404,405,406,407,408,409,410,411,412,413,414,415,416]) 84 4 4 2 2 1 (-1),
   N (some [417,418,419,420,421,422,423,424,425,426,427,428,429,430,431,432]) 84 6 4 2 2 1 (-1),
   D,
   D,
   N none 193 4 4 0 0 1 4,
   D,
   D,
   D,
   D,
   D,
   D,
   D,
   D,
   D,
   D,
   D,
   D,
   D,
   D,
   D,
   N none 194 6 4 0 0 1 5,
   D,
   D,
   D,
   D,
   D,
   D,
   D,
   D,
   D,
   D,
   D,
   D,
   D,
   D,
   D,
   N none 195 4 6 0 0 1 6,
   D,
   D,
   D,
   D,
   D,
   D,
   D,
   D,
   D,
   D,
   D,
   D,
   D,
   D,
   D,
   N none 196 6 6 0 0 1 7,
   D,
   D,
   D,
   D,
   D,
   D,
   D,
   D,
   D,
   D,
   D,
   D,
   D,
   D,
   D,
   N none 197 4 4 2 0 1 8,
   D,
   D,
   D,
   D,
   D,
   D,
   D,
   D,
   D,
   D,
   D,
   D,
   D,
   D,
   D,
   N none 198 6 4 2 0 1 9,
   D,
   D,
   D,
   D,
   D,
   D,
   D,
   D,
   D,
   D,
   D,
   D,
   D,
   D,
   D,
   N none 199 4 6 2 0 1 10,
   D,
   D,
   D,
   D,
   D,
   D,
   D,
   D,
   D,
   D,
   D,
   D,
   D,
   D,
   D,
   N none 200 6 6 2 0 1 11,
   D,
   D,
   D,
   D,
   D,
   D,
   D,
   D,
   D,
   D,
   D,
   D,
   D,
   D,
   D,
   N none 201 4 4 0 2 1 12,
   D,
   D,
   D,
   D,
   D,
   D,
   D,
   D,
   D,
   D,
   D,
   D,
   D,
   D,
   D,
   N none 202 6 4 0 2 1 13,
   D,
   D,
   D,
   D,
   D,
   D,
   D,
   D,
   D,
   D,
   D,
   D,
   D,
   D,
   D,
   N none 203 4 6 0 2 1 14,
   D,
   D,
   D,
   D,
   D,
   D,
   D,
   D,
   D,
   D,
   D,
   D,
   D,
   D,
   D,
   N none 204 6 6 0 2 1 15,
   D,
   D,
   D,
   D,
   D,
   D,
   D,
   D,
   D,
   D,
   D,
   D,
   D,
   D,
   D,
   N none 205 4 4 2 2 1 16,
   D,
   D,
   D,
   D,
   D,
   D,
   D,
   D,
   D,
   D,
   D,
   D,
   D,
   D,
   D,
   N none 206 6 4 2 2 1 17,
   D,
   D,
   D,
   D,
   D,
   D,
   D,
   D,
   D,
   D,
   D,
   D,
   D,
   D,
   D],
 [113,114,145,177,209,225,241,257,273,289,305,321,337], [206,205,204,203,202]⟩

/-- C6 reduction state after 6 collapse steps of the first pass. -/
def c6st6 : MPSt :=
  ⟨[N (some [1,2,3,4,5,6,7,8,9,10,11,12,13,14,15,16]) 0 0 0 0 0 0 (-1),
   N (some [17,18,19,20,21,22,23,24,25,26,27,28,29,30,31,32]) 0 0 0 0 0 0 (-1),
   D,
   D,
   D,
   D,
   D,
   D,
   D,
   D,
   D,
   D,
   D,
   D,
   D,
   D,
   D,
   N (some [33,34,35,36,37,38,39,40,41,42,43,44,45,46,47,48]) 1 0 0 0 0 0 (-1),
   D,
   D,
   D,
   D,
   D,
   D,
   D,
   D,
   D,
   D,
   D,
   D,
   D,
   D,
   D,
   N (some [49,50,51,52,53,54,55,56,57,58,59,60,61,62,63,64]) 17 0 0 0 0 0 (-1),
   D,
   D,
   D,
   D,
   D,
   D,
   D,
   D,
   D,
   D,
   D,
   D,
   D,
   D,
   D,
   N (some [65,66,67,68,69,70,71,72,73,74,75,76,77,78,79,80]) 33 0 0 0 0 0 (-1),
   D,
   D,
   D,
   D,
   D,
   D,
   D,
   D,
   D,
   D,
   D,
   D,
   D,
   D,
   D,
   N (some [81,82,83,84,85,86,87,88,89,90,91,92,93,94,95,96]) 49 0 0 0 0 0 (-1),
   D,
   D,
   D,
   D,
   D,
   D,
   D,
   D,
   D,
   D,
   D,
   D,
   D,
   D,
   D,
   N (some [97,98,99,100,101,102,103,104,105,106,107,108,109,110,111,112]) 65 0 0 0 0 0 (-1),
   N (some [129,130,131,132,133,134,135,136,137,138,139,140,141,142,143,144]) 65 0 0 0 0 0 (-1),
   N (some [161,162,163,164,165,166,167,168,169,170,171,172,173,174,175,176]) 65 0 0 0 0 0 (-1),
   N (some [193,194,195,196,197,198,199,200,201,202,203,204,205,206,207,208]) 65 0 0 0 0 0 (-1),
   D,
   D,
   D,
   D,
   D,
   D,
   D,
   D,
   D,
   D,
   D,
   D,
   N (some [113,114,115,116,117,118,119,120,121,122,123,124,125,126,127,128]) 81 0 0 0 0 0 (-1),
   D,
   D,
   D,
   D,
   D,
   D,
   D,
   D,
   D,
   D,
   D,
   D,
   D,
   D,
   D,
   N none 97 0 0 0 0 1 0,
   N none 97 1 0 0 0 1 1,
   D,
   D,
   D,
   D,
   D,
   D,
   D,
   D,
   D,
   D,
   D,
   D,
   D,
   D,
   N (some [145,146,147,148,149,150,151,152,153,154,155,156,157,158,159,160]) 82 0 0 0 0 0 (-1),
   D,
   D,
   D,
   D,
   D,
   D,
   D,
   D,
   D,
   D,
   D,
   D,
   D,
   D,
   D,
   N none 129 4 0 0 0 1 2,
   D,
   D,
   D,
   D,
   D,
   D,
   D,
   D,
   D,
   D,
   D,
   D,
   D,
   D,
   D,
   N (some [177,178,179,180,181,182,183,184,185,186,187,188,189,190,191,192]) 83 0 0 0 0 0 (-1),
   D,
   D,
   D,
   D,
   D,
   D,
   D,
   D,
   D,
   D,
   D,
   D,
   D,
   D,
   D,
   N none 161 0 4 0 0 1 3,
   D,
   D,
   D,
   D,
   D,
   D,
   D,
   D,
   D,
   D,
   D,
   D,
   D,
   D,
   D,
   N (some [209,210,211,212,213,214,215,216,217,218,219,220,221,222,223,224]) 84 0 0 0 0 0 (-1),
   N (some [225,226,227,228,229,230,231,232,233,234,235,236,237,238,239,240]) 84 0 0 0 0 0 (-1),
   N (some [241,242,243,244,245,246,247,248,249,250,251,252,253,254,255,256]) 84 0 0 0 0 0 (-1),
   N (some [257,258,259,260,261,262,263,264,265,266,267,268,269,270,271,272]) 84 0 0 0 0 0 (-1),
   N (some [273,274,275,276,277,278,279,280,281,282,283,284,285,286,287,288]) 84 0 0 0 0 0 (-1),
   N (some [289,290,291,292,293,294,295,296,297,298,299,300,301,302,303,304]) 84 0 0 0 0 0 (-1),
   N (some [305,306,307,308,309,310,311,312,313,314,315,316,317,318,319,320]) 84 0 0 0 0 0 (-1),
   N (some [321,322,323,324,325,326,327,328,329,330,331,332,333,334,335,336]) 84 0 0 0 0 0 (-1),
   N (some [337,338,339,340,341,342,343,344,345,346,347,348,349,350,351,352]) 84 4 4 0 2 1 (-1),
   N (some [353,354,355,356,357,358,359,360,361,362,363,364,365,366,367,368]) 84 6 4 0 2 1 (-1),
   N (some [369,370,371,372,373,374,375,376,377,378,379,380,381,382,383,384]) 84 4 6 0 2 1 (-1),
   N (some [385,386,387,388,389,390,391,392,393,394,395,396,397,398,399,400]) 84 6 6 0 2 1 (-1),
   N (some [401,402,403,404,405,406,407,408,409,410,411,412,413,414,415,416]) 84 4 4 2 2 1 (-1),
   N (some [417,418,419,420,421,422,423,424,425,426,427,428,429,430,431,432]) 84 6 4 2 2 1 (-1),
   D,
   D,
   N none 193 4 4 0 0 1 4,
   D,
   D,
   D,
   D,
   D,
   D,
   D,
   D,
   D,
   D,
   D,
   D,
   D,
   D,
   D,
   N none 194 6 4 0 0 1 5,
   D,
   D,
   D,
   D,
   D,
   D,
   D,
   D,
   D,
   D,
   D,
   D,
   D,
   D,
   D,
   N none 195 4 6 0 0 1 6,
   D,
   D,
   D,
   D,
   D,
   D,
   D,
   D,
   D,
   D,
   D,
   D,
   D,
   D,
   D,
   N none 196 6 6 0 0 1 7,
   D,
   D,
   D,
   D,
   D,
   D,
   D,
   D,
   D,
   D,
   D,
   D,
   D,
   D,
   D,
   N none 197 4 4 2 0 1 8,
   D,
   D,
   D,
   D,
   D,
   D,
   D,
   D,
   D,
   D,
   D,
   D,
   D,
   D,
   D,
   N none 198 6 4 2 0 1 9,
   D,
   D,
   D,
   D,
   D,
   D,
   D,
   D,
   D,
   D,
   D,
   D,
   D,
   D,
   D,
   N none 199 4 6 2 0 1 10,
   D,
   D,
   D,
   D,
   D,
   D,
   D,
   D,
   D,
   D,
   D,
   D,
   D,
   D,
   D,
   N none 200 6 6 2 0 1 11,
   D,
   D,
   D,
   D,
   D,
   D,
   D,
   D,
   D,
   D,
   D,
   D,
   D,
   D,
   D,
   N none 201 4 4 0 2 1 12,
   D,
   D,
   D,
   D,
   D,
   D,
   D,
   D,
   D,
   D,
   D,
   D,
   D,
   D,
   D,
   N none 202 6 4 0 2 1 13,
   D,
   D,
   D,
   D,
   D,
   D,
   D,
   D,
   D,
   D,
   D,
   D,
   D,
   D,
   D,
   N none 203 4 6 0 2 1 14,
   D,
   D,
   D,
   D,
   D,
   D,
   D,
   D,
   D,
   D,
   D,
   D,
   D,
   D,
   D,
   N none 204 6 6 0 2 1 15,
   D,
   D,
   D,
   D,
   D,
   D,
   D,
   D,
   D,
   D,
   D,
   D,
   D,
   D,
   D,
   N none 205 4 4 2 2 1 16,
   D,
   D,
   D,
   D,
   D,
   D,
   D,
   D,
   D,
   D,
   D,
   D,
   D,
   D,
   D,
   N none 206 6 4 2 2 1 17,
   D,
   D,
   D,
   D,
   D,
   D,
   D,
   D,
   D,
   D,
   D,
   D,
   D,
   D,
   D],
 [113,114,145,177,209,225,241,257,273,289,305,321], [206,205,204,203,202,201]⟩

/-- C6 reduction state after 7 collapse steps of the first pass. -/
def c6st7 : MPSt :=
  ⟨[N (some [1,2,3,4,5,6,7,8,9,10,11,12,13,14,15,16]) 0 0 0 0 0 0 (-1),
   N (some [17,18,19,20,21,22,23,24,25,26,27,28,29,30,31,32]) 0 0 0 0 0 0 (-1),
   D,
   D,
   D,
   D,
   D,
   D,
   D,
   D,
   D,
   D,
   D,
   D,
   D,
   D,
   D,
   N (some [33,34,35,36,37,38,39,40,41,42,43,44,45,46,47,48]) 1 0 0 0 0 0 (-1),
   D,
   D,
   D,
   D,
   D,
   D,
   D,
   D,
   D,
   D,
   D,
   D,
   D,
   D,
   D,
   N (some [49,50,51,52,53,54,55,56,57,58,59,60,61,62,63,64]) 17 0 0 0 0 0 (-1),
   D,
   D,
   D,
   D,
   D,
   D,
   D,
   D,
   D,
   D,
   D,
   D,
   D,
   D,
   D,
   N (some [65,66,67,68,69,70,71,72,73,74,75,76,77,78,79,80]) 33 0 0 0 0 0 (-1),
   D,
   D,
   D,
   D,
   D,
   D,
   D,
   D,
   D,
   D,
   D,
   D,
   D,
   D,
   D,
   N (some [81,82,83,84,85,86,87,88,89,90,91,92,93,94,95,96]) 49 0 0 0 0 0 (-1),
   D,
   D,
   D,
   D,
   D,
   D,
   D,
   D,
   D,
   D,
   D,
   D,
   D,
   D,
   D,
   N (some [97,98,99,100,101,102,103,104,105,106,107,108,109,110,111,112]) 65 0 0 0 0 0 (-1),
   N (some [129,130,131,132,133,134,135,136,137,138,139,140,141,142,143,144]) 65 0 0 0 0 0 (-1),
   N (some [161,162,163,164,165,166,167,168,169,170,171,172,173,174,175,176]) 65 0 0 0 0 0 (-1),
   N (some [193,194,195,196,197,198,199,200,201,202,203,204,205,206,207,208]) 65 0 0 0 0 0 (-1),
   D,
   D,
   D,
   D,
   D,
   D,
   D,
   D,
   D,
   D,
   D,
   D,
   N (some [113,114,115,116,117,118,119,120,121,122,123,124,125,126,127,128]) 81 0 0 0 0 0 (-1),
   D,
   D,
   D,
   D,
   D,
   D,
   D,
   D,
   D,
   D,
   D,
   D,
   D,
   D,
   D,
   N none 97 0 0 0 0 1 0,
   N none 97 1 0 0 0 1 1,
   D,
   D,
   D,
   D,
   D,
   D,
   D,
   D,
   D,
   D,
   D,
   D,
   D,
   D,
   N (some [145,146,147,148,149,150,151,152,153,154,155,156,157,158,159,160]) 82 0 0 0 0 0 (-1),
   D,
   D,
   D,
   D,
   D,
   D,
   D,
   D,
   D,
   D,
   D,
   D,
   D,
   D,
   D,
   N none 129 4 0 0 0 1 2,
   D,
   D,
   D,
   D,
   D,
   D,
   D,
   D,
   D,
   D,
   D,
   D,
   D,
   D,
   D,
   N (some [177,178,179,180,181,182,183,184,185,186,187,188,189,190,191,192]) 83 0 0 0 0 0 (-1),
   D,
   D,
   D,
   D,
   D,
   D,
   D,
   D,
   D,
   D,
   D,
   D,
   D,
   D,
   D,
   N none 161 0 4 0 0 1 3,
   D,
   D,
   D,
   D,
   D,
   D,
   D,
   D,
   D,
   D,
   D,
   D,
   D,
   D,
   D,
   N (some [209,210,211,212,213,214,215,216,217,218,219,220,221,222,223,224]) 84 0 0 0 0 0 (-1),
   N (some [225,226,227,228,229,230,231,232,233,234,235,236,237,238,239,240]) 84 0 0 0 0 0 (-1),
   N (some [241,242,243,244,245,246,247,248,249,250,251,252,253,254,255,256]) 84 0 0 0 0 0 (-1),
   N (some [257,258,259,260,261,262,263,264,265,266,267,268,269,270,271,272]) 84 0 0 0 0 0 (-1),
   N (some [273,274,275,276,277,278,279,280,281,282,283,284,285,286,287,288]) 84 0 0 0 0 0 (-1),
   N (some [289,290,291,292,293,294,295,296,297,298,299,300,301,302,303,304]) 84 0 0 0 0 0 (-1),
   N (some [305,306,307,308,309,310,311,312,313,314,315,316,317,318,319,320]) 84 0 0 0 0 0 (-1),
   N (some [321,322,323,324,325,326,327,328,329,330,331,332,333,334,335,336]) 84 6 6 2 0 1 (-1),
   N (some [337,338,339,340,341,342,343,344,345,346,347,348,349,350,351,352]) 84 4 4 0 2 1 (-1),
   N (some [353,354,355,356,357,358,359,360,361,362,363,364,365,366,367,368]) 84 6 4 0 2 1 (-1),
   N (some [369,370,371,372,373,374,375,376,377,378,379,380,381,382,383,384]) 84 4 6 0 2 1 (-1),
   N (some [385,386,387,388,389,390,391,392,393,394,395,396,397,398,399,400]) 84 6 6 0 2 1 (-1),
   N (some [401,402,403,404,405,406,407,408,409,410,411,412,413,414,415,416]) 84 4 4 2 2 1 (-1),
   N (some [417,418,419,420,421,422,423,424,425,426,427,428,429,430,431,432]) 84 6 4 2 2 1 (-1),
   D,
   D,
   N none 193 4 4 0 0 1 4,
   D,
   D,
   D,
   D,
   D,
   D,
   D,
   D,
   D,
   D,
   D,
   D,
   D,
   D,
   D,
   N none 194 6 4 0 0 1 5,
   D,
   D,
   D,
   D,
   D,
   D,
   D,
   D,
   D,
   D,
   D,
   D,
   D,
   D,
   D,
   N none 195 4 6 0 0 1 6,
   D,
   D,
   D,
   D,
   D,
   D,
   D,
   D,
   D,
   D,
   D,
   D,
   D,
   D,
   D,
   N none 196 6 6 0 0 1 7,
   D,
   D,
   D,
   D,
   D,
   D,
   D,
   D,
   D,
   D,
   D,
   D,
   D,
   D,
   D,
   N none 197 4 4 2 0 1 8,
   D,
   D,
   D,
   D,
   D,
   D,
   D,
   D,
   D,
   D,
   D,
   D,
   D,
   D,
   D,
   N none 198 6 4 2 0 1 9,
   D,
   D,
   D,
   D,
   D,
   D,
   D,
   D,
   D,
   D,
   D,
   D,
   D,
   D,
   D,
   N none 199 4 6 2 0 1 10,
   D,
   D,
   D,
   D,
   D,
   D,
   D,
   D,
   D,
   D,
   D,
   D,
   D,
   D,
   D,
   N none 200 6 6 2 0 1 11,
   D,
   D,
   D,
   D,
   D,
   D,
   D,
   D,
   D,
   D,
   D,
   D,
   D,
   D,
   D,
   N none 201 4 4 0 2 1 12,
   D,
   D,
   D,
   D,
   D,
   D,
   D,
   D,
   D,
   D,
   D,
   D,
   D,
   D,
   D,
   N none 202 6 4 0 2 1 13,
   D,
   D,
   D,
   D,
   D,
   D,
   D,
   D,
   D,
   D,
   D,
   D,
   D,
   D,
   D,
   N none 203 4 6 0 2 1 14,
   D,
   D,
   D,
   D,
   D,
   D,
   D,
   D,
   D,
   D,
   D,
   D,
   D,
   D,
   D,
   N none 204 6 6 0 2 1 15,
   D,
   D,
   D,
   D,
   D,
   D,
   D,
   D,
   D,
   D,
   D,
   D,
   D,
   D,
   D,
   N none 205 4 4 2 2 1 16,
   D,
   D,
   D,
   D,
   D,
   D,
   D,
   D,
   D,
   D,
   D,
   D,
   D,
   D,
   D,
   N none 206 6 4 2 2 1 17,
   D,
   D,
   D,
   D,
   D,
   D,
   D,
   D,
   D,
   D,
   D,
   D,
   D,
   D,
   D],
 [113,114,145,177,209,225,241,257,273,289,305], [206,205,204,203,202,201,200]⟩

/-- C6 reduction state after 8 collapse steps of the first pass. -/
def c6st8 : MPSt :=
  ⟨[N (some [1,2,3,4,5,6,7,8,9,10,11,12,13,14,15,16]) 0 0 0 0 0 0 (-1),
   N (some [17,18,19,20,21,22,23,24,25,26,27,28,29,30,31,32]) 0 0 0 0 0 0 (-1),
   D,
   D,
   D,
   D,
   D,
   D,
   D,
   D,
   D,
   D,
   D,
   D,
   D,
   D,
   D,
   N (some [33,34,35,36,37,38,39,40,41,42,43,44,45,46,47,48]) 1 0 0 0 0 0 (-1),
   D,
   D,
   D,
   D,
   D,
   D,
   D,
   D,
   D,
   D,
   D,
   D,
   D,
   D,
   D,
   N (some [49,50,51,52,53,54,55,56,57,58,59,60,61,62,63,64]) 17 0 0 0 0 0 (-1),
   D,
   D,
   D,
   D,
   D,
   D,
   D,
   D,
   D,
   D,
   D,
   D,
   D,
   D,
   D,
   N (some [65,66,67,68,69,70,71,72,73,74,75,76,77,78,79,80]) 33 0 0 0 0 0 (-1),
   D,
   D,
   D,
   D,
   D,
   D,
   D,
   D,
   D,
   D,
   D,
   D,
   D,
   D,
   D,
   N (some [81,82,83,84,85,86,87,88,89,90,91,92,93,94,95,96]) 49 0 0 0 0 0 (-1),
   D,
   D,
   D,
   D,
   D,
   D,
   D,
   D,
   D,
   D,
   D,
   D,
   D,
   D,
   D,
   N (some [97,98,99,100,101,102,103,104,105,106,107,108,109,110,111,112]) 65 0 0 0 0 0 (-1),
   N (some [129,130,131,132,133,134,135,136,137,138,139,140,141,142,143,144]) 65 0 0 0 0 0 (-1),
   N (some [161,162,163,164,165,166,167,168,169,170,171,172,173,174,175,176]) 65 0 0 0 0 0 (-1),
   N (some [193,194,195,196,197,198,199,200,201,202,203,204,205,206,207,208]) 65 0 0 0 0 0 (-1),
   D,
   D,
   D,
   D,
   D,
   D,
   D,
   D,
   D,
   D,
   D,
   D,
   N (some [113,114,115,116,117,118,119,120,121,122,123,124,125,126,127,128]) 81 0 0 0 0 0 (-1),
   D,
   D,
   D,
   D,
   D,
   D,
   D,
   D,
   D,
   D,
   D,
   D,
   D,
   D,
   D,
   N none 97 0 0 0 0 1 0,
   N none 97 1 0 0 0 1 1,
   D,
   D,
   D,
   D,
   D,
   D,
   D,
   D,
   D,
   D,
   D,
   D,
   D,
   D,
   N (some [145,146,147,148,149,150,151,152,153,154,155,156,157,158,159,160]) 82 0 0 0 0 0 (-1),
   D,
   D,
   D,
   D,
   D,
   D,
   D,
   D,
   D,
   D,
   D,
   D,
   D,
   D,
   D,
   N none 129 4 0 0 0 1 2,
   D,
   D,
   D,
   D,
   D,
   D,
   D,
   D,
   D,
   D,
   D,
   D,
   D,
   D,
   D,
   N (some [177,178,179,180,181,182,183,184,185,186,187,188,189,190,191,192]) 83 0 0 0 0 0 (-1),
   D,
   D,
   D,
   D,
   D,
   D,
   D,
   D,
   D,
   D,
   D,
   D,
   D,
   D,
   D,
   N none 161 0 4 0 0 1 3,
   D,
   D,
   D,
   D,
   D,
   D,
   D,
   D,
   D,
   D,
   D,
   D,
   D,
   D,
   D,
   N (some [209,210,211,212,213,214,215,216,217,218,219,220,221,222,223,224]) 84 0 0 0 0 0 (-1),
   N (some [225,226,227,228,229,230,231,232,233,234,235,236,237,238,239,240]) 84 0 0 0 0 0 (-1),
   N (some [241,242,243,244,245,246,247,248,249,250,251,252,253,254,255,256]) 84 0 0 0 0 0 (-1),
   N (some [257,258,259,260,261,262,263,264,265,266,267,268,269,270,271,272]) 84 0 0 0 0 0 (-1),
   N (some [273,274,275,276,277,278,279,280,281,282,283,284,285,286,287,288]) 84 0 0 0 0 0 (-1),
   N (some [289,290,291,292,293,294,295,296,297,298,299,300,301,302,303,304]) 84 0 0 0 0 0 (-1),
   N (some [305,306,307,308,309,310,311,312,313,314,315,316,317,318,319,320]) 84 4 6 2 0 1 (-1),
   N (some [321,322,323,324,325,326,327,328,329,330,331,332,333,334,335,336]) 84 6 6 2 0 1 (-1),
   N (some [337,338,339,340,341,342,343,344,345,346,347,348,349,350,351,352]) 84 4 4 0 2 1 (-1),
   N (some [353,354,355,356,357,358,359,360,361,362,363,364,365,366,367,368]) 84 6 4 0 2 1 (-1),
   N (some [369,370,371,372,373,374,375,376,377,378,379,380,381,382,383,384]) 84 4 6 0 2 1 (-1),
   N (some [385,386,387,388,389,390,391,392,393,394,395,396,397,398,399,400]) 84 6 6 0 2 1 (-1),
   N (some [401,402,403,404,405,406,407,408,409,410,411,412,413,414,415,416]) 84 4 4 2 2 1 (-1),
   N (some [417,418,419,420,421,422,423,424,425,426,427,428,429,430,431,432]) 84 6 4 2 2 1 (-1),
   D,
   D,
   N none 193 4 4 0 0 1 4,
   D,
   D,
   D,
   D,
   D,
   D,
   D,
   D,
   D,
   D,
   D,
   D,
   D,
   D,
   D,
   N none 194 6 4 0 0 1 5,
   D,
   D,
   D,
   D,
   D,
   D,
   D,
   D,
   D,
   D,
   D,
   D,
   D,
   D,
   D,
   N none 195 4 6 0 0 1 6,
   D,
   D,
   D,
   D,
   D,
   D,
   D,
   D,
   D,
   D,
   D,
   D,
   D,
   D,
   D,
   N none 196 6 6 0 0 1 7,
   D,
   D,
   D,
   D,
   D,
   D,
   D,
   D,
   D,
   D,
   D,
   D,
   D,
   D,
   D,
   N none 197 4 4 2 0 1 8,
   D,
   D,
   D,
   D,
   D,
   D,
   D,
   D,
   D,
   D,
   D,
   D,
   D,
   D,
   D,
   N none 198 6 4 2 0 1 9,
   D,
   D,
   D,
   D,
   D,
   D,
   D,
   D,
   D,
   D,
   D,
   D,
   D,
   D,
   D,
   N none 199 4 6 2 0 1 10,
   D,
   D,
   D,
   D,
   D,
   D,
   D,
   D,
   D,
   D,
   D,
   D,
   D,
   D,
   D,
   N none 200 6 6 2 0 1 11,
   D,
   D,
   D,
   D,
   D,
   D,
   D,
   D,
   D,
   D,
   D,
   D,
   D,
   D,
   D,
   N none 201 4 4 0 2 1 12,
   D,
   D,
   D,
   D,
   D,
   D,
   D,
   D,
   D,
   D,
   D,
   D,
   D,
   D,
   D,
   N none 202 6 4 0 2 1 13,
   D,
   D,
   D,
   D,
   D,
   D,
   D,
   D,
   D,
   D,
   D,
   D,
   D,
   D,
   D,
   N none 203 4 6 0 2 1 14,
   D,
   D,
   D,
   D,
   D,
   D,
   D,
   D,
   D,
   D,
   D,
   D,
   D,
   D,
   D,
   N none 204 6 6 0 2 1 15,
   D,
   D,
   D,
   D,
   D,
   D,
   D,
   D,
   D,
   D,
   D,
   D,
   D,
   D,
   D,
   N none 205 4 4 2 2 1 16,
   D,
   D,
   D,
   D,
   D,
   D,
   D,
   D,
   D,
   D,
   D,
   D,
   D,
   D,
   D,
   N none 206 6 4 2 2 1 17,
   D,
   D,
   D,
   D,
   D,
   D,
   D,
   D,
   D,
   D,
   D,
   D,
   D,
   D,
   D],
 [113,114,145,177,209,225,241,257,273,289], [206,205,204,203,202,201,200,199]⟩

/-- C6 reduction state after 9 collapse steps of the first pass. -/
def c6st9 : MPSt :=
  ⟨[N (some [1,2,3,4,5,6,7,8,9,10,11,12,13,14,15,16]) 0 0 0 0 0 0 (-1),
   N (some [17,18,19,20,21,22,23,24,25,26,27,28,29,30,31,32]) 0 0 0 0 0 0 (-1),
   D,
   D,
   D,
   D,
   D,
   D,
   D,
   D,
   D,
   D,
   D,
   D,
   D,
   D,
   D,
   N (some [33,34,35,36,37,38,39,40,41,42,43,44,45,46,47,48]) 1 0 0 0 0 0 (-1),
   D,
   D,
   D,
   D,
   D,
   D,
   D,
   D,
   D,
   D,
   D,
   D,
   D,
   D,
   D,
   N (some [49,50,51,52,53,54,55,56,57,58,59,60,61,62,63,64]) 17 0 0 0 0 0 (-1),
   D,
   D,
   D,
   D,
   D,
   D,
   D,
   D,
   D,
   D,
   D,
   D,
   D,
   D,
   D,
   N (some [65,66,67,68,69,70,71,72,73,74,75,76,77,78,79,80]) 33 0 0 0 0 0 (-1),
   D,
   D,
   D,
   D,
   D,
   D,
   D,
   D,
   D,
   D,
   D,
   D,
   D,
   D,
   D,
   N (some [81,82,83,84,85,86,87,88,89,90,91,92,93,94,95,96]) 49 0 0 0 0 0 (-1),
   D,
   D,
   D,
   D,
   D,
   D,
   D,
   D,
   D,
   D,
   D,
   D,
   D,
   D,
   D,
   N (some [97,98,99,100,101,102,103,104,105,106,107,108,109,110,111,112]) 65 0 0 0 0 0 (-1),
   N (some [129,130,131,132,133,134,135,136,137,138,139,140,141,142,143,144]) 65 0 0 0 0 0 (-1),
   N (some [161,162,163,164,165,166,167,168,169,170,171,172,173,174,175,176]) 65 0 0 0 0 0 (-1),
   N (some [193,194,195,196,197,198,199,200,201,202,203,204,205,206,207,208]) 65 0 0 0 0 0 (-1),
   D,
   D,
   D,
   D,
   D,
   D,
   D,
   D,
   D,
   D,
   D,
   D,
   N (some [113,114,115,116,117,118,119,120,121,122,123,124,125,126,127,128]) 81 0 0 0 0 0 (-1),
   D,
   D,
   D,
   D,
   D,
   D,
   D,
   D,
   D,
   D,
   D,
   D,
   D,
   D,
   D,
   N none 97 0 0 0 0 1 0,
   N none 97 1 0 0 0 1 1,
   D,
   D,
   D,
   D,
   D,
   D,
   D,
   D,
   D,
   D,
   D,
   D,
   D,
   D,
   N (some [145,146,147,148,149,150,151,152,153,154,155,156,157,158,159,160]) 82 0 0 0 0 0 (-1),
   D,
   D,
   D,
   D,
   D,
   D,
   D,
   D,
   D,
   D,
   D,
   D,
   D,
   D,
   D,
   N none 129 4 0 0 0 1 2,
   D,
   D,
   D,
   D,
   D,
   D,
   D,
   D,
   D,
   D,
   D,
   D,
   D,
   D,
   D,
   N (some [177,178,179,180,181,182,183,184,185,186,187,188,189,190,191,192]) 83 0 0 0 0 0 (-1),
   D,
   D,
   D,
   D,
   D,
   D,
   D,
   D,
   D,
   D,
   D,
   D,
   D,
   D,
   D,
   N none 161 0 4 0 0 1 3,
   D,
   D,
   D,
   D,
   D,
   D,
   D,
   D,
   D,
   D,
   D,
   D,
   D,
   D,
   D,
   N (some [209,210,211,212,213,214,215,216,217,218,219,220,221,222,223,224]) 84 0 0 0 0 0 (-1),
   N (some [225,226,227,228,229,230,231,232,233,234,235,236,237,238,239,240]) 84 0 0 0 0 0 (-1),
   N (some [241,242,243,244,245,246,247,248,249,250,251,252,253,254,255,256]) 84 0 0 0 0 0 (-1),
   N (some [257,258,259,260,261,262,263,264,265,266,267,268,269,270,271,272]) 84 0 0 0 0 0 (-1),
   N (some [273,274,275,276,277,278,279,280,281,282,283,284,285,286,287,288]) 84 0 0 0 0 0 (-1),
   N (some [289,290,291,292,293,294,295,296,297,298,299,300,301,302,303,304]) 84 6 4 2 0 1 (-1),
   N (some [305,306,307,308,309,310,311,312,313,314,315,316,317,318,319,320]) 84 4 6 2 0 1 (-1),
   N (some [321,322,323,324,325,326,327,328,329,330,331,332,333,334,335,336]) 84 6 6 2 0 1 (-1),
   N (some [337,338,339,340,341,342,343,344,345,346,347,348,349,350,351,352]) 84 4 4 0 2 1 (-1),
   N (some [353,354,355,356,357,358,359,360,361,362,363,364,365,366,367,368]) 84 6 4 0 2 1 (-1),
   N (some [369,370,371,372,373,374,375,376,377,378,379,380,381,382,383,384]) 84 4 6 0 2 1 (-1),
   N (some [385,386,387,388,389,390,391,392,393,394,395,396,397,398,399,400]) 84 6 6 0 2 1 (-1),
   N (some [401,402,403,404,405,406,407,408,409,410,411,412,413,414,415,416]) 84 4 4 2 2 1 (-1),
   N (some [417,418,419,420,421,422,423,424,425,426,427,428,429,430,431,432]) 84 6 4 2 2 1 (-1),
   D,
   D,
   N none 193 4 4 0 0 1 4,
   D,
   D,
   D,
   D,
   D,
   D,
   D,
   D,
   D,
   D,
   D,
   D,
   D,
   D,
   D,
   N none 194 6 4 0 0 1 5,
   D,
   D,
   D,
   D,
   D,
   D,
   D,
   D,
   D,
   D,
   D,
   D,
   D,
   D,
   D,
   N none 195 4 6 0 0 1 6,
   D,
   D,
   D,
   D,
   D,
   D,
   D,
   D,
   D,
   D,
   D,
   D,
   D,
   D,
   D,
   N none 196 6 6 0 0 1 7,
   D,
   D,
   D,
   D,
   D,
   D,
   D,
   D,
   D,
   D,
   D,
   D,
   D,
   D,
   D,
   N none 197 4 4 2 0 1 8,
   D,
   D,
   D,
   D,
   D,
   D,
   D,
   D,
   D,
   D,
   D,
   D,
   D,
   D,
   D,
   N none 198 6 4 2 0 1 9,
   D,
   D,
   D,
   D,
   D,
   D,
   D,
   D,
   D,
   D,
   D,
   D,
   D,
   D,
   D,
   N none 199 4 6 2 0 1 10,
   D,
   D,
   D,
   D,
   D,
   D,
   D,
   D,
   D,
   D,
   D,
   D,
   D,
   D,
   D,
   N none 200 6 6 2 0 1 11,
   D,
   D,
   D,
   D,
   D,
   D,
   D,
   D,
   D,
   D,
   D,
   D,
   D,
   D,
   D,
   N none 201 4 4 0 2 1 12,
   D,
   D,
   D,
   D,
   D,
   D,
   D,
   D,
   D,
   D,
   D,
   D,
   D,
   D,
   D,
   N none 202 6 4 0 2 1 13,
   D,
   D,
   D,
   D,
   D,
   D,
   D,
   D,
   D,
   D,
   D,
   D,
   D,
   D,
   D,
   N none 203 4 6 0 2 1 14,
   D,
   D,
   D,
   D,
   D,
   D,
   D,
   D,
   D,
   D,
   D,
   D,
   D,
   D,
   D,
   N none 204 6 6 0 2 1 15,
   D,
   D,
   D,
   D,
   D,
   D,
   D,
   D,
   D,
   D,
   D,
   D,
   D,
   D,
   D,
   N none 205 4 4 2 2 1 16,
   D,
   D,
   D,
   D,
   D,
   D,
   D,
   D,
   D,
   D,
   D,
   D,
   D,
   D,
   D,
   N none 206 6 4 2 2 1 17,
   D,
   D,
   D,
   D,
   D,
   D,
   D,
   D,
   D,
   D,
   D,
   D,
   D,
   D,
   D],
 [113,114,145,177,209,225,241,257,273], [206,205,204,203,202,201,200,199,198]⟩

/-- C6 reduction state after 10 collapse steps of the first pass. -/
def c6st10 : MPSt :=
  ⟨[N (some [1,2,3,4,5,6,7,8,9,10,11,12,13,14,15,16]) 0 0 0 0 0 0 (-1),
   N (some [17,18,19,20,21,22,23,24,25,26,27,28,29,30,31,32]) 0 0 0 0 0 0 (-1),
   D,
   D,
   D,
   D,
   D,
   D,
   D,
   D,
   D,
   D,
   D,
   D,
   D,
   D,
   D,
   N (some [33,34,35,36,37,38,39,40,41,42,43,44,45,46,47,48]) 1 0 0 0 0 0 (-1),
   D,
   D,
   D,
   D,
   D,
   D,
   D,
   D,
   D,
   D,
   D,
   D,
   D,
   D,
   D,
   N (some [49,50,51,52,53,54,55,56,57,58,59,60,61,62,63,64]) 17 0 0 0 0 0 (-1),
   D,
   D,
   D,
   D,
   D,
   D,
   D,
   D,
   D,
   D,
   D,
   D,
   D,
   D,
   D,
   N (some [65,66,67,68,69,70,71,72,73,74,75,76,77,78,79,80]) 33 0 0 0 0 0 (-1),
   D,
   D,
   D,
   D,
   D,
   D,
   D,
   D,
   D,
   D,
   D,
   D,
   D,
   D,
   D,
   N (some [81,82,83,84,85,86,87,88,89,90,91,92,93,94,95,96]) 49 0 0 0 0 0 (-1),
   D,
   D,
   D,
   D,
   D,
   D,
   D,
   D,
   D,
   D,
   D,
   D,
   D,
   D,
   D,
   N (some [97,98,99,100,101,102,103,104,105,106,107,108,109,110,111,112]) 65 0 0 0 0 0 (-1),
   N (some [129,130,131,132,133,134,135,136,137,138,139,140,141,142,143,144]) 65 0 0 0 0 0 (-1),
   N (some [161,162,163,164,165,166,167,168,169,170,171,172,173,174,175,176]) 65 0 0 0 0 0 (-1),
   N (some [193,194,195,196,197,198,199,200,201,202,203,204,205,206,207,208]) 65 0 0 0 0 0 (-1),
   D,
   D,
   D,
   D,
   D,
   D,
   D,
   D,
   D,
   D,
   D,
   D,
   N (some [113,114,115,116,117,118,119,120,121,122,123,124,125,126,127,128]) 81 0 0 0 0 0 (-1),
   D,
   D,
   D,
   D,
   D,
   D,
   D,
   D,
   D,
   D,
   D,
   D,
   D,
   D,
   D,
   N none 97 0 0 0 0 1 0,
   N none 97 1 0 0 0 1 1,
   D,
   D,
   D,
   D,
   D,
   D,
   D,
   D,
   D,
   D,
   D,
   D,
   D,
   D,
   N (some [145,146,147,148,149,150,151,152,153,154,155,156,157,158,159,160]) 82 0 0 0 0 0 (-1),
   D,
   D,
   D,
   D,
   D,
   D,
   D,
   D,
   D,
   D,
   D,
   D,
   D,
   D,
   D,
   N none 129 4 0 0 0 1 2,
   D,
   D,
   D,
   D,
   D,
   D,
   D,
   D,
   D,
   D,
   D,
   D,
   D,
   D,
   D,
   N (some [177,178,179,180,181,182,183,184,185,186,187,188,189,190,191,192]) 83 0 0 0 0 0 (-1),
   D,
   D,
   D,
   D,
   D,
   D,
   D,
   D,
   D,
   D,
   D,
   D,
   D,
   D,
   D,
   N none 161 0 4 0 0 1 3,
   D,
   D,
   D,
   D,
   D,
   D,
   D,
   D,
   D,
   D,
   D,
   D,
   D,
   D,
   D,
   N (some [209,210,211,212,213,214,215,216,217,218,219,220,221,222,223,224]) 84 0 0 0 0 0 (-1),
   N (some [225,226,227,228,229,230,231,232,233,234,235,236,237,238,239,240]) 84 0 0 0 0 0 (-1),
   N (some [241,242,243,244,245,246,247,248,249,250,251,252,253,254,255,256]) 84 0 0 0 0 0 (-1),
   N (some [257,258,259,260,261,262,263,264,265,266,267,268,269,270,271,272]) 84 0 0 0 0 0 (-1),
   N (some [273,274,275,276,277,278,279,280,281,282,283,284,285,286,287,288]) 84 4 4 2 0 1 (-1),
   N (some [289,290,291,292,293,294,295,296,297,298,299,300,301,302,303,304]) 84 6 4 2 0 1 (-1),
   N (some [305,306,307,308,309,310,311,312,313,314,315,316,317,318,319,320]) 84 4 6 2 0 1 (-1),
   N (some [321,322,323,324,325,326,327,328,329,330,331,332,333,334,335,336]) 84 6 6 2 0 1 (-1),
   N (some [337,338,339,340,341,342,343,344,345,346,347,348,349,350,351,352]) 84 4 4 0 2 1 (-1),
   N (some [353,354,355,356,357,358,359,360,361,362,363,364,365,366,367,368]) 84 6 4 0 2 1 (-1),
   N (some [369,370,371,372,373,374,375,376,377,378,379,380,381,382,383,384]) 84 4 6 0 2 1 (-1),
   N (some [385,386,387,388,389,390,391,392,393,394,395,396,397,398,399,400]) 84 6 6 0 2 1 (-1),
   N (some [401,402,403,404,405,406,407,408,409,410,411,412,413,414,415,416]) 84 4 4 2 2 1 (-1),
   N (some [417,418,419,420,421,422,423,424,425,426,427,428,429,430,431,432]) 84 6 4 2 2 1 (-1),
   D,
   D,
   N none 193 4 4 0 0 1 4,
   D,
   D,
   D,
   D,
   D,
   D,
   D,
   D,
   D,
   D,
   D,
   D,
   D,
   D,
   D,
   N none 194 6 4 0 0 1 5,
   D,
   D,
   D,
   D,
   D,
   D,
   D,
   D,
   D,
   D,
   D,
   D,
   D,
   D,
   D,
   N none 195 4 6 0 0 1 6,
   D,
   D,
   D,
   D,
   D,
   D,
   D,
   D,
   D,
   D,
   D,
   D,
   D,
   D,
   D,
   N none 196 6 6 0 0 1 7,
   D,
   D,
   D,
   D,
   D,
   D,
   D,
   D,
   D,
   D,
   D,
   D,
   D,
   D,
   D,
   N none 197 4 4 2 0 1 8,
   D,
   D,
   D,
   D,
   D,
   D,
   D,
   D,
   D,
   D,
   D,
   D,
   D,
   D,
   D,
   N none 198 6 4 2 0 1 9,
   D,
   D,
   D,
   D,
   D,
   D,
   D,
   D,
   D,
   D,
   D,
   D,
   D,
   D,
   D,
   N none 199 4 6 2 0 1 10,
   D,
   D,
   D,
   D,
   D,
   D,
   D,
   D,
   D,
   D,
   D,
   D,
   D,
   D,
   D,
   N none 200 6 6 2 0 1 11,
   D,
   D,
   D,
   D,
   D,
   D,
   D,
   D,
   D,
   D,
   D,
   D,
   D,
   D,
   D,
   N none 201 4 4 0 2 1 12,
   D,
   D,
   D,
   D,
   D,
   D,
   D,
   D,
   D,
   D,
   D,
   D,
   D,
   D,
   D,
   N none 202 6 4 0 2 1 13,
   D,
   D,
   D,
   D,
   D,
   D,
   D,
   D,
   D,
   D,
   D,
   D,
   D,
   D,
   D,
   N none 203 4 6 0 2 1 14,
   D,
   D,
   D,
   D,
   D,
   D,
   D,
   D,
   D,
   D,
   D,
   D,
   D,
   D,
   D,
   N none 204 6 6 0 2 1 15,
   D,
   D,
   D,
   D,
   D,
   D,
   D,
   D,
   D,
   D,
   D,
   D,
   D,
   D,
   D,
   N none 205 4 4 2 2 1 16,
   D,
   D,
   D,
   D,
   D,
   D,
   D,
   D,
   D,
   D,
   D,
   D,
   D,
   D,
   D,
   N none 206 6 4 2 2 1 17,
   D,
   D,
   D,
   D,
   D,
   D,
   D,
   D,
   D,
   D,
   D,
   D,
   D,
   D,
   D],
 [113,114,145,177,209,225,241,257], [206,205,204,203,202,201,200,199,198,197]⟩

/-- C6 reduction state after 11 collapse steps of the first pass. -/
def c6st11 : MPSt :=
  ⟨[N (some [1,2,3,4,5,6,7,8,9,10,11,12,13,14,15,16]) 0 0 0 0 0 0 (-1),
   N (some [17,18,19,20,21,22,23,24,25,26,27,28,29,30,31,32]) 0 0 0 0 0 0 (-1),
   D,
   D,
   D,
   D,
   D,
   D,
   D,
   D,
   D,
   D,
   D,
   D,
   D,
   D,
   D,
   N (some [33,34,35,36,37,38,39,40,41,42,43,44,45,46,47,48]) 1 0 0 0 0 0 (-1),
   D,
   D,
   D,
   D,
   D,
   D,
   D,
   D,
   D,
   D,
   D,
   D,
   D,
   D,
   D,
   N (some [49,50,51,52,53,54,55,56,57,58,59,60,61,62,63,64]) 17 0 0 0 0 0 (-1),
   D,
   D,
   D,
   D,
   D,
   D,
   D,
   D,
   D,
   D,
   D,
   D,
   D,
   D,
   D,
   N (some [65,66,67,68,69,70,71,72,73,74,75,76,77,78,79,80]) 33 0 0 0 0 0 (-1),
   D,
   D,
   D,
   D,
   D,
   D,
   D,
   D,
   D,
   D,
   D,
   D,
   D,
   D,
   D,
   N (some [81,82,83,84,85,86,87,88,89,90,91,92,93,94,95,96]) 49 0 0 0 0 0 (-1),
   D,
   D,
   D,
   D,
   D,
   D,
   D,
   D,
   D,
   D,
   D,
   D,
   D,
   D,
   D,
   N (some [97,98,99,100,101,102,103,104,105,106,107,108,109,110,111,112]) 65 0 0 0 0 0 (-1),
   N (some [129,130,131,132,133,134,135,136,137,138,139,140,141,142,143,144]) 65 0 0 0 0 0 (-1),
   N (some [161,162,163,164,165,166,167,168,169,170,171,172,173,174,175,176]) 65 0 0 0 0 0 (-1),
   N (some [193,194,195,196,197,198,199,200,201,202,203,204,205,206,207,208]) 65 0 0 0 0 0 (-1),
   D,
   D,
   D,
   D,
   D,
   D,
   D,
   D,
   D,
   D,
   D,
   D,
   N (some [113,114,115,116,117,118,119,120,121,122,123,124,125,126,127,128]) 81 0 0 0 0 0 (-1),
   D,
   D,
   D,
   D,
   D,
   D,
   D,
   D,
   D,
   D,
   D,
   D,
   D,
   D,
   D,
   N none 97 0 0 0 0 1 0,
   N none 97 1 0 0 0 1 1,
   D,
   D,
   D,
   D,
   D,
   D,
   D,
   D,
   D,
   D,
   D,
   D,
   D,
   D,
   N (some [145,146,147,148,149,150,151,152,153,154,155,156,157,158,159,160]) 82 0 0 0 0 0 (-1),
   D,
   D,
   D,
   D,
   D,
   D,
   D,
   D,
   D,
   D,
   D,
   D,
   D,
   D,
   D,
   N none 129 4 0 0 0 1 2,
   D,
   D,
   D,
   D,
   D,
   D,
   D,
   D,
   D,
   D,
   D,
   D,
   D,
   D,
   D,
   N (some [177,178,179,180,181,182,183,184,185,186,187,188,189,190,191,192]) 83 0 0 0 0 0 (-1),
   D,
   D,
   D,
   D,
   D,
   D,
   D,
   D,
   D,
   D,
   D,
   D,
   D,
   D,
   D,
   N none 161 0 4 0 0 1 3,
   D,
   D,
   D,
   D,
   D,
   D,
   D,
   D,
   D,
   D,
   D,
   D,
   D,
   D,
   D,
   N (some [209,210,211,212,213,214,215,216,217,218,219,220,221,222,223,224]) 84 0 0 0 0 0 (-1),
   N (some [225,226,227,228,229,230,231,232,233,234,235,236,237,238,239,240]) 84 0 0 0 0 0 (-1),
   N (some [241,242,243,244,245,246,247,248,249,250,251,252,253,254,255,256]) 84 0 0 0 0 0 (-1),
   N (some [257,258,259,260,261,262,263,264,265,266,267,268,269,270,271,272]) 84 6 6 0 0 1 (-1),
   N (some [273,274,275,276,277,278,279,280,281,282,283,284,285,286,287,288]) 84 4 4 2 0 1 (-1),
   N (some [289,290,291,292,293,294,295,296,297,298,299,300,301,302,303,304]) 84 6 4 2 0 1 (-1),
   N (some [305,306,307,308,309,310,311,312,313,314,315,316,317,318,319,320]) 84 4 6 2 0 1 (-1),
   N (some [321,322,323,324,325,326,327,328,329,330,331,332,333,334,335,336]) 84 6 6 2 0 1 (-1),
   N (some [337,338,339,340,341,342,343,344,345,346,347,348,349,350,351,352]) 84 4 4 0 2 1 (-1),
   N (some [353,354,355,356,357,358,359,360,361,362,363,364,365,366,367,368]) 84 6 4 0 2 1 (-1),
   N (some [369,370,371,372,373,374,375,376,377,378,379,380,381,382,383,384]) 84 4 6 0 2 1 (-1),
   N (some [385,386,387,388,389,390,391,392,393,394,395,396,397,398,399,400]) 84 6 6 0 2 1 (-1),
   N (some [401,402,403,404,405,406,407,408,409,410,411,412,413,414,415,416]) 84 4 4 2 2 1 (-1),
   N (some [417,418,419,420,421,422,423,424,425,426,427,428,429,430,431,432]) 84 6 4 2 2 1 (-1),
   D,
   D,
   N none 193 4 4 0 0 1 4,
   D,
   D,
   D,
   D,
   D,
   D,
   D,
   D,
   D,
   D,
   D,
   D,
   D,
   D,
   D,
   N none 194 6 4 0 0 1 5,
   D,
   D,
   D,
   D,
   D,
   D,
   D,
   D,
   D,
   D,
   D,
   D,
   D,
   D,
   D,
   N none 195 4 6 0 0 1 6,
   D,
   D,
   D,
   D,
   D,
   D,
   D,
   D,
   D,
   D,
   D,
   D,
   D,
   D,
   D,
   N none 196 6 6 0 0 1 7,
   D,
   D,
   D,
   D,
   D,
   D,
   D,
   D,
   D,
   D,
   D,
   D,
   D,
   D,
   D,
   N none 197 4 4 2 0 1 8,
   D,
   D,
   D,
   D,
   D,
   D,
   D,
   D,
   D,
   D,
   D,
   D,
   D,
   D,
   D,
   N none 198 6 4 2 0 1 9,
   D,
   D,
   D,
   D,
   D,
   D,
   D,
   D,
   D,
   D,
   D,
   D,
   D,
   D,
   D,
   N none 199 4 6 2 0 1 10,
   D,
   D,
   D,
   D,
   D,
   D,
   D,
   D,
   D,
   D,
   D,
   D,
   D,
   D,
   D,
   N none 200 6 6 2 0 1 11,
   D,
   D,
   D,
   D,
   D,
   D,
   D,
   D,
   D,
   D,
   D,
   D,
   D,
   D,
   D,
   N none 201 4 4 0 2 1 12,
   D,
   D,
   D,
   D,
   D,
   D,
   D,
   D,
   D,
   D,
   D,
   D,
   D,
   D,
   D,
   N none 202 6 4 0 2 1 13,
   D,
   D,
   D,
   D,
   D,
   D,
   D,
   D,
   D,
   D,
   D,
   D,
   D,
   D,
   D,
   N none 203 4 6 0 2 1 14,
   D,
   D,
   D,
   D,
   D,
   D,
   D,
   D,
   D,
   D,
   D,
   D,
   D,
   D,
   D,
   N none 204 6 6 0 2 1 15,
   D,
   D,
   D,
   D,
   D,
   D,
   D,
   D,
   D,
   D,
   D,
   D,
   D,
   D,
   D,
   N none 205 4 4 2 2 1 16,
   D,
   D,
   D,
   D,
   D,
   D,
   D,
   D,
   D,
   D,
   D,
   D,
   D,
   D,
   D,
   N none 206 6 4 2 2 1 17,
   D,
   D,
   D,
   D,
   D,
   D,
   D,
   D,
   D,
   D,
   D,
   D,
   D,
   D,
   D],
 [113,114,145,177,209,225,241], [206,205,204,203,202,201,200,199,198,197,196]⟩

/-- C6 reduction state after 12 collapse steps of the first pass. -/
def c6st12 : MPSt :=
  ⟨[N (some [1,2,3,4,5,6,7,8,9,10,11,12,13,14,15,16]) 0 0 0 0 0 0 (-1),
   N (some [17,18,19,20,21,22,23,24,25,26,27,28,29,30,31,32]) 0 0 0 0 0 0 (-1),
   D,
   D,
   D,
   D,
   D,
   D,
   D,
   D,
   D,
   D,
   D,
   D,
   D,
   D,
   D,
   N (some [33,34,35,36,37,38,39,40,41,42,43,44,45,46,47,48]) 1 0 0 0 0 0 (-1),
   D,
   D,
   D,
   D,
   D,
   D,
   D,
   D,
   D,
   D,
   D,
   D,
   D,
   D,
   D,
   N (some [49,50,51,52,53,54,55,56,57,58,59,60,61,62,63,64]) 17 0 0 0 0 0 (-1),
   D,
   D,
   D,
   D,
   D,
   D,
   D,
   D,
   D,
   D,
   D,
   D,
   D,
   D,
   D,
   N (some [65,66,67,68,69,70,71,72,73,74,75,76,77,78,79,80]) 33 0 0 0 0 0 (-1),
   D,
   D,
   D,
   D,
   D,
   D,
   D,
   D,
   D,
   D,
   D,
   D,
   D,
   D,
   D,
   N (some [81,82,83,84,85,86,87,88,89,90,91,92,93,94,95,96]) 49 0 0 0 0 0 (-1),
   D,
   D,
   D,
   D,
   D,
   D,
   D,
   D,
   D,
   D,
   D,
   D,
   D,
   D,
   D,
   N (some [97,98,99,100,101,102,103,104,105,106,107,108,109,110,111,112]) 65 0 0 0 0 0 (-1),
   N (some [129,130,131,132,133,134,135,136,137,138,139,140,141,142,143,144]) 65 0 0 0 0 0 (-1),
   N (some [161,162,163,164,165,166,167,168,169,170,171,172,173,174,175,176]) 65 0 0 0 0 0 (-1),
   N (some [193,194,195,196,197,198,199,200,201,202,203,204,205,206,207,208]) 65 0 0 0 0 0 (-1),
   D,
   D,
   D,
   D,
   D,
   D,
   D,
   D,
   D,
   D,
   D,
   D,
   N (some [113,114,115,116,117,118,119,120,121,122,123,124,125,126,127,128]) 81 0 0 0 0 0 (-1),
   D,
   D,
   D,
   D,
   D,
   D,
   D,
   D,
   D,
   D,
   D,
   D,
   D,
   D,
   D,
   N none 97 0 0 0 0 1 0,
   N none 97 1 0 0 0 1 1,
   D,
   D,
   D,
   D,
   D,
   D,
   D,
   D,
   D,
   D,
   D,
   D,
   D,
   D,
   N (some [145,146,147,148,149,150,151,152,153,154,155,156,157,158,159,160]) 82 0 0 0 0 0 (-1),
   D,
   D,
   D,
   D,
   D,
   D,
   D,
   D,
   D,
   D,
   D,
   D,
   D,
   D,
   D,
   N none 129 4 0 0 0 1 2,
   D,
   D,
   D,
   D,
   D,
   D,
   D,
   D,
   D,
   D,
   D,
   D,
   D,
   D,
   D,
   N (some [177,178,179,180,181,182,183,184,185,186,187,188,189,190,191,192]) 83 0 0 0 0 0 (-1),
   D,
   D,
   D,
   D,
   D,
   D,
   D,
   D,
   D,
   D,
   D,
   D,
   D,
   D,
   D,
   N none 161 0 4 0 0 1 3,
   D,
   D,
   D,
   D,
   D,
   D,
   D,
   D,
   D,
   D,
   D,
   D,
   D,
   D,
   D,
   N (some [209,210,211,212,213,214,215,216,217,218,219,220,221,222,223,224]) 84 0 0 0 0 0 (-1),
   N (some [225,226,227,228,229,230,231,232,233,234,235,236,237,238,239,240]) 84 0 0 0 0 0 (-1),
   N (some [241,242,243,244,245,246,247,248,249,250,251,252,253,254,255,256]) 84 4 6 0 0 1 (-1),
   N (some [257,258,259,260,261,262,263,264,265,266,267,268,269,270,271,272]) 84 6 6 0 0 1 (-1),
   N (some [273,274,275,276,277,278,279,280,281,282,283,284,285,286,287,288]) 84 4 4 2 0 1 (-1),
   N (some [289,290,291,292,293,294,295,296,297,298,299,300,301,302,303,304]) 84 6 4 2 0 1 (-1),
   N (some [305,306,307,308,309,310,311,312,313,314,315,316,317,318,319,320]) 84 4 6 2 0 1 (-1),
   N (some [321,322,323,324,325,326,327,328,329,330,331,332,333,334,335,336]) 84 6 6 2 0 1 (-1),
   N (some [337,338,339,340,341,342,343,344,345,346,347,348,349,350,351,352]) 84 4 4 0 2 1 (-1),
   N (some [353,354,355,356,357,358,359,360,361,362,363,364,365,366,367,368]) 84 6 4 0 2 1 (-1),
   N (some [369,370,371,372,373,374,375,376,377,378,379,380,381,382,383,384]) 84 4 6 0 2 1 (-1),
   N (some [385,386,387,388,389,390,391,392,393,394,395,396,397,398,399,400]) 84 6 6 0 2 1 (-1),
   N (some [401,402,403,404,405,406,407,408,409,410,411,412,413,414,415,416]) 84 4 4 2 2 1 (-1),
   N (some [417,418,419,420,421,422,423,424,425,426,427,428,429,430,431,432]) 84 6 4 2 2 1 (-1),
   D,
   D,
   N none 193 4 4 0 0 1 4,
   D,
   D,
   D,
   D,
   D,
   D,
   D,
   D,
   D,
   D,
   D,
   D,
   D,
   D,
   D,
   N none 194 6 4 0 0 1 5,
   D,
   D,
   D,
   D,
   D,
   D,
   D,
   D,
   D,
   D,
   D,
   D,
   D,
   D,
   D,
   N none 195 4 6 0 0 1 6,
   D,
   D,
   D,
   D,
   D,
   D,
   D,
   D,
   D,
   D,
   D,
   D,
   D,
   D,
   D,
   N none 196 6 6 0 0 1 7,
   D,
   D,
   D,
   D,
   D,
   D,
   D,
   D,
   D,
   D,
   D,
   D,
   D,
   D,
   D,
   N none 197 4 4 2 0 1 8,
   D,
   D,
   D,
   D,
   D,
   D,
   D,
   D,
   D,
   D,
   D,
   D,
   D,
   D,
   D,
   N none 198 6 4 2 0 1 9,
   D,
   D,
   D,
   D,
   D,
   D,
   D,
   D,
   D,
   D,
   D,
   D,
   D,
   D,
   D,
   N none 199 4 6 2 0 1 10,
   D,
   D,
   D,
   D,
   D,
   D,
   D,
   D,
   D,
   D,
   D,
   D,
   D,
   D,
   D,
   N none 200 6 6 2 0 1 11,
   D,
   D,
   D,
   D,
   D,
   D,
   D,
   D,
   D,
   D,
   D,
   D,
   D,
   D,
   D,
   N none 201 4 4 0 2 1 12,
   D,
   D,
   D,
   D,
   D,
   D,
   D,
   D,
   D,
   D,
   D,
   D,
   D,
   D,
   D,
   N none 202 6 4 0 2 1 13,
   D,
   D,
   D,
   D,
   D,
   D,
   D,
   D,
   D,
   D,
   D,
   D,
   D,
   D,
   D,
   N none 203 4 6 0 2 1 14,
   D,
   D,
   D,
   D,
   D,
   D,
   D,
   D,
   D,
   D,
   D,
   D,
   D,
   D,
   D,
   N none 204 6 6 0 2 1 15,
   D,
   D,
   D,
   D,
   D,
   D,
   D,
   D,
   D,
   D,
   D,
   D,
   D,
   D,
   D,
   N none 205 4 4 2 2 1 16,
   D,
   D,
   D,
   D,
   D,
   D,
   D,
   D,
   D,
   D,
   D,
   D,
   D,
   D,
   D,
   N none 206 6 4 2 2 1 17,
   D,
   D,
   D,
   D,
   D,
   D,
   D,
   D,
   D,
   D,
   D,
   D,
   D,
   D,
   D],
 [113,114,145,177,209,225], [206,205,204,203,202,201,200,199,198,197,196,195]⟩

/-- C6 reduction state after 13 collapse steps of the first pass. -/
def c6st13 : MPSt :=
  ⟨[N (some [1,2,3,4,5,6,7,8,9,10,11,12,13,14,15,16]) 0 0 0 0 0 0 (-1),
   N (some [17,18,19,20,21,22,23,24,25,26,27,28,29,30,31,32]) 0 0 0 0 0 0 (-1),
   D,
   D,
   D,
   D,
   D,
   D,
   D,
   D,
   D,
   D,
   D,
   D,
   D,
   D,
   D,
   N (some [33,34,35,36,37,38,39,40,41,42,43,44,45,46,47,48]) 1 0 0 0 0 0 (-1),
   D,
   D,
   D,
   D,
   D,
   D,
   D,
   D,
   D,
   D,
   D,
   D,
   D,
   D,
   D,
   N (some [49,50,51,52,53,54,55,56,57,58,59,60,61,62,63,64]) 17 0 0 0 0 0 (-1),
   D,
   D,
   D,
   D,
   D,
   D,
   D,
   D,
   D,
   D,
   D,
   D,
   D,
   D,
   D,
   N (some [65,66,67,68,69,70,71,72,73,74,75,76,77,78,79,80]) 33 0 0 0 0 0 (-1),
   D,
   D,
   D,
   D,
   D,
   D,
   D,
   D,
   D,
   D,
   D,
   D,
   D,
   D,
   D,
   N (some [81,82,83,84,85,86,87,88,89,90,91,92,93,94,95,96]) 49 0 0 0 0 0 (-1),
   D,
   D,
   D,
   D,
   D,
   D,
   D,
   D,
   D,
   D,
   D,
   D,
   D,
   D,
   D,
   N (some [97,98,99,100,101,102,103,104,105,106,107,108,109,110,111,112]) 65 0 0 0 0 0 (-1),
   N (some [129,130,131,132,133,134,135,136,137,138,139,140,141,142,143,144]) 65 0 0 0 0 0 (-1),
   N (some [161,162,163,164,165,166,167,168,169,170,171,172,173,174,175,176]) 65 0 0 0 0 0 (-1),
   N (some [193,194,195,196,197,198,199,200,201,202,203,204,205,206,207,208]) 65 0 0 0 0 0 (-1),
   D,
   D,
   D,
   D,
   D,
   D,
   D,
   D,
   D,
   D,
   D,
   D,
   N (some [113,114,115,116,117,118,119,120,121,122,123,124,125,126,127,128]) 81 0 0 0 0 0 (-1),
   D,
   D,
   D,
   D,
   D,
   D,
   D,
   D,
   D,
   D,
   D,
   D,
   D,
   D,
   D,
   N none 97 0 0 0 0 1 0,
   N none 97 1 0 0 0 1 1,
   D,
   D,
   D,
   D,
   D,
   D,
   D,
   D,
   D,
   D,
   D,
   D,
   D,
   D,
   N (some [145,146,147,148,149,150,151,152,153,154,155,156,157,158,159,160]) 82 0 0 0 0 0 (-1),
   D,
   D,
   D,
   D,
   D,
   D,
   D,
   D,
   D,
   D,
   D,
   D,
   D,
   D,
   D,
   N none 129 4 0 0 0 1 2,
   D,
   D,
   D,
   D,
   D,
   D,
   D,
   D,
   D,
   D,
   D,
   D,
   D,
   D,
   D,
   N (some [177,178,179,180,181,182,183,184,185,186,187,188,189,190,191,192]) 83 0 0 0 0 0 (-1),
   D,
   D,
   D,
   D,
   D,
   D,
   D,
   D,
   D,
   D,
   D,
   D,
   D,
   D,
   D,
   N none 161 0 4 0 0 1 3,
   D,
   D,
   D,
   D,
   D,
   D,
   D,
   D,
   D,
   D,
   D,
   D,
   D,
   D,
   D,
   N (some [209,210,211,212,213,214,215,216,217,218,219,220,221,222,223,224]) 84 0 0 0 0 0 (-1),
   N (some [225,226,227,228,229,230,231,232,233,234,235,236,237,238,239,240]) 84 6 4 0 0 1 (-1),
   N (some [241,242,243,244,245,246,247,248,249,250,251,252,253,254,255,256]) 84 4 6 0 0 1 (-1),
   N (some [257,258,259,260,261,262,263,264,265,266,267,268,269,270,271,272]) 84 6 6 0 0 1 (-1),
   N (some [273,274,275,276,277,278,279,280,281,282,283,284,285,286,287,288]) 84 4 4 2 0 1 (-1),
   N (some [289,290,291,292,293,294,295,296,297,298,299,300,301,302,303,304]) 84 6 4 2 0 1 (-1),
   N (some [305,306,307,308,309,310,311,312,313,314,315,316,317,318,319,320]) 84 4 6 2 0 1 (-1),
   N (some [321,322,323,324,325,326,327,328,329,330,331,332,333,334,335,336]) 84 6 6 2 0 1 (-1),
   N (some [337,338,339,340,341,342,343,344,345,346,347,348,349,350,351,352]) 84 4 4 0 2 1 (-1),
   N (some [353,354,355,356,357,358,359,360,361,362,363,364,365,366,367,368]) 84 6 4 0 2 1 (-1),
   N (some [369,370,371,372,373,374,375,376,377,378,379,380,381,382,383,384]) 84 4 6 0 2 1 (-1),
   N (some [385,386,387,388,389,390,391,392,393,394,395,396,397,398,399,400]) 84 6 6 0 2 1 (-1),
   N (some [401,402,403,404,405,406,407,408,409,410,411,412,413,414,415,416]) 84 4 4 2 2 1 (-1),
   N (some [417,418,419,420,421,422,423,424,425,426,427,428,429,430,431,432]) 84 6 4 2 2 1 (-1),
   D,
   D,
   N none 193 4 4 0 0 1 4,
   D,
   D,
   D,
   D,
   D,
   D,
   D,
   D,
   D,
   D,
   D,
   D,
   D,
   D,
   D,
   N none 194 6 4 0 0 1 5,
   D,
   D,
   D,
   D,
   D,
   D,
   D,
   D,
   D,
   D,
   D,
   D,
   D,
   D,
   D,
   N none 195 4 6 0 0 1 6,
   D,
   D,
   D,
   D,
   D,
   D,
   D,
   D,
   D,
   D,
   D,
   D,
   D,
   D,
   D,
   N none 196 6 6 0 0 1 7,
   D,
   D,
   D,
   D,
   D,
   D,
   D,
   D,
   D,
   D,
   D,
   D,
   D,
   D,
   D,
   N none 197 4 4 2 0 1 8,
   D,
   D,
   D,
   D,
   D,
   D,
   D,
   D,
   D,
   D,
   D,
   D,
   D,
   D,
   D,
   N none 198 6 4 2 0 1 9,
   D,
   D,
   D,
   D,
   D,
   D,
   D,
   D,
   D,
   D,
   D,
   D,
   D,
   D,
   D,
   N none 199 4 6 2 0 1 10,
   D,
   D,
   D,
   D,
   D,
   D,
   D,
   D,
   D,
   D,
   D,
   D,
   D,
   D,
   D,
   N none 200 6 6 2 0 1 11,
   D,
   D,
   D,
   D,
   D,
   D,
   D,
   D,
   D,
   D,
   D,
   D,
   D,
   D,
   D,
   N none 201 4 4 0 2 1 12,
   D,
   D,
   D,
   D,
   D,
   D,
   D,
   D,
   D,
   D,
   D,
   D,
   D,
   D,
   D,
   N none 202 6 4 0 2 1 13,
   D,
   D,
   D,
   D,
   D,
   D,
   D,
   D,
   D,
   D,
   D,
   D,
   D,
   D,
   D,
   N none 203 4 6 0 2 1 14,
   D,
   D,
   D,
   D,
   D,
   D,
   D,
   D,
   D,
   D,
   D,
   D,
   D,
   D,
   D,
   N none 204 6 6 0 2 1 15,
   D,
   D,
   D,
   D,
   D,
   D,
   D,
   D,
   D,
   D,
   D,
   D,
   D,
   D,
   D,
   N none 205 4 4 2 2 1 16,
   D,
   D,
   D,
   D,
   D,
   D,
   D,
   D,
   D,
   D,
   D,
   D,
   D,
   D,
   D,
   N none 206 6 4 2 2 1 17,
   D,
   D,
   D,
   D,
   D,
   D,
   D,
   D,
   D,
   D,
   D,
   D,
   D,
   D,
   D],
 [113,114,145,177,209], [206,205,204,203,202,201,200,199,198,197,196,195,194]⟩

/-- C6 reduction state after 14 collapse steps of the first pass. -/
def c6st14 : MPSt :=
  ⟨[N (some [1,2,3,4,5,6,7,8,9,10,11,12,13,14,15,16]) 0 0 0 0 0 0 (-1),
   N (some [17,18,19,20,21,22,23,24,25,26,27,28,29,30,31,32]) 0 0 0 0 0 0 (-1),
   D,
   D,
   D,
   D,
   D,
   D,
   D,
   D,
   D,
   D,
   D,
   D,
   D,
   D,
   D,
   N (some [33,34,35,36,37,38,39,40,41,42,43,44,45,46,47,48]) 1 0 0 0 0 0 (-1),
   D,
   D,
   D,
   D,
   D,
   D,
   D,
   D,
   D,
   D,
   D,
   D,
   D,
   D,
   D,
   N (some [49,50,51,52,53,54,55,56,57,58,59,60,61,62,63,64]) 17 0 0 0 0 0 (-1),
   D,
   D,
   D,
   D,
   D,
   D,
   D,
   D,
   D,
   D,
   D,
   D,
   D,
   D,
   D,
   N (some [65,66,67,68,69,70,71,72,73,74,75,76,77,78,79,80]) 33 0 0 0 0 0 (-1),
   D,
   D,
   D,
   D,
   D,
   D,
   D,
   D,
   D,
   D,
   D,
   D,
   D,
   D,
   D,
   N (some [81,82,83,84,85,86,87,88,89,90,91,92,93,94,95,96]) 49 0 0 0 0 0 (-1),
   D,
   D,
   D,
   D,
   D,
   D,
   D,
   D,
   D,
   D,
   D,
   D,
   D,
   D,
   D,
   N (some [97,98,99,100,101,102,103,104,105,106,107,108,109,110,111,112]) 65 0 0 0 0 0 (-1),
   N (some [129,130,131,132,133,134,135,136,137,138,139,140,141,142,143,144]) 65 0 0 0 0 0 (-1),
   N (some [161,162,163,164,165,166,167,168,169,170,171,172,173,174,175,176]) 65 0 0 0 0 0 (-1),
   N (some [193,194,195,196,197,198,199,200,201,202,203,204,205,206,207,208]) 65 0 0 0 0 0 (-1),
   D,
   D,
   D,
   D,
   D,
   D,
   D,
   D,
   D,
   D,
   D,
   D,
   N (some [113,114,115,116,117,118,119,120,121,122,123,124,125,126,127,128]) 81 0 0 0 0 0 (-1),
   D,
   D,
   D,
   D,
   D,
   D,
   D,
   D,
   D,
   D,
   D,
   D,
   D,
   D,
   D,
   N none 97 0 0 0 0 1 0,
   N none 97 1 0 0 0 1 1,
   D,
   D,
   D,
   D,
   D,
   D,
   D,
   D,
   D,
   D,
   D,
   D,
   D,
   D,
   N (some [145,146,147,148,149,150,151,152,153,154,155,156,157,158,159,160]) 82 0 0 0 0 0 (-1),
   D,
   D,
   D,
   D,
   D,
   D,
   D,
   D,
   D,
   D,
   D,
   D,
   D,
   D,
   D,
   N none 129 4 0 0 0 1 2,
   D,
   D,
   D,
   D,
   D,
   D,
   D,
   D,
   D,
   D,
   D,
   D,
   D,
   D,
   D,
   N (some [177,178,179,180,181,182,183,184,185,186,187,188,189,190,191,192]) 83 0 0 0 0 0 (-1),
   D,
   D,
   D,
   D,
   D,
   D,
   D,
   D,
   D,
   D,
   D,
   D,
   D,
   D,
   D,
   N none 161 0 4 0 0 1 3,
   D,
   D,
   D,
   D,
   D,
   D,
   D,
   D,
   D,
   D,
   D,
   D,
   D,
   D,
   D,
   N (some [209,210,211,212,213,214,215,216,217,218,219,220,221,222,223,224]) 84 4 4 0 0 1 (-1),
   N (some [225,226,227,228,229,230,231,232,233,234,235,236,237,238,239,240]) 84 6 4 0 0 1 (-1),
   N (some [241,242,243,244,245,246,247,248,249,250,251,252,253,254,255,256]) 84 4 6 0 0 1 (-1),
   N (some [257,258,259,260,261,262,263,264,265,266,267,268,269,270,271,272]) 84 6 6 0 0 1 (-1),
   N (some [273,274,275,276,277,278,279,280,281,282,283,284,285,286,287,288]) 84 4 4 2 0 1 (-1),
   N (some [289,290,291,292,293,294,295,296,297,298,299,300,301,302,303,304]) 84 6 4 2 0 1 (-1),
   N (some [305,306,307,308,309,310,311,312,313,314,315,316,317,318,319,320]) 84 4 6 2 0 1 (-1),
   N (some [321,322,323,324,325,326,327,328,329,330,331,332,333,334,335,336]) 84 6 6 2 0 1 (-1),
   N (some [337,338,339,340,341,342,343,344,345,346,347,348,349,350,351,352]) 84 4 4 0 2 1 (-1),
   N (some [353,354,355,356,357,358,359,360,361,362,363,364,365,366,367,368]) 84 6 4 0 2 1 (-1),
   N (some [369,370,371,372,373,374,375,376,377,378,379,380,381,382,383,384]) 84 4 6 0 2 1 (-1),
   N (some [385,386,387,388,389,390,391,392,393,394,395,396,397,398,399,400]) 84 6 6 0 2 1 (-1),
   N (some [401,402,403,404,405,406,407,408,409,410,411,412,413,414,415,416]) 84 4 4 2 2 1 (-1),
   N (some [417,418,419,420,421,422,423,424,425,426,427,428,429,430,431,432]) 84 6 4 2 2 1 (-1),
   D,
   D,
   N none 193 4 4 0 0 1 4,
   D,
   D,
   D,
   D,
   D,
   D,
   D,
   D,
   D,
   D,
   D,
   D,
   D,
   D,
   D,
   N none 194 6 4 0 0 1 5,
   D,
   D,
   D,
   D,
   D,
   D,
   D,
   D,
   D,
   D,
   D,
   D,
   D,
   D,
   D,
   N none 195 4 6 0 0 1 6,
   D,
   D,
   D,
   D,
   D,
   D,
   D,
   D,
   D,
   D,
   D,
   D,
   D,
   D,
   D,
   N none 196 6 6 0 0 1 7,
   D,
   D,
   D,
   D,
   D,
   D,
   D,
   D,
   D,
   D,
   D,
   D,
   D,
   D,
   D,
   N none 197 4 4 2 0 1 8,
   D,
   D,
   D,
   D,
   D,
   D,
   D,
   D,
   D,
   D,
   D,
   D,
   D,
   D,
   D,
   N none 198 6 4 2 0 1 9,
   D,
   D,
   D,
   D,
   D,
   D,
   D,
   D,
   D,
   D,
   D,
   D,
   D,
   D,
   D,
   N none 199 4 6 2 0 1 10,
   D,
   D,
   D,
   D,
   D,
   D,
   D,
   D,
   D,
   D,
   D,
   D,
   D,
   D,
   D,
   N none 200 6 6 2 0 1 11,
   D,
   D,
   D,
   D,
   D,
   D,
   D,
   D,
   D,
   D,
   D,
   D,
   D,
   D,
   D,
   N none 201 4 4 0 2 1 12,
   D,
   D,
   D,
   D,
   D,
   D,
   D,
   D,
   D,
   D,
   D,
   D,
   D,
   D,
   D,
   N none 202 6 4 0 2 1 13,
   D,
   D,
   D,
   D,
   D,
   D,
   D,
   D,
   D,
   D,
   D,
   D,
   D,
   D,
   D,
   N none 203 4 6 0 2 1 14,
   D,
   D,
   D,
   D,
   D,
   D,
   D,
   D,
   D,
   D,
   D,
   D,
   D,
   D,
   D,
   N none 204 6 6 0 2 1 15,
   D,
   D,
   D,
   D,
   D,
   D,
   D,
   D,
   D,
   D,
   D,
   D,
   D,
   D,
   D,
   N none 205 4 4 2 2 1 16,
   D,
   D,
   D,
   D,
   D,
   D,
   D,
   D,
   D,
   D,
   D,
   D,
   D,
   D,
   D,
   N none 206 6 4 2 2 1 17,
   D,
   D,
   D,
   D,
   D,
   D,
   D,
   D,
   D,
   D,
   D,
   D,
   D,
   D,
   D],
 [113,114,145,177], [206,205,204,203,202,201,200,199,198,197,196,195,194,193]⟩

/-- C6 reduction state after 15 collapse steps of the first pass. -/
def c6st15 : MPSt :=
  ⟨[N (some [1,2,3,4,5,6,7,8,9,10,11,12,13,14,15,16]) 0 0 0 0 0 0 (-1),
   N (some [17,18,19,20,21,22,23,24,25,26,27,28,29,30,31,32]) 0 0 0 0 0 0 (-1),
   D,
   D,
   D,
   D,
   D,
   D,
   D,
   D,
   D,
   D,
   D,
   D,
   D,
   D,
   D,
   N (some [33,34,35,36,37,38,39,40,41,42,43,44,45,46,47,48]) 1 0 0 0 0 0 (-1),
   D,
   D,
   D,
   D,
   D,
   D,
   D,
   D,
   D,
   D,
   D,
   D,
   D,
   D,
   D,
   N (some [49,50,51,52,53,54,55,56,57,58,59,60,61,62,63,64]) 17 0 0 0 0 0 (-1),
   D,
   D,
   D,
   D,
   D,
   D,
   D,
   D,
   D,
   D,
   D,
   D,
   D,
   D,
   D,
   N (some [65,66,67,68,69,70,71,72,73,74,75,76,77,78,79,80]) 33 0 0 0 0 0 (-1),
   D,
   D,
   D,
   D,
   D,
   D,
   D,
   D,
   D,
   D,
   D,
   D,
   D,
   D,
   D,
   N (some [81,82,83,84,85,86,87,88,89,90,91,92,93,94,95,96]) 49 0 0 0 0 0 (-1),
   D,
   D,
   D,
   D,
   D,
   D,
   D,
   D,
   D,
   D,
   D,
   D,
   D,
   D,
   D,
   N (some [97,98,99,100,101,102,103,104,105,106,107,108,109,110,111,112]) 65 0 0 0 0 0 (-1),
   N (some [129,130,131,132,133,134,135,136,137,138,139,140,141,142,143,144]) 65 0 0 0 0 0 (-1),
   N (some [161,162,163,164,165,166,167,168,169,170,171,172,173,174,175,176]) 65 0 0 0 0 0 (-1),
   N (some [193,194,195,196,197,198,199,200,201,202,203,204,205,206,207,208]) 65 0 0 0 0 0 (-1),
   D,
   D,
   D,
   D,
   D,
   D,
   D,
   D,
   D,
   D,
   D,
   D,
   N (some [113,114,115,116,117,118,119,120,121,122,123,124,125,126,127,128]) 81 0 0 0 0 0 (-1),
   D,
   D,
   D,
   D,
   D,
   D,
   D,
   D,
   D,
   D,
   D,
   D,
   D,
   D,
   D,
   N none 97 0 0 0 0 1 0,
   N none 97 1 0 0 0 1 1,
   D,
   D,
   D,
   D,
   D,
   D,
   D,
   D,
   D,
   D,
   D,
   D,
   D,
   D,
   N (some [145,146,147,148,149,150,151,152,153,154,155,156,157,158,159,160]) 82 0 0 0 0 0 (-1),
   D,
   D,
   D,
   D,
   D,
   D,
   D,
   D,
   D,
   D,
   D,
   D,
   D,
   D,
   D,
   N none 129 4 0 0 0 1 2,
   D,
   D,
   D,
   D,
   D,
   D,
   D,
   D,
   D,
   D,
   D,
   D,
   D,
   D,
   D,
   N (some [177,178,179,180,181,182,183,184,185,186,187,188,189,190,191,192]) 83 0 4 0 0 1 (-1),
   D,
   D,
   D,
   D,
   D,
   D,
   D,
   D,
   D,
   D,
   D,
   D,
   D,
   D,
   D,
   N none 161 0 4 0 0 1 3,
   D,
   D,
   D,
   D,
   D,
   D,
   D,
   D,
   D,
   D,
   D,
   D,
   D,
   D,
   D,
   N (some [209,210,211,212,213,214,215,216,217,218,219,220,221,222,223,224]) 84 4 4 0 0 1 (-1),
   N (some [225,226,227,228,229,230,231,232,233,234,235,236,237,238,239,240]) 84 6 4 0 0 1 (-1),
   N (some [241,242,243,244,245,246,247,248,249,250,251,252,253,254,255,256]) 84 4 6 0 0 1 (-1),
   N (some [257,258,259,260,261,262,263,264,265,266,267,268,269,270,271,272]) 84 6 6 0 0 1 (-1),
   N (some [273,274,275,276,277,278,279,280,281,282,283,284,285,286,287,288]) 84 4 4 2 0 1 (-1),
   N (some [289,290,291,292,293,294,295,296,297,298,299,300,301,302,303,304]) 84 6 4 2 0 1 (-1),
   N (some [305,306,307,308,309,310,311,312,313,314,315,316,317,318,319,320]) 84 4 6 2 0 1 (-1),
   N (some [321,322,323,324,325,326,327,328,329,330,331,332,333,334,335,336]) 84 6 6 2 0 1 (-1),
   N (some [337,338,339,340,341,342,343,344,345,346,347,348,349,350,351,352]) 84 4 4 0 2 1 (-1),
   N (some [353,354,355,356,357,358,359,360,361,362,363,364,365,366,367,368]) 84 6 4 0 2 1 (-1),
   N (some [369,370,371,372,373,374,375,376,377,378,379,380,381,382,383,384]) 84 4 6 0 2 1 (-1),
   N (some [385,386,387,388,389,390,391,392,393,394,395,396,397,398,399,400]) 84 6 6 0 2 1 (-1),
   N (some [401,402,403,404,405,406,407,408,409,410,411,412,413,414,415,416]) 84 4 4 2 2 1 (-1),
   N (some [417,418,419,420,421,422,423,424,425,426,427,428,429,430,431,432]) 84 6 4 2 2 1 (-1),
   D,
   D,
   N none 193 4 4 0 0 1 4,
   D,
   D,
   D,
   D,
   D,
   D,
   D,
   D,
   D,
   D,
   D,
   D,
   D,
   D,
   D,
   N none 194 6 4 0 0 1 5,
   D,
   D,
   D,
   D,
   D,
   D,
   D,
   D,
   D,
   D,
   D,
   D,
   D,
   D,
   D,
   N none 195 4 6 0 0 1 6,
   D,
   D,
   D,
   D,
   D,
   D,
   D,
   D,
   D,
   D,
   D,
   D,
   D,
   D,
   D,
   N none 196 6 6 0 0 1 7,
   D,
   D,
   D,
   D,
   D,
   D,
   D,
   D,
   D,
   D,
   D,
   D,
   D,
   D,
   D,
   N none 197 4 4 2 0 1 8,
   D,
   D,
   D,
   D,
   D,
   D,
   D,
   D,
   D,
   D,
   D,
   D,
   D,
   D,
   D,
   N none 198 6 4 2 0 1 9,
   D,
   D,
   D,
   D,
   D,
   D,
   D,
   D,
   D,
   D,
   D,
   D,
   D,
   D,
   D,
   N none 199 4 6 2 0 1 10,
   D,
   D,
   D,
   D,
   D,
   D,
   D,
   D,
   D,
   D,
   D,
   D,
   D,
   D,
   D,
   N none 200 6 6 2 0 1 11,
   D,
   D,
   D,
   D,
   D,
   D,
   D,
   D,
   D,
   D,
   D,
   D,
   D,
   D,
   D,
   N none 201 4 4 0 2 1 12,
   D,
   D,
   D,
   D,
   D,
   D,
   D,
   D,
   D,
   D,
   D,
   D,
   D,
   D,
   D,
   N none 202 6 4 0 2 1 13,
   D,
   D,
   D,
   D,
   D,
   D,
   D,
   D,
   D,
   D,
   D,
   D,
   D,
   D,
   D,
   N none 203 4 6 0 2 1 14,
   D,
   D,
   D,
   D,
   D,
   D,
   D,
   D,
   D,
   D,
   D,
   D,
   D,
   D,
   D,
   N none 204 6 6 0 2 1 15,
   D,
   D,
   D,
   D,
   D,
   D,
   D,
   D,
   D,
   D,
   D,
   D,
   D,
   D,
   D,
   N none 205 4 4 2 2 1 16,
   D,
   D,
   D,
   D,
   D,
   D,
   D,
   D,
   D,
   D,
   D,
   D,
   D,
   D,
   D,
   N none 206 6 4 2 2 1 17,
   D,
   D,
   D,
   D,
   D,
   D,
   D,
   D,
   D,
   D,
   D,
   D,
   D,
   D,
   D],
 [113,114,145], [206,205,204,203,202,201,200,199,198,197,196,195,194,193,161]⟩

/-- C6 reduction state after 16 collapse steps of the first pass. -/
def c6st16 : MPSt :=
  ⟨[N (some [1,2,3,4,5,6,7,8,9,10,11,12,13,14,15,16]) 0 0 0 0 0 0 (-1),
   N (some [17,18,19,20,21,22,23,24,25,26,27,28,29,30,31,32]) 0 0 0 0 0 0 (-1),
   D,
   D,
   D,
   D,
   D,
   D,
   D,
   D,
   D,
   D,
   D,
   D,
   D,
   D,
   D,
   N (some [33,34,35,36,37,38,39,40,41,42,43,44,45,46,47,48]) 1 0 0 0 0 0 (-1),
   D,
   D,
   D,
   D,
   D,
   D,
   D,
   D,
   D,
   D,
   D,
   D,
   D,
   D,
   D,
   N (some [49,50,51,52,53,54,55,56,57,58,59,60,61,62,63,64]) 17 0 0 0 0 0 (-1),
   D,
   D,
   D,
   D,
   D,
   D,
   D,
   D,
   D,
   D,
   D,
   D,
   D,
   D,
   D,
   N (some [65,66,67,68,69,70,71,72,73,74,75,76,77,78,79,80]) 33 0 0 0 0 0 (-1),
   D,
   D,
   D,
   D,
   D,
   D,
   D,
   D,
   D,
   D,
   D,
   D,
   D,
   D,
   D,
   N (some [81,82,83,84,85,86,87,88,89,90,91,92,93,94,95,96]) 49 0 0 0 0 0 (-1),
   D,
   D,
   D,
   D,
   D,
   D,
   D,
   D,
   D,
   D,
   D,
   D,
   D,
   D,
   D,
   N (some [97,98,99,100,101,102,103,104,105,106,107,108,109,110,111,112]) 65 0 0 0 0 0 (-1),
   N (some [129,130,131,132,133,134,135,136,137,138,139,140,141,142,143,144]) 65 0 0 0 0 0 (-1),
   N (some [161,162,163,164,165,166,167,168,169,170,171,172,173,174,175,176]) 65 0 0 0 0 0 (-1),
   N (some [193,194,195,196,197,198,199,200,201,202,203,204,205,206,207,208]) 65 0 0 0 0 0 (-1),
   D,
   D,
   D,
   D,
   D,
   D,
   D,
   D,
   D,
   D,
   D,
   D,
   N (some [113,114,115,116,117,118,119,120,121,122,123,124,125,126,127,128]) 81 0 0 0 0 0 (-1),
   D,
   D,
   D,
   D,
   D,
   D,
   D,
   D,
   D,
   D,
   D,
   D,
   D,
   D,
   D,
   N none 97 0 0 0 0 1 0,
   N none 97 1 0 0 0 1 1,
   D,
   D,
   D,
   D,
   D,
   D,
   D,
   D,
   D,
   D,
   D,
   D,
   D,
   D,
   N (some [145,146,147,148,149,150,151,152,153,154,155,156,157,158,159,160]) 82 4 0 0 0 1 (-1),
   D,
   D,
   D,
   D,
   D,
   D,
   D,
   D,
   D,
   D,
   D,
   D,
   D,
   D,
   D,
   N none 129 4 0 0 0 1 2,
   D,
   D,
   D,
   D,
   D,
   D,
   D,
   D,
   D,
   D,
   D,
   D,
   D,
   D,
   D,
   N (some [177,178,179,180,181,182,183,184,185,186,187,188,189,190,191,192]) 83 0 4 0 0 1 (-1),
   D,
   D,
   D,
   D,
   D,
   D,
   D,
   D,
   D,
   D,
   D,
   D,
   D,
   D,
   D,
   N none 161 0 4 0 0 1 3,
   D,
   D,
   D,
   D,
   D,
   D,
   D,
   D,
   D,
   D,
   D,
   D,
   D,
   D,
   D,
   N (some [209,210,211,212,213,214,215,216,217,218,219,220,221,222,223,224]) 84 4 4 0 0 1 (-1),
   N (some [225,226,227,228,229,230,231,232,233,234,235,236,237,238,239,240]) 84 6 4 0 0 1 (-1),
   N (some [241,242,243,244,245,246,247,248,249,250,251,252,253,254,255,256]) 84 4 6 0 0 1 (-1),
   N (some [257,258,259,260,261,262,263,264,265,266,267,268,269,270,271,272]) 84 6 6 0 0 1 (-1),
   N (some [273,274,275,276,277,278,279,280,281,282,283,284,285,286,287,288]) 84 4 4 2 0 1 (-1),
   N (some [289,290,291,292,293,294,295,296,297,298,299,300,301,302,303,304]) 84 6 4 2 0 1 (-1),
   N (some [305,306,307,308,309,310,311,312,313,314,315,316,317,318,319,320]) 84 4 6 2 0 1 (-1),
   N (some [321,322,323,324,325,326,327,328,329,330,331,332,333,334,335,336]) 84 6 6 2 0 1 (-1),
   N (some [337,338,339,340,341,342,343,344,345,346,347,348,349,350,351,352]) 84 4 4 0 2 1 (-1),
   N (some [353,354,355,356,357,358,359,360,361,362,363,364,365,366,367,368]) 84 6 4 0 2 1 (-1),
   N (some [369,370,371,372,373,374,375,376,377,378,379,380,381,382,383,384]) 84 4 6 0 2 1 (-1),
   N (some [385,386,387,388,389,390,391,392,393,394,395,396,397,398,399,400]) 84 6 6 0 2 1 (-1),
   N (some [401,402,403,404,405,406,407,408,409,410,411,412,413,414,415,416]) 84 4 4 2 2 1 (-1),
   N (some [417,418,419,420,421,422,423,424,425,426,427,428,429,430,431,432]) 84 6 4 2 2 1 (-1),
   D,
   D,
   N none 193 4 4 0 0 1 4,
   D,
   D,
   D,
   D,
   D,
   D,
   D,
   D,
   D,
   D,
   D,
   D,
   D,
   D,
   D,
   N none 194 6 4 0 0 1 5,
   D,
   D,
   D,
   D,
   D,
   D,
   D,
   D,
   D,
   D,
   D,
   D,
   D,
   D,
   D,
   N none 195 4 6 0 0 1 6,
   D,
   D,
   D,
   D,
   D,
   D,
   D,
   D,
   D,
   D,
   D,
   D,
   D,
   D,
   D,
   N none 196 6 6 0 0 1 7,
   D,
   D,
   D,
   D,
   D,
   D,
   D,
   D,
   D,
   D,
   D,
   D,
   D,
   D,
   D,
   N none 197 4 4 2 0 1 8,
   D,
   D,
   D,
   D,
   D,
   D,
   D,
   D,
   D,
   D,
   D,
   D,
   D,
   D,
   D,
   N none 198 6 4 2 0 1 9,
   D,
   D,
   D,
   D,
   D,
   D,
   D,
   D,
   D,
   D,
   D,
   D,
   D,
   D,
   D,
   N none 199 4 6 2 0 1 10,
   D,
   D,
   D,
   D,
   D,
   D,
   D,
   D,
   D,
   D,
   D,
   D,
   D,
   D,
   D,
   N none 200 6 6 2 0 1 11,
   D,
   D,
   D,
   D,
   D,
   D,
   D,
   D,
   D,
   D,
   D,
   D,
   D,
   D,
   D,
   N none 201 4 4 0 2 1 12,
   D,
   D,
   D,
   D,
   D,
   D,
   D,
   D,
   D,
   D,
   D,
   D,
   D,
   D,
   D,
   N none 202 6 4 0 2 1 13,
   D,
   D,
   D,
   D,
   D,
   D,
   D,
   D,
   D,
   D,
   D,
   D,
   D,
   D,
   D,
   N none 203 4 6 0 2 1 14,
   D,
   D,
   D,
   D,
   D,
   D,
   D,
   D,
   D,
   D,
   D,
   D,
   D,
   D,
   D,
   N none 204 6 6 0 2 1 15,
   D,
   D,
   D,
   D,
   D,
   D,
   D,
   D,
   D,
   D,
   D,
   D,
   D,
   D,
   D,
   N none 205 4 4 2 2 1 16,
   D,
   D,
   D,
   D,
   D,
   D,
   D,
   D,
   D,
   D,
   D,
   D,
   D,
   D,
   D,
   N none 206 6 4 2 2 1 17,
   D,
   D,
   D,
   D,
   D,
   D,
   D,
   D,
   D,
   D,
   D,
   D,
   D,
   D,
   D],
 [113,114], [206,205,204,203,202,201,200,199,198,197,196,195,194,193,161,129]⟩

/-- C6 reduction state after 17 collapse steps of the first pass. -/
def c6st17 : MPSt :=
  ⟨[N (some [1,2,3,4,5,6,7,8,9,10,11,12,13,14,15,16]) 0 0 0 0 0 0 (-1),
   N (some [17,18,19,20,21,22,23,24,25,26,27,28,29,30,31,32]) 0 0 0 0 0 0 (-1),
   D,
   D,
   D,
   D,
   D,
   D,
   D,
   D,
   D,
   D,
   D,
   D,
   D,
   D,
   D,
   N (some [33,34,35,36,37,38,39,40,41,42,43,44,45,46,47,48]) 1 0 0 0 0 0 (-1),
   D,
   D,
   D,
   D,
   D,
   D,
   D,
   D,
   D,
   D,
   D,
   D,
   D,
   D,
   D,
   N (some [49,50,51,52,53,54,55,56,57,58,59,60,61,62,63,64]) 17 0 0 0 0 0 (-1),
   D,
   D,
   D,
   D,
   D,
   D,
   D,
   D,
   D,
   D,
   D,
   D,
   D,
   D,
   D,
   N (some [65,66,67,68,69,70,71,72,73,74,75,76,77,78,79,80]) 33 0 0 0 0 0 (-1),
   D,
   D,
   D,
   D,
   D,
   D,
   D,
   D,
   D,
   D,
   D,
   D,
   D,
   D,
   D,
   N (some [81,82,83,84,85,86,87,88,89,90,91,92,93,94,95,96]) 49 0 0 0 0 0 (-1),
   D,
   D,
   D,
   D,
   D,
   D,
   D,
   D,
   D,
   D,
   D,
   D,
   D,
   D,
   D,
   N (some [97,98,99,100,101,102,103,104,105,106,107,108,109,110,111,112]) 65 0 0 0 0 0 (-1),
   N (some [129,130,131,132,133,134,135,136,137,138,139,140,141,142,143,144]) 65 0 0 0 0 0 (-1),
   N (some [161,162,163,164,165,166,167,168,169,170,171,172,173,174,175,176]) 65 0 0 0 0 0 (-1),
   N (some [193,194,195,196,197,198,199,200,201,202,203,204,205,206,207,208]) 65 0 0 0 0 0 (-1),
   D,
   D,
   D,
   D,
   D,
   D,
   D,
   D,
   D,
   D,
   D,
   D,
   N (some [113,114,115,116,117,118,119,120,121,122,123,124,125,126,127,128]) 81 1 0 0 0 2 (-1),
   D,
   D,
   D,
   D,
   D,
   D,
   D,
   D,
   D,
   D,
   D,
   D,
   D,
   D,
   D,
   N none 97 0 0 0 0 1 0,
   N none 97 1 0 0 0 1 1,
   D,
   D,
   D,
   D,
   D,
   D,
   D,
   D,
   D,
   D,
   D,
   D,
   D,
   D,
   N (some [145,146,147,148,149,150,151,152,153,154,155,156,157,158,159,160]) 82 4 0 0 0 1 (-1),
   D,
   D,
   D,
   D,
   D,
   D,
   D,
   D,
   D,
   D,
   D,
   D,
   D,
   D,
   D,
   N none 129 4 0 0 0 1 2,
   D,
   D,
   D,
   D,
   D,
   D,
   D,
   D,
   D,
   D,
   D,
   D,
   D,
   D,
   D,
   N (some [177,178,179,180,181,182,183,184,185,186,187,188,189,190,191,192]) 83 0 4 0 0 1 (-1),
   D,
   D,
   D,
   D,
   D,
   D,
   D,
   D,
   D,
   D,
   D,
   D,
   D,
   D,
   D,
   N none 161 0 4 0 0 1 3,
   D,
   D,
   D,
   D,
   D,
   D,
   D,
   D,
   D,
   D,
   D,
   D,
   D,
   D,
   D,
   N (some [209,210,211,212,213,214,215,216,217,218,219,220,221,222,223,224]) 84 4 4 0 0 1 (-1),
   N (some [225,226,227,228,229,230,231,232,233,234,235,236,237,238,239,240]) 84 6 4 0 0 1 (-1),
   N (some [241,242,243,244,245,246,247,248,249,250,251,252,253,254,255,256]) 84 4 6 0 0 1 (-1),
   N (some [257,258,259,260,261,262,263,264,265,266,267,268,269,270,271,272]) 84 6 6 0 0 1 (-1),
   N (some [273,274,275,276,277,278,279,280,281,282,283,284,285,286,287,288]) 84 4 4 2 0 1 (-1),
   N (some [289,290,291,292,293,294,295,296,297,298,299,300,301,302,303,304]) 84 6 4 2 0 1 (-1),
   N (some [305,306,307,308,309,310,311,312,313,314,315,316,317,318,319,320]) 84 4 6 2 0 1 (-1),
   N (some [321,322,323,324,325,326,327,328,329,330,331,332,333,334,335,336]) 84 6 6 2 0 1 (-1),
   N (some [337,338,339,340,341,342,343,344,345,346,347,348,349,350,351,352]) 84 4 4 0 2 1 (-1),
   N (some [353,354,355,356,357,358,359,360,361,362,363,364,365,366,367,368]) 84 6 4 0 2 1 (-1),
   N (some [369,370,371,372,373,374,375,376,377,378,379,380,381,382,383,384]) 84 4 6 0 2 1 (-1),
   N (some [385,386,387,388,389,390,391,392,393,394,395,396,397,398,399,400]) 84 6 6 0 2 1 (-1),
   N (some [401,402,403,404,405,406,407,408,409,410,411,412,413,414,415,416]) 84 4 4 2 2 1 (-1),
   N (some [417,418,419,420,421,422,423,424,425,426,427,428,429,430,431,432]) 84 6 4 2 2 1 (-1),
   D,
   D,
   N none 193 4 4 0 0 1 4,
   D,
   D,
   D,
   D,
   D,
   D,
   D,
   D,
   D,
   D,
   D,
   D,
   D,
   D,
   D,
   N none 194 6 4 0 0 1 5,
   D,
   D,
   D,
   D,
   D,
   D,
   D,
   D,
   D,
   D,
   D,
   D,
   D,
   D,
   D,
   N none 195 4 6 0 0 1 6,
   D,
   D,
   D,
   D,
   D,
   D,
   D,
   D,
   D,
   D,
   D,
   D,
   D,
   D,
   D,
   N none 196 6 6 0 0 1 7,
   D,
   D,
   D,
   D,
   D,
   D,
   D,
   D,
   D,
   D,
   D,
   D,
   D,
   D,
   D,
   N none 197 4 4 2 0 1 8,
   D,
   D,
   D,
   D,
   D,
   D,
   D,
   D,
   D,
   D,
   D,
   D,
   D,
   D,
   D,
   N none 198 6 4 2 0 1 9,
   D,
   D,
   D,
   D,
   D,
   D,
   D,
   D,
   D,
   D,
   D,
   D,
   D,
   D,
   D,
   N none 199 4 6 2 0 1 10,
   D,
   D,
   D,
   D,
   D,
   D,
   D,
   D,
   D,
   D,
   D,
   D,
   D,
   D,
   D,
   N none 200 6 6 2 0 1 11,
   D,
   D,
   D,
   D,
   D,
   D,
   D,
   D,
   D,
   D,
   D,
   D,
   D,
   D,
   D,
   N none 201 4 4 0 2 1 12,
   D,
   D,
   D,
   D,
   D,
   D,
   D,
   D,
   D,
   D,
   D,
   D,
   D,
   D,
   D,
   N none 202 6 4 0 2 1 13,
   D,
   D,
   D,
   D,
   D,
   D,
   D,
   D,
   D,
   D,
   D,
   D,
   D,
   D,
   D,
   N none 203 4 6 0 2 1 14,
   D,
   D,
   D,
   D,
   D,
   D,
   D,
   D,
   D,
   D,
   D,
   D,
   D,
   D,
   D,
   N none 204 6 6 0 2 1 15,
   D,
   D,
   D,
   D,
   D,
   D,
   D,
   D,
   D,
   D,
   D,
   D,
   D,
   D,
   D,
   N none 205 4 4 2 2 1 16,
   D,
   D,
   D,
   D,
   D,
   D,
   D,
   D,
   D,
   D,
   D,
   D,
   D,
   D,
   D,
   N none 206 6 4 2 2 1 17,
   D,
   D,
   D,
   D,
   D,
   D,
   D,
   D,
   D,
   D,
   D,
   D,
   D,
   D,
   D],
 [], [206,205,204,203,202,201,200,199,198,197,196,195,194,193,161,129,97]⟩

/-- One unfolding of the inner reduction loop when neither stop condition
holds. -/
theorem innerLoop_step (cc : Int) (i : Nat) (st st' : MPSt)
    (h1 : uleB (st.leaves.length + st.aux.length) cc = false)
    (h2 : ¬ st.leaves.length = 0)
    (h3 : innerBody st = st') :
    innerLoop cc (i + 1) st = innerLoop cc i st' := by
  rw [innerLoop, h1, h3]
  simp [h2]

/-- One unfolding of the outer level loop when the inner loop asks to keep
reducing. -/
theorem levelsLoop_step_true (cc : Int) (n : Nat) (st st' : MPSt)
    (h : innerLoop cc st.leaves.length st = (st', true)) :
    levelsLoop cc (n + 1) st =
      levelsLoop cc n ⟨st'.heap, st'.leaves ++ st'.aux.reverse, []⟩ := by
  rw [levelsLoop, h]
  simp

/-- One unfolding of the outer level loop when the inner loop stops. -/
theorem levelsLoop_step_false (cc : Int) (n : Nat) (st st' : MPSt)
    (h : innerLoop cc st.leaves.length st = (st', false)) :
    levelsLoop cc (n + 1) st = st' := by
  rw [levelsLoop, h]
  simp

/-- Collapse step 1 of the first pass, checked on literal states. -/
theorem c6_ib_1 : innerBody c6st0 = c6st1 := by
  decide

/-- Collapse step 2 of the first pass, checked on literal states. -/
theorem c6_ib_2 : innerBody c6st1 = c6st2 := by
  decide

/-- Collapse step 3 of the first pass, checked on literal states. -/
theorem c6_ib_3 : innerBody c6st2 = c6st3 := by
  decide

/-- Collapse step 4 of the first pass, checked on literal states. -/
theorem c6_ib_4 : innerBody c6st3 = c6st4 := by
  decide

/-- Collapse step 5 of the first pass, checked on literal states. -/
theorem c6_ib_5 : innerBody c6st4 = c6st5 := by
  decide

/-- Collapse step 6 of the first pass, checked on literal states. -/
theorem c6_ib_6 : innerBody c6st5 = c6st6 := by
  decide

/-- Collapse step 7 of the first pass, checked on literal states. -/
theorem c6_ib_7 : innerBody c6st6 = c6st7 := by
  decide

/-- Collapse step 8 of the first pass, checked on literal states. -/
theorem c6_ib_8 : innerBody c6st7 = c6st8 := by
  decide

/-- Collapse step 9 of the first pass, checked on literal states. -/
theorem c6_ib_9 : innerBody c6st8 = c6st9 := by
  decide

/-- Collapse step 10 of the first pass, checked on literal states. -/
theorem c6_ib_10 : innerBody c6st9 = c6st10 := by
  decide

/-- Collapse step 11 of the first pass, checked on literal states. -/
theorem c6_ib_11 : innerBody c6st10 = c6st11 := by
  decide

/-- Collapse step 12 of the first pass, checked on literal states. -/
theorem c6_ib_12 : innerBody c6st11 = c6st12 := by
  decide

/-- Collapse step 13 of the first pass, checked on literal states. -/
theorem c6_ib_13 : innerBody c6st12 = c6st13 := by
  decide

/-- Collapse step 14 of the first pass, checked on literal states. -/
theorem c6_ib_14 : innerBody c6st13 = c6st14 := by
  decide

/-- Collapse step 15 of the first pass, checked on literal states. -/
theorem c6_ib_15 : innerBody c6st14 = c6st15 := by
  decide

/-- Collapse step 16 of the first pass, checked on literal states. -/
theorem c6_ib_16 : innerBody c6st15 = c6st16 := by
  decide

/-- Collapse step 17 of the first pass, checked on literal states. -/
theorem c6_ib_17 : innerBody c6st16 = c6st17 := by
  decide

/-- The first reduction pass of the C6 instance: 17 collapse steps exhaust
the leaf set (18 leaves fold into 17 collapsed parents) and the loop ends
with the keep-reducing flag still set, so the low-target fallback never
runs even though the target 5 is below 16. -/
theorem c6_pass1 : innerLoop 5 18 c6st0 = (c6st17, true) := by
  have h1 : innerLoop 5 18 c6st0 = innerLoop 5 17 c6st1 :=
    innerLoop_step 5 17 c6st0 c6st1 (by decide) (by decide) c6_ib_1
  have h2 : innerLoop 5 17 c6st1 = innerLoop 5 16 c6st2 :=
    innerLoop_step 5 16 c6st1 c6st2 (by decide) (by decide) c6_ib_2
  have h3 : innerLoop 5 16 c6st2 = innerLoop 5 15 c6st3 :=
    innerLoop_step 5 15 c6st2 c6st3 (by decide) (by decide) c6_ib_3
  have h4 : innerLoop 5 15 c6st3 = innerLoop 5 14 c6st4 :=
    innerLoop_step 5 14 c6st3 c6st4 (by decide) (by decide) c6_ib_4
  have h5 : innerLoop 5 14 c6st4 = innerLoop 5 13 c6st5 :=
    innerLoop_step 5 13 c6st4 c6st5 (by decide) (by decide) c6_ib_5
  have h6 : innerLoop 5 13 c6st5 = innerLoop 5 12 c6st6 :=
    innerLoop_step 5 12 c6st5 c6st6 (by decide) (by decide) c6_ib_6
  have h7 : innerLoop 5 12 c6st6 = innerLoop 5 11 c6st7 :=
    innerLoop_step 5 11 c6st6 c6st7 (by decide) (by decide) c6_ib_7
  have h8 : innerLoop 5 11 c6st7 = innerLoop 5 10 c6st8 :=
    innerLoop_step 5 10 c6st7 c6st8 (by decide) (by decide) c6_ib_8
  have h9 : innerLoop 5 10 c6st8 = innerLoop 5 9 c6st9 :=
    innerLoop_step 5 9 c6st8 c6st9 (by decide) (by decide) c6_ib_9
  have h10 : innerLoop 5 9 c6st9 = innerLoop 5 8 c6st10 :=
    innerLoop_step 5 8 c6st9 c6st10 (by decide) (by decide) c6_ib_10
  have h11 : innerLoop 5 8 c6st10 = innerLoop 5 7 c6st11 :=
    innerLoop_step 5 7 c6st10 c6st11 (by decide) (by decide) c6_ib_11
  have h12 : innerLoop 5 7 c6st11 = innerLoop 5 6 c6st12 :=
    innerLoop_step 5 6 c6st11 c6st12 (by decide) (by decide) c6_ib_12
  have h13 : innerLoop 5 6 c6st12 = innerLoop 5 5 c6st13 :=
    innerLoop_step 5 5 c6st12 c6st13 (by decide) (by decide) c6_ib_13
  have h14 : innerLoop 5 5 c6st13 = innerLoop 5 4 c6st14 :=
    innerLoop_step 5 4 c6st13 c6st14 (by decide) (by decide) c6_ib_14
  have h15 : innerLoop 5 4 c6st14 = innerLoop 5 3 c6st15 :=
    innerLoop_step 5 3 c6st14 c6st15 (by decide) (by decide) c6_ib_15
  have h16 : innerLoop 5 3 c6st15 = innerLoop 5 2 c6st16 :=
    innerLoop_step 5 2 c6st15 c6st16 (by decide) (by decide) c6_ib_16
  have h17 : innerLoop 5 2 c6st16 = innerLoop 5 1 c6st17 :=
    innerLoop_step 5 1 c6st16 c6st17 (by decide) (by decide) c6_ib_17
  have hE : innerLoop 5 1 c6st17 = (c6st17, true) := by decide
  exact (((((((((((((((((h1).trans h2).trans h3).trans h4).trans h5).trans h6).trans h7).trans h8).trans h9).trans h10).trans h11).trans h12).trans h13).trans h14).trans h15).trans h16).trans h17).trans hE

/-- State entering the second reduction pass of the C6 instance. -/
def c6stP2 : MPSt :=
  ⟨[N (some [1,2,3,4,5,6,7,8,9,10,11,12,13,14,15,16]) 0 0 0 0 0 0 (-1),
   N (some [17,18,19,20,21,22,23,24,25,26,27,28,29,30,31,32]) 0 0 0 0 0 0 (-1),
   D,
   D,
   D,
   D,
   D,
   D,
   D,
   D,
   D,
   D,
   D,
   D,
   D,
   D,
   D,
   N (some [33,34,35,36,37,38,39,40,41,42,43,44,45,46,47,48]) 1 0 0 0 0 0 (-1),
   D,
   D,
   D,
   D,
   D,
   D,
   D,
   D,
   D,
   D,
   D,
   D,
   D,
   D,
   D,
   N (some [49,50,51,52,53,54,55,56,57,58,59,60,61,62,63,64]) 17 0 0 0 0 0 (-1),
   D,
   D,
   D,
   D,
   D,
   D,
   D,
   D,
   D,
   D,
   D,
   D,
   D,
   D,
   D,
   N (some [65,66,67,68,69,70,71,72,73,74,75,76,77,78,79,80]) 33 0 0 0 0 0 (-1),
   D,
   D,
   D,
   D,
   D,
   D,
   D,
   D,
   D,
   D,
   D,
   D,
   D,
   D,
   D,
   N (some [81,82,83,84,85,86,87,88,89,90,91,92,93,94,95,96]) 49 0 0 0 0 0 (-1),
   D,
   D,
   D,
   D,
   D,
   D,
   D,
   D,
   D,
   D,
   D,
   D,
   D,
   D,
   D,
   N (some [97,98,99,100,101,102,103,104,105,106,107,108,109,110,111,112]) 65 0 0 0 0 0 (-1),
   N (some [129,130,131,132,133,134,135,136,137,138,139,140,141,142,143,144]) 65 0 0 0 0 0 (-1),
   N (some [161,162,163,164,165,166,167,168,169,170,171,172,173,174,175,176]) 65 0 0 0 0 0 (-1),
   N (some [193,194,195,196,197,198,199,200,201,202,203,204,205,206,207,208]) 65 0 0 0 0 0 (-1),
   D,
   D,
   D,
   D,
   D,
   D,
   D,
   D,
   D,
   D,
   D,
   D,
   N (some [113,114,115,116,117,118,119,120,121,122,123,124,125,126,127,128]) 81 1 0 0 0 2 (-1),
   D,
   D,
   D,
   D,
   D,
   D,
   D,
   D,
   D,
   D,
   D,
   D,
   D,
   D,
   D,
   N none 97 0 0 0 0 1 0,
   N none 97 1 0 0 0 1 1,
   D,
   D,
   D,
   D,
   D,
   D,
   D,
   D,
   D,
   D,
   D,
   D,
   D,
   D,
   N (some [145,146,147,148,149,150,151,152,153,154,155,156,157,158,159,160]) 82 4 0 0 0 1 (-1),
   D,
   D,
   D,
   D,
   D,
   D,
   D,
   D,
   D,
   D,
   D,
   D,
   D,
   D,
   D,
   N none 129 4 0 0 0 1 2,
   D,
   D,
   D,
   D,
   D,
   D,
   D,
   D,
   D,
   D,
   D,
   D,
   D,
   D,
   D,
   N (some [177,178,179,180,181,182,183,184,185,186,187,188,189,190,191,192]) 83 0 4 0 0 1 (-1),
   D,
   D,
   D,
   D,
   D,
   D,
   D,
   D,
   D,
   D,
   D,
   D,
   D,
   D,
   D,
   N none 161 0 4 0 0 1 3,
   D,
   D,
   D,
   D,
   D,
   D,
   D,
   D,
   D,
   D,
   D,
   D,
   D,
   D,
   D,
   N (some [209,210,211,212,213,214,215,216,217,218,219,220,221,222,223,224]) 84 4 4 0 0 1 (-1),
   N (some [225,226,227,228,229,230,231,232,233,234,235,236,237,238,239,240]) 84 6 4 0 0 1 (-1),
   N (some [241,242,243,244,245,246,247,248,249,250,251,252,253,254,255,256]) 84 4 6 0 0 1 (-1),
   N (some [257,258,259,260,261,262,263,264,265,266,267,268,269,270,271,272]) 84 6 6 0 0 1 (-1),
   N (some [273,274,275,276,277,278,279,280,281,282,283,284,285,286,287,288]) 84 4 4 2 0 1 (-1),
   N (some [289,290,291,292,293,294,295,296,297,298,299,300,301,302,303,304]) 84 6 4 2 0 1 (-1),
   N (some [305,306,307,308,309,310,311,312,313,314,315,316,317,318,319,320]) 84 4 6 2 0 1 (-1),
   N (some [321,322,323,324,325,326,327,328,329,330,331,332,333,334,335,336]) 84 6 6 2 0 1 (-1),
   N (some [337,338,339,340,341,342,343,344,345,346,347,348,349,350,351,352]) 84 4 4 0 2 1 (-1),
   N (some [353,354,355,356,357,358,359,360,361,362,363,364,365,366,367,368]) 84 6 4 0 2 1 (-1),
   N (some [369,370,371,372,373,374,375,376,377,378,379,380,381,382,383,384]) 84 4 6 0 2 1 (-1),
   N (some [385,386,387,388,389,390,391,392,393,394,395,396,397,398,399,400]) 84 6 6 0 2 1 (-1),
   N (some [401,402,403,404,405,406,407,408,409,410,411,412,413,414,415,416]) 84 4 4 2 2 1 (-1),
   N (some [417,418,419,420,421,422,423,424,425,426,427,428,429,430,431,432]) 84 6 4 2 2 1 (-1),
   D,
   D,
   N none 193 4 4 0 0 1 4,
   D,
   D,
   D,
   D,
   D,
   D,
   D,
   D,
   D,
   D,
   D,
   D,
   D,
   D,
   D,
   N none 194 6 4 0 0 1 5,
   D,
   D,
   D,
   D,
   D,
   D,
   D,
   D,
   D,
   D,
   D,
   D,
   D,
   D,
   D,
   N none 195 4 6 0 0 1 6,
   D,
   D,
   D,
   D,
   D,
   D,
   D,
   D,
   D,
   D,
   D,
   D,
   D,
   D,
   D,
   N none 196 6 6 0 0 1 7,
   D,
   D,
   D,
   D,
   D,
   D,
   D,
   D,
   D,
   D,
   D,
   D,
   D,
   D,
   D,
   N none 197 4 4 2 0 1 8,
   D,
   D,
   D,
   D,
   D,
   D,
   D,
   D,
   D,
   D,
   D,
   D,
   D,
   D,
   D,
   N none 198 6 4 2 0 1 9,
   D,
   D,
   D,
   D,
   D,
   D,
   D,
   D,
   D,
   D,
   D,
   D,
   D,
   D,
   D,
   N none 199 4 6 2 0 1 10,
   D,
   D,
   D,
   D,
   D,
   D,
   D,
   D,
   D,
   D,
   D,
   D,
   D,
   D,
   D,
   N none 200 6 6 2 0 1 11,
   D,
   D,
   D,
   D,
   D,
   D,
   D,
   D,
   D,
   D,
   D,
   D,
   D,
   D,
   D,
   N none 201 4 4 0 2 1 12,
   D,
   D,
   D,
   D,
   D,
   D,
   D,
   D,
   D,
   D,
   D,
   D,
   D,
   D,
   D,
   N none 202 6 4 0 2 1 13,
   D,
   D,
   D,
   D,
   D,
   D,
   D,
   D,
   D,
   D,
   D,
   D,
   D,
   D,
   D,
   N none 203 4 6 0 2 1 14,
   D,
   D,
   D,
   D,
   D,
   D,
   D,
   D,
   D,
   D,
   D,
   D,
   D,
   D,
   D,
   N none 204 6 6 0 2 1 15,
   D,
   D,
   D,
   D,
   D,
   D,
   D,
   D,
   D,
   D,
   D,
   D,
   D,
   D,
   D,
   N none 205 4 4 2 2 1 16,
   D,
   D,
   D,
   D,
   D,
   D,
   D,
   D,
   D,
   D,
   D,
   D,
   D,
   D,
   D,
   N none 206 6 4 2 2 1 17,
   D,
   D,
   D,
   D,
   D,
   D,
   D,
   D,
   D,
   D,
   D,
   D,
   D,
   D,
   D],
 [97,129,161,193,194,195,196,197,198,199,200,201,202,203,204,205,206], []⟩

/-- Gluing the end of pass one to the start of pass two. -/
theorem c6_p2glue :
    (⟨c6st17.heap, c6st17.leaves ++ c6st17.aux.reverse, []⟩ : MPSt) = c6stP2 := by
  decide

/-- C6 reduction state after 1 collapse step of the second pass. -/
def c6stB1 : MPSt :=
  ⟨[N (some [1,2,3,4,5,6,7,8,9,10,11,12,13,14,15,16]) 0 0 0 0 0 0 (-1),
   N (some [17,18,19,20,21,22,23,24,25,26,27,28,29,30,31,32]) 0 0 0 0 0 0 (-1),
   D,
   D,
   D,
   D,
   D,
   D,
   D,
   D,
   D,
   D,
   D,
   D,
   D,
   D,
   D,
   N (some [33,34,35,36,37,38,39,40,41,42,43,44,45,46,47,48]) 1 0 0 0 0 0 (-1),
   D,
   D,
   D,
   D,
   D,
   D,
   D,
   D,
   D,
   D,
   D,
   D,
   D,
   D,
   D,
   N (some [49,50,51,52,53,54,55,56,57,58,59,60,61,62,63,64]) 17 0 0 0 0 0 (-1),
   D,
   D,
   D,
   D,
   D,
   D,
   D,
   D,
   D,
   D,
   D,
   D,
   D,
   D,
   D,
   N (some [65,66,67,68,69,70,71,72,73,74,75,76,77,78,79,80]) 33 0 0 0 0 0 (-1),
   D,
   D,
   D,
   D,
   D,
   D,
   D,
   D,
   D,
   D,
   D,
   D,
   D,
   D,
   D,
   N (some [81,82,83,84,85,86,87,88,89,90,91,92,93,94,95,96]) 49 0 0 0 0 0 (-1),
   D,
   D,
   D,
   D,
   D,
   D,
   D,
   D,
   D,
   D,
   D,
   D,
   D,
   D,
   D,
   N (some [97,98,99,100,101,102,103,104,105,106,107,108,109,110,111,112]) 65 0 0 0 0 0 (-1),
   N (some [129,130,131,132,133,134,135,136,137,138,139,140,141,142,143,144]) 65 0 0 0 0 0 (-1),
   N (some [161,162,163,164,165,166,167,168,169,170,171,172,173,174,175,176]) 65 0 0 0 0 0 (-1),
   N (some [193,194,195,196,197,198,199,200,201,202,203,204,205,206,207,208]) 65 70 68 12 12 14 (-1),
   D,
   D,
   D,
   D,
   D,
   D,
   D,
   D,
   D,
   D,
   D,
   D,
   N (some [113,114,115,116,117,118,119,120,121,122,123,124,125,126,127,128]) 81 1 0 0 0 2 (-1),
   D,
   D,
   D,
   D,
   D,
   D,
   D,
   D,
   D,
   D,
   D,
   D,
   D,
   D,
   D,
   N none 97 0 0 0 0 1 0,
   N none 97 1 0 0 0 1 1,
   D,
   D,
   D,
   D,
   D,
   D,
   D,
   D,
   D,
   D,
   D,
   D,
   D,
   D,
   N (some [145,146,147,148,149,150,151,152,153,154,155,156,157,158,159,160]) 82 4 0 0 0 1 (-1),
   D,
   D,
   D,
   D,
   D,
   D,
   D,
   D,
   D,
   D,
   D,
   D,
   D,
   D,
   D,
   N none 129 4 0 0 0 1 2,
   D,
   D,
   D,
   D,
   D,
   D,
   D,
   D,
   D,
   D,
   D,
   D,
   D,
   D,
   D,
   N (some [177,178,179,180,181,182,183,184,185,186,187,188,189,190,191,192]) 83 0 4 0 0 1 (-1),
   D,
   D,
   D,
   D,
   D,
   D,
   D,
   D,
   D,
   D,
   D,
   D,
   D,
   D,
   D,
   N none 161 0 4 0 0 1 3,
   D,
   D,
   D,
   D,
   D,
   D,
   D,
   D,
   D,
   D,
   D,
   D,
   D,
   D,
   D,
   N (some [209,210,211,212,213,214,215,216,217,218,219,220,221,222,223,224]) 84 4 4 0 0 1 (-1),
   N (some [225,226,227,228,229,230,231,232,233,234,235,236,237,238,239,240]) 84 6 4 0 0 1 (-1),
   N (some [241,242,243,244,245,246,247,248,249,250,251,252,253,254,255,256]) 84 4 6 0 0 1 (-1),
   N (some [257,258,259,260,261,262,263,264,265,266,267,268,269,270,271,272]) 84 6 6 0 0 1 (-1),
   N (some [273,274,275,276,277,278,279,280,281,282,283,284,285,286,287,288]) 84 4 4 2 0 1 (-1),
   N (some [289,290,291,292,293,294,295,296,297,298,299,300,301,302,303,304]) 84 6 4 2 0 1 (-1),
   N (some [305,306,307,308,309,310,311,312,313,314,315,316,317,318,319,320]) 84 4 6 2 0 1 (-1),
   N (some [321,322,323,324,325,326,327,328,329,330,331,332,333,334,335,336]) 84 6 6 2 0 1 (-1),
   N (some [337,338,339,340,341,342,343,344,345,346,347,348,349,350,351,352]) 84 4 4 0 2 1 (-1),
   N (some [353,354,355,356,357,358,359,360,361,362,363,364,365,366,367,368]) 84 6 4 0 2 1 (-1),
   N (some [369,370,371,372,373,374,375,376,377,378,379,380,381,382,383,384]) 84 4 6 0 2 1 (-1),
   N (some [385,386,387,388,389,390,391,392,393,394,395,396,397,398,399,400]) 84 6 6 0 2 1 (-1),
   N (some [401,402,403,404,405,406,407,408,409,410,411,412,413,414,415,416]) 84 4 4 2 2 1 (-1),
   N (some [417,418,419,420,421,422,423,424,425,426,427,428,429,430,431,432]) 84 6 4 2 2 1 (-1),
   D,
   D,
   N none 193 4 4 0 0 1 4,
   D,
   D,
   D,
   D,
   D,
   D,
   D,
   D,
   D,
   D,
   D,
   D,
   D,
   D,
   D,
   N none 194 6 4 0 0 1 5,
   D,
   D,
   D,
   D,
   D,
   D,
   D,
   D,
   D,
   D,
   D,
   D,
   D,
   D,
   D,
   N none 195 4 6 0 0 1 6,
   D,
   D,
   D,
   D,
   D,
   D,
   D,
   D,
   D,
   D,
   D,
   D,
   D,
   D,
   D,
   N none 196 6 6 0 0 1 7,
   D,
   D,
   D,
   D,
   D,
   D,
   D,
   D,
   D,
   D,
   D,
   D,
   D,
   D,
   D,
   N none 197 4 4 2 0 1 8,
   D,
   D,
   D,
   D,
   D,
   D,
   D,
   D,
   D,
   D,
   D,
   D,
   D,
   D,
   D,
   N none 198 6 4 2 0 1 9,
   D,
   D,
   D,
   D,
   D,
   D,
   D,
   D,
   D,
   D,
   D,
   D,
   D,
   D,
   D,
   N none 199 4 6 2 0 1 10,
   D,
   D,
   D,
   D,
   D,
   D,
   D,
   D,
   D,
   D,
   D,
   D,
   D,
   D,
   D,
   N none 200 6 6 2 0 1 11,
   D,
   D,
   D,
   D,
   D,
   D,
   D,
   D,
   D,
   D,
   D,
   D,
   D,
   D,
   D,
   N none 201 4 4 0 2 1 12,
   D,
   D,
   D,
   D,
   D,
   D,
   D,
   D,
   D,
   D,
   D,
   D,
   D,
   D,
   D,
   N none 202 6 4 0 2 1 13,
   D,
   D,
   D,
   D,
   D,
   D,
   D,
   D,
   D,
   D,
   D,
   D,
   D,
   D,
   D,
   N none 203 4 6 0 2 1 14,
   D,
   D,
   D,
   D,
   D,
   D,
   D,
   D,
   D,
   D,
   D,
   D,
   D,
   D,
   D,
   N none 204 6 6 0 2 1 15,
   D,
   D,
   D,
   D,
   D,
   D,
   D,
   D,
   D,
   D,
   D,
   D,
   D,
   D,
   D,
   N none 205 4 4 2 2 1 16,
   D,
   D,
   D,
   D,
   D,
   D,
   D,
   D,
   D,
   D,
   D,
   D,
   D,
   D,
   D,
   N none 206 6 4 2 2 1 17,
   D,
   D,
   D,
   D,
   D,
   D,
   D,
   D,
   D,
   D,
   D,
   D,
   D,
   D,
   D],
 [97,129,161], [84]⟩

/-- Collapse step 1 of the second pass, checked on literal states. -/
theorem c6_ib2_1 : innerBody c6stP2 = c6stB1 := by
  decide




/-- Final reduction state of the C6 instance: the second pass fits the
target after a single collapse step (the 14-leaf sibling group folds into
one parent), leaving 4 leaves. -/
def c6stDone : MPSt :=
  ⟨c6stB1.heap, c6stB1.leaves ++ c6stB1.aux.reverse, c6stB1.aux⟩

/-- The second reduction pass of the C6 instance: one collapse step folds
the whole 14-leaf sibling group, dropping the total from 17 to 4, below the
target 5, so the loop stops with 4 leaves. -/
theorem c6_pass2 : innerLoop 5 17 c6stP2 = (c6stDone, false) := by
  have g1 : innerLoop 5 17 c6stP2 = innerLoop 5 16 c6stB1 :=
    innerLoop_step 5 16 c6stP2 c6stB1 (by decide) (by decide) c6_ib2_1
  have gE : innerLoop 5 16 c6stB1 = (c6stDone, false) := by decide
  exact g1.trans gE

/-- The whole level loop of the C6 instance ends in `c6stDone`. -/
theorem c6_levels : levelsLoop 5 9 c6st0 = c6stDone := by
  have l1 : levelsLoop 5 9 c6st0 = levelsLoop 5 8 c6stP2 := by
    have h := levelsLoop_step_true 5 8 c6st0 c6st17 c6_pass1
    rw [c6_p2glue] at h
    exact h
  have l2 : levelsLoop 5 8 c6stP2 = c6stDone :=
    levelsLoop_step_false 5 7 c6stP2 c6stDone c6_pass2
  exact l1.trans l2

/-- The palette built for the C6 instance has 4 entries, not the requested 5. -/
theorem c6_mp_len : (mapC6.makePalette [] 5 8).2.1.length = 4 := by
  rw [c6_map_eq]
  simp only [OctreeMap.makePalette]
  rw [c6_collect]
  rw [if_neg (by decide)]
  show (buildPalette (levelsLoop 5 9 c6st0).heap
    (levelsLoop 5 9 c6st0).leaves false).length = 4
  rw [c6_levels]
  decide

/-- C6 counterexample: on `mapC6` with target count 5 (< 16), the first
reduction pass exhausts the leaf set (final leaves empty, 17 collapsed
parents, still above the target), yet the loop ends with the keep-reducing
flag set — the fallback is skipped because 17 collapsed parents exceed the
hard-coded bound 16 — and the final palette has 4 entries, not the 5 the
claim promises. -/
theorem spec_c6_counterexample :
    mapC6.collectPhase = (c6colHeap, c6colLeaves) ∧
    innerLoop 5 18 ⟨c6colHeap, c6colLeaves, []⟩ = (c6st17, true) ∧
    c6st17.leaves.length = 0 ∧
    c6st17.aux.length = 17 ∧
    uleB (c6st17.leaves.length + c6st17.aux.length) 5 = false ∧
    (5 : Int) < 16 ∧
    (mapC6.makePalette [] 5 8).2.1.length = 4 := by
  refine ⟨?_, c6_pass1, by decide, by decide, by decide, by decide, c6_mp_len⟩
  rw [c6_map_eq]
  exact c6_collect

/-- The scan for the most-used entry stays inside the vector. -/
theorem findMaxIdx_lt (h : Heap) (aux : List Nat) (hne : aux ≠ []) :
    findMaxIdx h aux < aux.length := by
  have hlen : 0 < aux.length := List.length_pos.mpr hne
  unfold findMaxIdx
  have key : ∀ (l : List Nat) (b : Nat), b < aux.length →
      (∀ j ∈ l, j < aux.length) →
      (l.foldl (fun best j =>
        if leafPixelCount h (aux.getD best 0) < leafPixelCount h (aux.getD j 0)
        then j else best) b) < aux.length := by
    intro l
    induction l with
    | nil =>
      intro b hb _
      simpa using hb
    | cons x t ih =>
      intro b hb hmem
      rw [List.foldl_cons]
      apply ih
      · dsimp only
        split
        · exact hmem x (by simp)
        · exact hb
      · intro j hj
        exact hmem j (by simp [hj])
  apply key
  · exact hlen
  · intro j hj
    exact List.mem_range.mp (List.drop_subset _ _ hj)

/-- The selection-sort phase with fuel covering the whole vector moves every
entry: the sorted vector grows by exactly the vector's length. -/
theorem sortLoop_len (h : Heap) :
    ∀ (k : Nat) (aux sorted : List Nat), aux.length = k →
      ((sortLoop h k aux sorted).2).length = sorted.length + k := by
  intro k
  induction k with
  | zero =>
    intro aux sorted _
    simp [sortLoop]
  | succ n ih =>
    intro aux sorted hlen
    have hne : aux ≠ [] := by
      intro hnil
      rw [hnil] at hlen
      simp at hlen
    have hmi : findMaxIdx h aux < aux.length := findMaxIdx_lt h aux hne
    rw [sortLoop]
    rw [ih _ _ (by rw [List.length_eraseIdx_of_lt hmi] ; omega)]
    simp
    omega

/-- The blend phase with enough fuel stops exactly at the (unsigned) target
count. -/
theorem blendLoopGo_len (cc : Int) :
    ∀ (fuel : Nat) (h : Heap) (s : List Nat),
      (cc.emod (2 ^ 64)).toNat ≤ s.length →
      s.length ≤ fuel + (cc.emod (2 ^ 64)).toNat →
      ((blendLoopGo cc fuel h s).2).length = (cc.emod (2 ^ 64)).toNat := by
  intro fuel
  induction fuel with
  | zero =>
    intro h s h1 h2
    rw [blendLoopGo]
    dsimp only
    omega
  | succ n ih =>
    intro h s h1 h2
    rw [blendLoopGo]
    by_cases hle : uleB s.length cc = true
    · rw [if_pos hle]
      simp only [uleB, decide_eq_true_eq] at hle
      dsimp only
      omega
    · rw [if_neg (by simpa using hle)]
      simp only [uleB, decide_eq_true_eq] at hle
      apply ih
      · rw [List.length_dropLast]
        omega
      · rw [List.length_dropLast]
        omega

/-- C6 as amended: when a reduction pass has exhausted the leaf set while
still above the target, the fallback runs only under the additional guards
the code enforces — at most 16 collapsed parents, and a target strictly
between 0 and 16; when those guards hold the fallback indeed sorts the
collapsed leaves and blends from the least-used end until exactly the
target count of leaves remains. -/
theorem spec_c6_fallback_amended (cc : Int) (i : Nat) (st : MPSt)
    (hlv : st.leaves = [])
    (hbig : uleB (st.leaves.length + st.aux.length) cc = false)
    (haux : st.aux.length ≤ 16) (hcc0 : 0 < cc) (hcc16 : cc < 16) :
    innerLoop cc (i + 1) st = (fallbackBlend cc st, false) ∧
    (fallbackBlend cc st).leaves.length = cc.toNat := by
  have hpow : (2 : Int) ^ 64 = 18446744073709551616 := by norm_num
  have hccN : (cc.emod (2 ^ 64)).toNat = cc.toNat := by
    have h1 : cc.emod 18446744073709551616 = cc := by
      have h2 : cc.emod 18446744073709551616 = cc % 18446744073709551616 := rfl
      rw [h2]
      omega
    rw [hpow, h1]
  have hgt : cc.toNat < st.aux.length := by
    have hnot : ¬ (st.leaves.length + st.aux.length ≤ (cc.emod (2 ^ 64)).toNat) := by
      simpa [uleB] using hbig
    rw [hccN, hlv] at hnot
    simp at hnot
    omega
  constructor
  · rw [innerLoop, hbig]
    simp [hlv, haux, hcc16, hcc0]
  · unfold fallbackBlend
    have hsort : ((sortLoop st.heap st.aux.length st.aux []).2).length =
        st.aux.length := by
      simpa using sortLoop_len st.heap st.aux.length st.aux [] rfl
    have hblend :
        ((blendLoop cc st.heap (sortLoop st.heap st.aux.length st.aux []).2).2).length =
          (cc.emod (2 ^ 64)).toNat := by
      unfold blendLoop
      apply blendLoopGo_len
      · rw [hsort]
        omega
      · omega
    dsimp only
    rw [hlv, List.nil_append, hblend, hccN]

/-- Heap for the C6 amended-theorem witness: three leaves with pixel counts
3, 1 and 2. -/
def c6wHeap : Heap :=
  [D, N none 0 10 0 0 0 3 (-1), N none 0 0 20 0 0 1 (-1),
   N none 0 0 0 30 0 2 (-1)]

/-- An exhausted reduction state over `c6wHeap`: no leaves left, three
collapsed parents, target 2. -/
def c6wSt : MPSt := ⟨c6wHeap, [], [1, 2, 3]⟩

/-- Witness for the amended C6 theorem at the concrete state `c6wSt` with
target 2. -/
theorem spec_c6_fallback_amended_witness :
    innerLoop 2 5 c6wSt = (fallbackBlend 2 c6wSt, false) ∧
    (fallbackBlend 2 c6wSt).leaves.length = (2 : Int).toNat :=
  spec_c6_fallback_amended 2 4 c6wSt rfl (by decide) (by decide) (by decide)
    (by decide)
